import Mathlib

/-!
# hyprgrid: grid geometry and window positioning

A shallow embedding of the positioning core of hyprgrid
(`src/gridmanager.cpp`, `src/hyprlandapi.cpp`, `src/config.cpp`) and the
properties proved about it.

Conventions of the embedding:

* C++ `int` values are mathematical integers.  Signed overflow is undefined
  behaviour in C++, so the definitions that compute with exact values describe
  the executions in which every intermediate value fits in an `int`.  Where
  overflow matters, in the grid branch of `gridToPixelPosition`, the function
  is also given in 32-bit arithmetic (`gridToPixelPosition32`); the two agree
  when nothing overflows.  Integer division is `Int.tdiv` (truncation toward
  zero, as in C++); a zero divisor has no defined result and is reported as
  `none`.
* C++ `double` values are finite and given by their exact rational value; the
  product of two doubles is rounded to the nearest binary64 value (ties to
  even) by `roundToDouble`.
* Diagnostic output (`std::cout`, `qDebug`, the log helpers) and Qt signals are
  not part of the embedding.
-/

namespace HyprGrid

/-! ## Numbers -/

/-- Finite values of the C++ type `double`, each given by its exact value. -/
abbrev Double := ℚ

/-- Rounding of a rational to the nearest integer, ties going to the even one. -/
def roundHalfEven (x : ℚ) : ℤ :=
  let f := ⌊x⌋
  if x - f < 1 / 2 then f
  else if 1 / 2 < x - f then f + 1
  else if f % 2 = 0 then f else f + 1

/-- IEEE 754 binary64 rounding (round to nearest, ties to even) of an exact
result: 53 significant bits, least exponent -1022 (below it the spacing stays
`2 ^ (-1074)`, the subnormal range).  Overflow to infinity is not modelled: the
products formed by the program are bounded by the screen size. -/
def roundToDouble (q : ℚ) : Double :=
  if q = 0 then 0
  else
    let e := max (Int.log 2 |q|) (-1022)
    let ulp : ℚ := 2 ^ (e - 52)
    roundHalfEven (q / ulp) * ulp

/-- The C++ expression `n * d` for an `int n` and a `double d`: the integer is
converted to `double` (exactly, an `int` has 32 bits) and the product is
rounded. -/
def mulIntDouble (n : ℤ) (d : Double) : Double :=
  roundToDouble ((n : ℚ) * d)

/-- The C++ conversion `static_cast<int>(d)`: truncation toward zero. -/
def truncToInt (d : Double) : ℤ :=
  if 0 ≤ d then ⌊d⌋ else ⌈d⌉

/-! ## Data (`gridmanager.h`) -/

/-- The struct `GridPosition`. -/
structure GridPosition where
  x : ℤ
  y : ℤ
  width : ℤ
  height : ℤ
  centered : Bool := false
  scale : Double := 1
  deriving DecidableEq, Repr

/-- The struct `PixelPosition`. -/
structure PixelPosition where
  x : ℤ
  y : ℤ
  width : ℤ
  height : ℤ
  deriving DecidableEq, Repr

/-- The struct `Screen`. -/
structure Screen where
  width : ℤ
  height : ℤ
  reservedTop : ℤ
  reservedBottom : ℤ
  reservedLeft : ℤ
  reservedRight : ℤ
  scale : Double
  deriving DecidableEq, Repr

/-! ## Configuration (`config.cpp`) -/

/-- A `QMap<QString, T>` listed by its entries. -/
def QMap (β : Type) : Type := List (String × β)

/-- The value of `m[key]`, which is a default-constructed value for a key that
is not in the map. -/
def QMap.value {β : Type} (m : QMap β) (key : String) (dflt : β) : β :=
  match List.lookup key m with
  | some v => v
  | none => dflt

/-- The `QVariantMap` of one stored position, seen through the conversions
`getGridPosition` applies to it: a field is `none` when the key is missing (or
its value does not convert), and otherwise holds what `toInt()`, `toBool()` or
`toDouble()` returns for it. -/
structure PositionData where
  x : Option ℤ := none
  y : Option ℤ := none
  width : Option ℤ := none
  height : Option ℤ := none
  centered : Option Bool := none
  scale : Option Double := none
  deriving DecidableEq, Repr

/-- The configuration held by `Config`, seen through the conversions the
program applies to its entries: `rows`, `columns`, `gaps` are
`m_gridConfig[..].toInt()`, `showNotifications` and `notificationDuration` come
from `m_appearanceConfig`, `useTiling`, `retryOnFailure`, `retryCount` and
`retryDelay` from `m_advancedConfig` (a missing key reads as `0` or `false`),
and `presets` is `m_presets`. -/
structure Config where
  rows : ℤ
  columns : ℤ
  gaps : ℤ
  showNotifications : Bool
  notificationDuration : ℤ
  useTiling : Bool
  retryOnFailure : Bool
  retryCount : ℤ
  retryDelay : ℤ
  presets : QMap (QMap PositionData)

/-- The local `defaultPreset` of `Config::loadDefaultConfig`, in key order.
The scales 0.85, 0.65 and 0.4 are the binary64 values of these literals. -/
def defaultPreset : QMap PositionData :=
  [("bottom", { x := some 0, y := some 2, width := some 3, height := some 1 }),
   ("bottom-left", { x := some 0, y := some 2, width := some 1, height := some 1 }),
   ("bottom-right", { x := some 2, y := some 2, width := some 1, height := some 1 }),
   ("full", { x := some 0, y := some 0, width := some 3, height := some 3 }),
   ("large", { x := some 0, y := some 0, width := some 3, height := some 3,
               centered := some true,
               scale := some (7656119366529843 / 9007199254740992) }),
   ("left", { x := some 0, y := some 0, width := some 1, height := some 3 }),
   ("medium", { x := some 0, y := some 0, width := some 3, height := some 3,
                centered := some true,
                scale := some (5854679515581645 / 9007199254740992) }),
   ("right", { x := some 2, y := some 0, width := some 1, height := some 3 }),
   ("small", { x := some 0, y := some 0, width := some 3, height := some 3,
               centered := some true,
               scale := some (3602879701896397 / 9007199254740992) }),
   ("top", { x := some 0, y := some 0, width := some 3, height := some 1 }),
   ("top-left", { x := some 0, y := some 0, width := some 1, height := some 1 }),
   ("top-right", { x := some 2, y := some 0, width := some 1, height := some 1 })]

/-- The presets written by `Config::loadDefaultConfig`. -/
def defaultPresets : QMap (QMap PositionData) :=
  [("default", defaultPreset)]

/-- The configuration set up by `Config::loadDefaultConfig` (it has no
`useTiling` entry, which reads as `false`). -/
def loadDefaultConfig : Config :=
  { rows := 3
    columns := 3
    gaps := 5
    showNotifications := true
    notificationDuration := 2000
    useTiling := false
    retryOnFailure := true
    retryCount := 3
    retryDelay := 200
    presets := defaultPresets }

/-! ## Geometry (`GridManager::gridToPixelPosition`) -/

/-- The local `cellWidth` of `gridToPixelPosition`. -/
def cellWidth (cfg : Config) (screen : Screen) : ℤ :=
  Int.tdiv (screen.width - cfg.gaps * (cfg.columns + 1)) cfg.columns

/-- The local `cellHeight` of `gridToPixelPosition`. -/
def cellHeight (cfg : Config) (screen : Screen) : ℤ :=
  Int.tdiv (screen.height - cfg.gaps * (cfg.rows + 1)) cfg.rows

/-- The test `position.centered && position.scale > 0.0 && position.scale < 1.0`
that selects the centered, scaled placement. -/
def centeredScaled (position : GridPosition) : Bool :=
  position.centered && decide (0 < position.scale) && decide (position.scale < 1)

/-- The function `GridManager::gridToPixelPosition`.  The two cell sizes are
computed first, for every position, so a grid with no column or no row divides
by zero: there is no result then. -/
def gridToPixelPosition (cfg : Config) (position : GridPosition) (screen : Screen) :
    Option PixelPosition :=
  let rows := cfg.rows
  let cols := cfg.columns
  let gaps := cfg.gaps
  if cols = 0 ∨ rows = 0 then none
  else
    let cellWidth := cellWidth cfg screen
    let cellHeight := cellHeight cfg screen
    if centeredScaled position then
      let scaledWidth := truncToInt (mulIntDouble screen.width position.scale)
      let scaledHeight := truncToInt (mulIntDouble screen.height position.scale)
      some { x := Int.tdiv (screen.width - scaledWidth) 2
             y := Int.tdiv (screen.height - scaledHeight) 2
             width := scaledWidth
             height := scaledHeight }
    else
      some { x := gaps + position.x * (cellWidth + gaps)
             y := gaps + position.y * (cellHeight + gaps)
             width := position.width * cellWidth + (position.width - 1) * gaps
             height := position.height * cellHeight + (position.height - 1) * gaps }

/-! ## Presets (`GridManager::getGridPosition`) -/

/-- The function `GridManager::getGridPosition`. -/
def getGridPosition (cfg : Config) (preset code : String) : GridPosition :=
  let presets := cfg.presets
  let presetData := presets.value preset []
  let positionData := presetData.value code {}
  let scale := positionData.scale.getD 0
  { x := positionData.x.getD 0
    y := positionData.y.getD 0
    width := positionData.width.getD 0
    height := positionData.height.getD 0
    centered := positionData.centered.getD false
    scale := if scale ≤ 0 then 1 else scale }

/-! ## The compositor (`hyprlandapi.cpp`)

Every run of `hyprctl` is answered by the environment.  An answer may depend on
everything that happened before, which is the list of events so far. -/

/-- The commands the program passes to `hyprctl dispatch`:
`togglefloating`, `movewindowpixel exact X Y,address:A` and
`resizewindowpixel exact W H,address:A`. -/
inductive Dispatch where
  | togglefloating
  | movewindowpixel (x y : ℤ) (address : String)
  | resizewindowpixel (width height : ℤ) (address : String)
  deriving DecidableEq, Repr

/-- The runs of `hyprctl` made by the program: `activewindow -j`,
`monitors -j`, `activeworkspace -j`, `clients -j`, `reload` and
`dispatch COMMAND`. -/
inductive Hyprctl where
  | activewindow
  | monitors
  | activeworkspace
  | clients
  | reload
  | dispatch (command : Dispatch)
  deriving DecidableEq, Repr

/-- What the program does that can be observed from outside or by its caller:
the entry into a public method of `HyprlandAPI`, a run of `hyprctl`, and a
`QThread::msleep`. -/
inductive Event where
  | moveAndResizeWindow (x y width height : ℤ)
  | positionTiledWindow (x y width height : ℤ)
  | toggleFloating
  | isWindowFloating
  | clearWindowRules
  | sendNotification (title message : String) (timeout : ℤ)
  | hyprctl (run : Hyprctl)
  | msleep (ms : ℤ)
  deriving DecidableEq, Repr

/-- A non-empty `QVariantMap` returned by `getFocusedWindowData`, seen through
the conversions applied to it: `address` is `["address"].toString()`,
`floating` is `["floating"].toBool()`, `atX`, `atY` are the `x`, `y` read from
`["at"]` and `sizeX`, `sizeY` those read from `["size"]`. -/
structure WindowData where
  address : String
  floating : Bool
  atX : ℤ
  atY : ℤ
  sizeX : ℤ
  sizeY : ℤ
  deriving DecidableEq, Repr

/-- A JSON object of the `monitors -j` reply, seen through the conversions
applied to it (`["focused"].toBool()`, `["width"].toInt()`,
`["height"].toInt()`, `["scale"].toDouble()`). -/
structure Monitor where
  focused : Bool
  width : ℤ
  height : ℤ
  scale : Double
  deriving DecidableEq, Repr

/-- The outcome of the `hyprctl clients -j` process started by
`hasMultipleWindowsInWorkspace`: its exit code and its output, which is `none`
when it is not a JSON array; an element is `none` when it is not an object and
otherwise holds `["workspace"].toObject()["id"].toInt()`. -/
structure ClientsReply where
  exitCode : ℤ
  windows : Option (List (Option ℤ))
  deriving DecidableEq, Repr

/-- The environment of the program.  Each field answers one kind of request,
given the events so far:
* `activewindow`: the parsed reply of `hyprctl activewindow -j`, `none` for an
  empty map (no focused window, or a reply that is not a JSON object);
* `monitors`: the reply of `hyprctl monitors -j`, `none` when it is not a JSON
  array, an element being `none` when it is not an object;
* `activeworkspace`: the reply of `hyprctl activeworkspace -j`, `none` when it
  is not a JSON object, otherwise `["id"].toInt()`;
* `clients`: the outcome of `hyprctl clients -j`;
* `dispatch`: the text returned for `hyprctl dispatch COMMAND`;
* `reload`: the text returned for `hyprctl reload`;
* `sendNotification`: whether a notifier was found and exited with code 0. -/
structure Env where
  activewindow : List Event → Option WindowData
  monitors : List Event → Option (List (Option Monitor))
  activeworkspace : List Event → Option ℤ
  clients : List Event → ClientsReply
  dispatch : List Event → Dispatch → String
  reload : List Event → String
  sendNotification : List Event → Bool

/-- The state of the program: the events so far and the members of
`HyprlandAPI`. -/
structure World where
  trace : List Event
  m_initialized : Bool
  m_currentWindowAddress : String
  m_currentWindowRuleIdentifier : String

/-- The world after one more event. -/
def World.record (w : World) (e : Event) : World :=
  { w with trace := w.trace ++ [e] }

/-- The events that happened between the world `w` and the later world `w1`. -/
def World.since (w w1 : World) : List Event :=
  w1.trace.drop w.trace.length

/-! ### Reading a response -/

/-- The test `QChar::isSpace`: the ASCII characters tab, line feed, vertical
tab, form feed, carriage return and space, the characters U+0085 and U+00A0,
and the Unicode separators. -/
def isSpace (c : Char) : Bool :=
  let n := c.toNat
  (9 ≤ n && n ≤ 13) || n = 32 || n = 0x85 || n = 0xA0 || n = 0x1680 ||
    (0x2000 ≤ n && n ≤ 0x200A) || n = 0x2028 || n = 0x2029 || n = 0x202F ||
    n = 0x205F || n = 0x3000

/-- The method `QString::trimmed`: white space removed from both ends. -/
def trimmed (s : String) : String :=
  ⟨((s.data.dropWhile isSpace).reverse.dropWhile isSpace).reverse⟩

/-- The method `QString::contains(pattern, Qt::CaseInsensitive)` for the
patterns used by the program, which are lower-case ASCII words: the only
characters that match one of their letters are the letter itself and its ASCII
capital. -/
def containsCI (s pattern : String) : Bool :=
  decide (pattern.data.map Char.toLower <:+: s.data.map Char.toLower)

/-! ### Queries and commands -/

/-- The method `HyprlandAPI::getFocusedWindowData`: one run of
`hyprctl activewindow -j`. -/
def getFocusedWindowData (env : Env) (w : World) : Option WindowData × World :=
  (env.activewindow w.trace, w.record (.hyprctl .activewindow))

/-- The method `HyprlandAPI::executeHyprlandCommand`: one run of
`hyprctl dispatch COMMAND`, returning its text. -/
def executeHyprlandCommand (env : Env) (command : Dispatch) (w : World) : String × World :=
  (env.dispatch w.trace command, w.record (.hyprctl (.dispatch command)))

/-- The method `HyprlandAPI::getFocusedMonitorData`: the focused monitor, else
the first element of the reply when it is an object, else an empty map
(`none`). -/
def getFocusedMonitorData (env : Env) (w : World) : Option Monitor × World :=
  let w1 := w.record (.hyprctl .monitors)
  match env.monitors w.trace with
  | none => (none, w1)
  | some monitors =>
    match monitors.find? (fun val => match val with
        | some monitor => monitor.focused
        | none => false) with
    | some found => (found, w1)
    | none =>
      match monitors.head? with
      | some (some monitor) => (some monitor, w1)
      | _ => (none, w1)

/-- The method `HyprlandAPI::getCurrentWorkspaceId`. -/
def getCurrentWorkspaceId (env : Env) (w : World) : ℤ × World :=
  let w1 := w.record (.hyprctl .activeworkspace)
  match env.activeworkspace w.trace with
  | none => (-1, w1)
  | some id => (id, w1)

/-- The success test applied by `moveAndResizeWindow` to the text returned for
a command. -/
def moveResizeSuccess (result : String) : Bool :=
  trimmed result == "" || trimmed result == "ok" ||
    (!containsCI result "error" && !containsCI result "failed")

/-- The success test applied by `positionTiledWindow` to the text returned for
a command. -/
def tiledSuccess (result : String) : Bool :=
  trimmed result == "" ||
    (!containsCI result "error" && !containsCI result "failed")

/-- The method `HyprlandAPI::moveAndResizeWindow`. -/
def moveAndResizeWindow (env : Env) (x y width height : ℤ) (w : World) : Bool × World :=
  let w := w.record (.moveAndResizeWindow x y width height)
  if !w.m_initialized then (false, w)
  else
    let r := getFocusedWindowData env w
    match r.1 with
    | none => (false, r.2)
    | some windowData =>
      let w := { r.2 with m_currentWindowAddress := windowData.address }
      let moveCmd := Dispatch.movewindowpixel x y w.m_currentWindowAddress
      let resizeCmd := Dispatch.resizewindowpixel width height w.m_currentWindowAddress
      let moveResult := executeHyprlandCommand env moveCmd w
      let resizeResult := executeHyprlandCommand env resizeCmd moveResult.2
      let moveSuccess := moveResizeSuccess moveResult.1
      let resizeSuccess := moveResizeSuccess resizeResult.1
      (moveSuccess && resizeSuccess, resizeResult.2)

/-- The method `HyprlandAPI::toggleFloating`. -/
def toggleFloating (env : Env) (w : World) : Bool × World :=
  let w := w.record .toggleFloating
  if !w.m_initialized then (false, w)
  else
    let r := getFocusedWindowData env w
    match r.1 with
    | none => (false, r.2)
    | some windowData =>
      let w := { r.2 with m_currentWindowAddress := windowData.address }
      let result := executeHyprlandCommand env .togglefloating w
      (!containsCI result.1 "error" && !containsCI result.1 "failed", result.2)

/-- The method `HyprlandAPI::isWindowFloating`. -/
def isWindowFloating (env : Env) (w : World) : Bool × World :=
  let w := w.record .isWindowFloating
  if !w.m_initialized then (false, w)
  else
    let r := getFocusedWindowData env w
    match r.1 with
    | none => (false, r.2)
    | some windowData => (windowData.floating, r.2)

/-- The method `HyprlandAPI::clearWindowRules`. -/
def clearWindowRules (env : Env) (w : World) : Bool × World :=
  let w := w.record .clearWindowRules
  if !w.m_initialized then (false, w)
  else
    let result := env.reload w.trace
    let w := { w.record (.hyprctl .reload) with m_currentWindowRuleIdentifier := "" }
    (trimmed result == "" || !containsCI result "error", w)

/-- The method `HyprlandAPI::sendNotification`. -/
def sendNotification (env : Env) (title message : String) (timeout : ℤ) (w : World) :
    Bool × World :=
  (env.sendNotification w.trace, w.record (.sendNotification title message timeout))

/-- The local `positionMatch` of `positionTiledWindow`. -/
def positionMatch (actualX actualY x y : ℤ) : Bool :=
  decide (|actualX - x| ≤ 5) && decide (|actualY - y| ≤ 5)

/-- The local `sizeMatch` of `positionTiledWindow`. -/
def sizeMatch (actualW actualH width height : ℤ) : Bool :=
  decide (|actualW - width| ≤ 10) && decide (|actualH - height| ≤ 10)

/-- The method `HyprlandAPI::positionTiledWindow`.  The geometry read back at
the end (`positionMatch`, `sizeMatch`) only selects diagnostic output. -/
def positionTiledWindow (env : Env) (x y width height : ℤ) (w : World) : Bool × World :=
  let w := w.record (.positionTiledWindow x y width height)
  if !w.m_initialized then (false, w)
  else
    let r := getFocusedWindowData env w
    match r.1 with
    | none => (false, r.2)
    | some windowData =>
      let w := { r.2 with m_currentWindowAddress := windowData.address }
      let wasFloating := isWindowFloating env w
      let toggled := if !wasFloating.1 then toggleFloating env wasFloating.2
        else (true, wasFloating.2)
      if !toggled.1 then (false, toggled.2)
      else
        let w := toggled.2
        let moveCmd := Dispatch.movewindowpixel x y w.m_currentWindowAddress
        let resizeCmd := Dispatch.resizewindowpixel width height w.m_currentWindowAddress
        let moveResult := executeHyprlandCommand env moveCmd w
        let resizeResult := executeHyprlandCommand env resizeCmd moveResult.2
        let moveSuccess := tiledSuccess moveResult.1
        let resizeSuccess := tiledSuccess resizeResult.1
        let finalWindowData := getFocusedWindowData env resizeResult.2
        (moveSuccess && resizeSuccess, finalWindowData.2)

/-! ## The grid manager (`gridmanager.cpp`) -/

/-- The function `GridManager::getScreenDimensions`; an empty monitor map reads
as width 0, height 0 and scale 0. -/
def getScreenDimensions (env : Env) (w : World) : Screen × World :=
  let monitorData := getFocusedMonitorData env w
  let width := match monitorData.1 with
    | some monitor => monitor.width
    | none => 0
  let height := match monitorData.1 with
    | some monitor => monitor.height
    | none => 0
  let scale := match monitorData.1 with
    | some monitor => monitor.scale
    | none => 0
  ({ width := width
     height := height
     reservedTop := 0
     reservedBottom := 0
     reservedLeft := 0
     reservedRight := 0
     scale := if scale ≤ 0 then 1 else scale }, monitorData.2)

/-- The function `GridManager::hasMultipleWindowsInWorkspace`. -/
def hasMultipleWindowsInWorkspace (env : Env) (w : World) : Bool × World :=
  let r := getCurrentWorkspaceId env w
  let currentWorkspace := r.1
  if currentWorkspace < 0 then (false, r.2)
  else
    let reply := env.clients r.2.trace
    let w := r.2.record (.hyprctl .clients)
    if reply.exitCode ≠ 0 then (false, w)
    else
      match reply.windows with
      | none => (false, w)
      | some windows =>
        let windowCount : ℤ := windows.foldl (fun windowCount val =>
          match val with
          | none => windowCount
          | some windowWorkspace =>
            if windowWorkspace = currentWorkspace ∧ windowWorkspace > 0 then windowCount + 1
            else windowCount) 0
        (decide (windowCount > 1), w)

/-- The retry loop of `GridManager::ensureFloating`,
`while (!isFloating && retryCount > 0)`, for `retryCount` given as a natural
number. -/
def ensureFloatingLoop (env : Env) : ℕ → Bool → World → Bool × World
  | 0, isFloating, w => (isFloating, w)
  | retryCount + 1, isFloating, w =>
    if isFloating then (isFloating, w)
    else
      let w := (toggleFloating env w).2
      let w := w.record (.msleep 200)
      let w := (toggleFloating env w).2
      let w := w.record (.msleep 200)
      let r := isWindowFloating env w
      ensureFloatingLoop env retryCount r.1 r.2

/-- The function `GridManager::ensureFloating`. -/
def ensureFloating (env : Env) (cfg : Config) (w : World) : Bool × World :=
  let r := isWindowFloating env w
  if !r.1 then
    let toggled := toggleFloating env r.2
    if !toggled.1 then (false, toggled.2)
    else
      let w := toggled.2.record (.msleep 100)
      let r := isWindowFloating env w
      if !r.1 then ensureFloatingLoop env cfg.retryCount.toNat r.1 r.2
      else (r.1, r.2)
  else (r.1, r.2)

/-- The function `GridManager::ensureTiled`. -/
def ensureTiled (env : Env) (w : World) : Bool × World :=
  let r := isWindowFloating env w
  if !r.1 then
    let toggled := toggleFloating env r.2
    if !toggled.1 then (false, toggled.2)
    else
      let w := toggled.2.record (.msleep 100)
      let r := isWindowFloating env w
      if !r.1 then (false, r.2)
      else (true, r.2)
  else (true, r.2)

/-- The retry loop at the end of `GridManager::applyGridPosition`,
`while (!success && retries > 0)`, for `retries` given as a natural number. -/
def retryLoop (env : Env) (useTiling : Bool) (pixelPos : PixelPosition) (delay : ℤ) :
    ℕ → Bool → World → Bool × World
  | 0, success, w => (success, w)
  | retries + 1, success, w =>
    if success then (success, w)
    else
      let w := w.record (.msleep delay)
      let r := if useTiling then
          positionTiledWindow env pixelPos.x pixelPos.y pixelPos.width pixelPos.height w
        else
          moveAndResizeWindow env pixelPos.x pixelPos.y pixelPos.width pixelPos.height w
      retryLoop env useTiling pixelPos delay retries r.1 r.2

/-- The text of the notification sent by `applyGridPosition`. -/
def notificationText (position : GridPosition) : String :=
  "Applying " ++ toString position.width ++ "×" ++ toString position.height ++ " position"

/-- The function `GridManager::applyGridPosition`.  The result is `none` when
the call does not return because `gridToPixelPosition` divides by zero.  The two
`return false` of the positioning step are the one test on `positioned`. -/
def applyGridPosition (env : Env) (cfg : Config) (position : GridPosition) (w : World) :
    Option Bool × World :=
  let r := getScreenDimensions env w
  let screen := r.1
  if screen.width ≤ 0 ∨ screen.height ≤ 0 then (some false, r.2)
  else
    match gridToPixelPosition cfg position screen with
    | none => (none, r.2)
    | some pixelPos =>
      let useTiling := cfg.useTiling
      let multi := hasMultipleWindowsInWorkspace env r.2
      let hasMultipleWindows := multi.1
      let positioned :=
        if useTiling && hasMultipleWindows then
          let w := (ensureTiled env multi.2).2
          positionTiledWindow env pixelPos.x pixelPos.y pixelPos.width pixelPos.height w
        else
          let w := (ensureFloating env cfg multi.2).2
          moveAndResizeWindow env pixelPos.x pixelPos.y pixelPos.width pixelPos.height w
      if !positioned.1 then (some false, positioned.2)
      else
        let w := if cfg.showNotifications then
            (sendNotification env "Grid Manager" (notificationText position)
              cfg.notificationDuration positioned.2).2
          else positioned.2
        let success := true
        let r := if !success && cfg.retryOnFailure then
            retryLoop env useTiling pixelPos cfg.retryDelay cfg.retryCount.toNat success w
          else (success, w)
        (some r.1, r.2)

/-! ## Example inputs -/

/-- A 1920x1080 screen, as `getScreenDimensions` returns it. -/
def screen1920x1080 : Screen :=
  { width := 1920, height := 1080, reservedTop := 0, reservedBottom := 0,
    reservedLeft := 0, reservedRight := 0, scale := 1 }

/-- A 1366x768 screen, as `getScreenDimensions` returns it. -/
def screen1366x768 : Screen :=
  { width := 1366, height := 768, reservedTop := 0, reservedBottom := 0,
    reservedLeft := 0, reservedRight := 0, scale := 1 }

/-- A grid of 12 rows and 1 column with a gap of 100 pixels. -/
def tallGridConfig : Config :=
  { loadDefaultConfig with rows := 12, columns := 1, gaps := 100 }

/-- A configuration whose preset "p" stores, under the code "c", a position of
scale -1. -/
def negativeScaleConfig : Config :=
  { loadDefaultConfig with
    presets := [("p", [("c", { x := some 0, y := some 0, width := some 1, height := some 1,
                               scale := some (-1) })])] }

/-- A world in which `HyprlandAPI::initialize` has succeeded and nothing has
happened yet. -/
def initialWorld : World :=
  { trace := [], m_initialized := true, m_currentWindowAddress := "",
    m_currentWindowRuleIdentifier := "" }

/-- An environment with one floating window on workspace 1 of a focused
1920x1080 monitor, in which the first `movewindowpixel` command is answered by
an error text and every later command by `ok`. -/
def firstMoveFailsEnv : Env :=
  { activewindow := fun _ =>
      some { address := "0x55d0", floating := true, atX := 0, atY := 0,
             sizeX := 800, sizeY := 600 }
    monitors := fun _ => some [some { focused := true, width := 1920, height := 1080,
                                      scale := 1 }]
    activeworkspace := fun _ => some 1
    clients := fun _ => { exitCode := 0, windows := some [some 1] }
    dispatch := fun trace command =>
      match command with
      | .movewindowpixel _ _ _ =>
        if trace.any (fun e => match e with
            | .hyprctl (.dispatch (.movewindowpixel _ _ _)) => true
            | _ => false) then "ok"
        else "error: window not found"
      | _ => "ok"
    reload := fun _ => "ok"
    sendNotification := fun _ => true }

/-- The default configuration with the `useTiling` entry set. -/
def tilingConfig : Config :=
  { loadDefaultConfig with useTiling := true }

/-- An environment with one floating window in focus, two windows on the
current workspace 1 (and one on workspace 2), a focused 1920x1080 monitor, and
every command answered by `ok`. -/
def twoWindowsEnv : Env :=
  { firstMoveFailsEnv with
    clients := fun _ => { exitCode := 0, windows := some [some 1, some 1, some 2, none] }
    dispatch := fun _ _ => "ok" }

/-! ## Events of a run -/

/-- The calls that position the window: `moveAndResizeWindow` and
`positionTiledWindow`. -/
def Event.isPositioning : Event → Bool
  | .moveAndResizeWindow _ _ _ _ => true
  | .positionTiledWindow _ _ _ _ => true
  | _ => false

/-- The positioning calls made between the world `w` and the later world
`w1`. -/
def positioningCalls (w w1 : World) : List Event :=
  (w.since w1).filter Event.isPositioning

/-- The world `w1` comes after `w`, and the positioning calls made in between
are `calls`. -/
def Emits (w w1 : World) (calls : List Event) : Prop :=
  ∃ es, w1.trace = w.trace ++ es ∧ es.filter Event.isPositioning = calls

/-- The world `w1` comes after `w`, with at most `toggles` calls of
`toggleFloating` and at most `queries` calls of `isWindowFloating` made in
between. -/
def Within (w w1 : World) (toggles queries : ℕ) : Prop :=
  ∃ es, w1.trace = w.trace ++ es ∧
    es.count .toggleFloating ≤ toggles ∧ es.count .isWindowFloating ≤ queries

/-- An environment with a focused window that never becomes floating, whatever
is sent to it; every command is answered by `ok`. -/
def neverFloatingEnv : Env :=
  { twoWindowsEnv with
    activewindow := fun _ =>
      some { address := "0x55d0", floating := false, atX := 0, atY := 0,
             sizeX := 800, sizeY := 600 } }

/-! ## Mode queries of a run -/

/-- What `isWindowFloating` returns when it is called after the events
`history`: true when the window is reported floating. -/
def modeReport (env : Env) (initialized : Bool) (history : List Event) : Bool :=
  initialized &&
    match env.activewindow (history ++ [.isWindowFloating]) with
    | some windowData => windowData.floating
    | none => false

/-- The report of the most recent mode query among the events `es` that follow
`history`, and `last` when there is none. -/
def lastModeReport (env : Env) (initialized : Bool) :
    List Event → List Event → Option Bool → Option Bool
  | _, [], last => last
  | history, e :: es, last =>
    lastModeReport env initialized (history ++ [e]) es
      (if e = .isWindowFloating then some (modeReport env initialized history) else last)

/-- A check of the events `es` that follow `history`: every call of
`toggleFloating` comes when the most recent mode query has reported not
floating.  The result is the report of the most recent mode query at the end,
and `none` when the check fails. -/
def guardedToggles (env : Env) (initialized : Bool) :
    List Event → List Event → Option Bool → Option (Option Bool)
  | _, [], last => some last
  | history, e :: es, last =>
    if e = .toggleFloating then
      if last = some false then guardedToggles env initialized (history ++ [e]) es last
      else none
    else
      guardedToggles env initialized (history ++ [e]) es
        (if e = .isWindowFloating then some (modeReport env initialized history) else last)

/-- The world `w1` comes after `w`, the events in between pass the check
`guardedToggles` started with `last`, and the most recent report at the end is
`last1`. -/
def Guarded (env : Env) (w w1 : World) (last last1 : Option Bool) : Prop :=
  ∃ es, w1.trace = w.trace ++ es ∧ w1.m_initialized = w.m_initialized ∧
    guardedToggles env w.m_initialized w.trace es last = some last1

/-- An environment whose focused window is tiled until a `togglefloating`
command has been sent, and floating from then on; every command is answered by
`ok`. -/
def floatsAfterToggleEnv : Env :=
  { twoWindowsEnv with
    activewindow := fun trace =>
      some { address := "0x55d0",
             floating := trace.any (fun e => match e with
               | .hyprctl (.dispatch .togglefloating) => true
               | _ => false),
             atX := 0, atY := 0, sizeX := 800, sizeY := 600 } }

/-- An environment like `twoWindowsEnv` whose `monitors` reply is not a JSON
array. -/
def malformedMonitorsEnv : Env :=
  { twoWindowsEnv with monitors := fun _ => none }

/-- The world `w1` comes after `w`, and no `hyprctl dispatch` command was sent
in between. -/
def NoDispatch (w w1 : World) : Prop :=
  ∃ es, w1.trace = w.trace ++ es ∧ ∀ command, Event.hyprctl (.dispatch command) ∉ es

/-- An environment like `twoWindowsEnv` in which no window has the focus. -/
def noWindowEnv : Env :=
  { twoWindowsEnv with activewindow := fun _ => none }

/-- The reading of a response in the words of the specification: a success
when it contains neither `error` nor `failed`, whatever the case of the
letters. -/
def containsNoErrorMarker (result : String) : Bool :=
  !containsCI result "error" && !containsCI result "failed"

/-- The command is a `movewindowpixel`. -/
def Dispatch.isMove : Dispatch → Bool
  | .movewindowpixel _ _ _ => true
  | _ => false

/-- The command is a `resizewindowpixel`. -/
def Dispatch.isResize : Dispatch → Bool
  | .resizewindowpixel _ _ _ => true
  | _ => false

/-- The response the environment gave to the first command selected by `select`
among the events `es` that follow `history`, if there is one. -/
def dispatchReply (env : Env) (select : Dispatch → Bool) :
    List Event → List Event → Option String
  | _, [] => none
  | history, e :: es =>
    match e with
    | .hyprctl (.dispatch command) =>
      if select command then some (env.dispatch history command)
      else dispatchReply env select (history ++ [e]) es
    | _ => dispatchReply env select (history ++ [e]) es

/-- The last event so far is a `resizewindowpixel` command: a focused-window
query made now reads the geometry after the move and the resize. -/
def afterResize (trace : List Event) : Bool :=
  match trace.getLast? with
  | some (.hyprctl (.dispatch (.resizewindowpixel _ _ _))) => true
  | _ => false

/-- The answers of `twoWindowsEnv` to the focused-window queries, except that
after a `resizewindowpixel` command the window is reported at (900, 700) with
the size 100x100. -/
def displacedAfterResize (trace : List Event) : Option WindowData :=
  if afterResize trace then
    some { address := "0x55d0", floating := true, atX := 900, atY := 700,
           sizeX := 100, sizeY := 100 }
  else twoWindowsEnv.activewindow trace

/-- The number of clients of the list whose workspace id is the current
workspace id and is greater than 0. -/
def countInWorkspace (currentWorkspace : ℤ) (windows : List (Option ℤ)) : ℕ :=
  windows.countP (fun val =>
    match val with
    | some windowWorkspace =>
      decide (windowWorkspace = currentWorkspace ∧ windowWorkspace > 0)
    | none => false)

/-- An environment like `twoWindowsEnv` whose current workspace is the special
workspace -99, which holds three windows. -/
def specialWorkspaceEnv : Env :=
  { twoWindowsEnv with
    activeworkspace := fun _ => some (-99)
    clients := fun _ => { exitCode := 0, windows := some [some (-99), some (-99), some (-99)] } }

/-! ## The preview (`gridpreview.cpp`) -/

/-- The four arguments of the `QRect(x, y, width, height)` kept in
`m_selection`. -/
structure Selection where
  x : ℤ
  y : ℤ
  width : ℤ
  height : ℤ
  deriving DecidableEq, Repr

/-- The value `GridPreview::setSelection` stores in `m_selection`, for a
preview of `m_rows` rows and `m_columns` columns. -/
def GridPreview.setSelection (m_rows m_columns : ℤ) (x y width height : ℤ) : Selection :=
  let x := max 0 (min x (m_columns - 1))
  let y := max 0 (min y (m_rows - 1))
  let width := max 1 (min width (m_columns - x))
  let height := max 1 (min height (m_rows - y))
  { x := x, y := y, width := width, height := height }

/-! ## Presets by name (`gridmanager.cpp`) -/

/-- The function `GridManager::getPresetNames`: the keys met by the iteration
from `presets.begin()` to `presets.end()`, which is the order of the entries. -/
def getPresetNames (cfg : Config) : List String :=
  let presets := cfg.presets
  List.map Prod.fst presets

/-- The function `GridManager::getPositionCodesForPreset`. -/
def getPositionCodesForPreset (cfg : Config) (preset : String) : List String :=
  let presets := cfg.presets
  let presetData := presets.value preset []
  List.map Prod.fst presetData

/-- The function `GridManager::applyPositionByCode`.  The listing of the
available presets and positions only writes diagnostics. -/
def applyPositionByCode (env : Env) (cfg : Config) (preset code : String) (w : World) :
    Option Bool × World :=
  let position := getGridPosition cfg preset code
  if position.width = 0 ∨ position.height = 0 then (some false, w)
  else
    let result := applyGridPosition env cfg position w
    result

/-- The function `GridManager::resetWindowState`. -/
def resetWindowState (env : Env) (w : World) : Bool × World :=
  let w := (toggleFloating env w).2
  let w := w.record (.msleep 100)
  let w := (toggleFloating env w).2
  let w := (clearWindowRules env w).2
  (true, w)

/-- The loop `for (const QString &positionCode : positions)` of
`GridManager::testAllPositions`.  The result is `none` when a call of
`applyPositionByCode` does not return. -/
def testAllPositionsLoop (env : Env) (cfg : Config) (testPreset : String) :
    List String → Bool → World → Option Bool × World
  | [], allSuccess, w => (some allSuccess, w)
  | positionCode :: positions, allSuccess, w =>
    let r := applyPositionByCode env cfg testPreset positionCode w
    match r.1 with
    | none => (none, r.2)
    | some applied =>
      let allSuccess := if !applied then false else allSuccess
      let w := r.2.record (.msleep 2000)
      testAllPositionsLoop env cfg testPreset positions allSuccess w

/-- The function `GridManager::testAllPositions`, for a manager that holds a
configuration (`m_config` is not null). -/
def testAllPositions (env : Env) (cfg : Config) (w : World) : Option Bool × World :=
  let presets := getPresetNames cfg
  match presets with
  | [] => (some false, w)
  | testPreset :: _ =>
    let positions := getPositionCodesForPreset cfg testPreset
    if positions.isEmpty then (some false, w)
    else testAllPositionsLoop env cfg testPreset positions true w

/-- The run of `testAllPositions` in the words of the specification: every
position code of the list is applied once, in the order of the list, each one
in the world left by the one before and the pause of 2000 ms that follows it,
whatever the earlier applications returned.  The result lists what each
application returned. -/
def applyEveryCode (env : Env) (cfg : Config) (preset : String) :
    List String → World → List (Option Bool) × World
  | [], w => ([], w)
  | code :: codes, w =>
    let applied := applyPositionByCode env cfg preset code w
    let rest := applyEveryCode env cfg preset codes (applied.2.record (.msleep 2000))
    (applied.1 :: rest.1, rest.2)

/-! ## Saving a preset position (`GridManager::saveGridPosition`) -/

/-- The UTF-16 code units of a string, which is what a `QString` holds. -/
def utf16Units (s : String) : List ℕ :=
  s.toList.flatMap (fun c =>
    let n := c.toNat
    if n < 0x10000 then [n]
    else [0xD800 + (n - 0x10000) / 0x400, 0xDC00 + (n - 0x10000) % 0x400])

/-- The lexicographic order of two lists of code units. -/
def codeUnitsLt : List ℕ → List ℕ → Bool
  | _, [] => false
  | [], _ :: _ => true
  | a :: as, b :: bs => decide (a < b) || (a == b && codeUnitsLt as bs)

/-- The order `operator<` of `QString`, by which a `QMap<QString, T>` sorts its
keys. -/
def qstringLt (a b : String) : Bool :=
  codeUnitsLt (utf16Units a) (utf16Units b)

/-- The assignment `m[key] = value` on a `QMap`: the value of an existing key
is replaced, a new key is put at its place in the order of the keys. -/
def QMap.insert {β : Type} : QMap β → String → β → QMap β
  | [], key, value => [(key, value)]
  | (k, v) :: rest, key, value =>
    if key = k then (key, value) :: rest
    else if qstringLt key k then (key, value) :: (k, v) :: rest
    else (k, v) :: QMap.insert rest key value

/-- The function `GridManager::saveGridPosition`, as a change of the
configuration held in memory.  The file written by `Config::save` is not part
of the model. -/
def saveGridPosition (cfg : Config) (preset code : String) (position : GridPosition) :
    Config :=
  let positionData : PositionData :=
    { x := some position.x
      y := some position.y
      width := some position.width
      height := some position.height
      centered := some position.centered
      scale := some position.scale }
  let presetsData := cfg.presets
  let presetData := presetsData.value preset []
  let presetData := presetData.insert code positionData
  let presetsData := presetsData.insert preset presetData
  { cfg with presets := presetsData }

/-! ## More example inputs -/

/-- A configuration whose only preset "p" stores three positions: "a", the
cell (0, 0); "b", a position of width 0; "c", the cell (1, 1). -/
def threeCodesConfig : Config :=
  { loadDefaultConfig with
    presets := [("p", [("a", { x := some 0, y := some 0, width := some 1, height := some 1 }),
                       ("b", { x := some 0, y := some 0, width := some 0, height := some 1 }),
                       ("c", { x := some 1, y := some 1, width := some 1, height := some 1 })])] }

/-- An environment like `neverFloatingEnv` in which every command is answered
by an error text. -/
def everyCommandFailsEnv : Env :=
  { neverFloatingEnv with
    dispatch := fun _ _ => "error: command failed"
    reload := fun _ => "error: reload failed" }

/-- The number of `togglefloating` commands among the events. -/
def toggleCommands (trace : List Event) : ℕ :=
  trace.count (.hyprctl (.dispatch .togglefloating))

/-- An environment whose first `togglefloating` command is answered by `ok` and
every later one by an error text, and whose focused window is reported
floating once three `togglefloating` commands have been sent. -/
def laterTogglesFailEnv : Env :=
  { twoWindowsEnv with
    activewindow := fun trace =>
      some { address := "0x55d0", floating := decide (3 ≤ toggleCommands trace),
             atX := 0, atY := 0, sizeX := 800, sizeY := 600 }
    dispatch := fun trace command =>
      match command with
      | .togglefloating => if toggleCommands trace = 0 then "ok" else "error: toggle failed"
      | _ => "ok" }

/-- The calls `toggleFloating` and `clearWindowRules`. -/
def Event.isStateCall : Event → Bool
  | .toggleFloating => true
  | .clearWindowRules => true
  | _ => false

/-- The event is a run of `hyprctl`. -/
def Event.isHyprctl : Event → Bool
  | .hyprctl _ => true
  | _ => false

/-! ## Machine integers

The C++ type `int` has 32 bits.  The definitions above compute with the exact
values, which is what the program computes as long as every intermediate value
fits in an `int`.  When one does not fit, C++ leaves the behaviour undefined;
the machine code of the program keeps the low 32 bits, which is a reduction
modulo 2^32 into the range of `int`.  The definitions below compute that way. -/

/-- The value fits in an `int`: it lies between -2^31 and 2^31 - 1. -/
@[reducible] def fitsInt (a : ℤ) : Prop :=
  -2147483648 ≤ a ∧ a ≤ 2147483647

/-- The `int` that holds an exact result: the value of the range of `int` that
differs from it by a multiple of 2^32. -/
def wrapInt (a : ℤ) : ℤ :=
  (a + 2147483648) % 4294967296 - 2147483648

/-- The sum `a + b` of two `int`. -/
def addInt (a b : ℤ) : ℤ :=
  wrapInt (a + b)

/-- The difference `a - b` of two `int`. -/
def subInt (a b : ℤ) : ℤ :=
  wrapInt (a - b)

/-- The product `a * b` of two `int`. -/
def mulInt (a b : ℤ) : ℤ :=
  wrapInt (a * b)

/-- The quotient `a / b` of two `int`, for a divisor other than 0.  The only
quotient that does not fit is that of the least `int` by -1, on which the
machine instruction traps; the statements below assume that the quotient
fits. -/
def divInt (a b : ℤ) : ℤ :=
  wrapInt (Int.tdiv a b)

/-- The `int cellWidth` of `gridToPixelPosition`, in 32-bit arithmetic. -/
def cellWidth32 (cfg : Config) (screen : Screen) : ℤ :=
  divInt (subInt screen.width (mulInt cfg.gaps (addInt cfg.columns 1))) cfg.columns

/-- The `int cellHeight` of `gridToPixelPosition`, in 32-bit arithmetic. -/
def cellHeight32 (cfg : Config) (screen : Screen) : ℤ :=
  divInt (subInt screen.height (mulInt cfg.gaps (addInt cfg.rows 1))) cfg.rows

/-- The function `GridManager::gridToPixelPosition` with every operation on
`int` carried out in 32-bit arithmetic.  There is no result when the grid has no
column or no row (division by zero).  In the centered branch the product of the
screen size and the scale lies strictly between 0 and the screen size, so the
conversion `static_cast<int>` is that of a value that fits. -/
def gridToPixelPosition32 (cfg : Config) (position : GridPosition) (screen : Screen) :
    Option PixelPosition :=
  let rows := cfg.rows
  let cols := cfg.columns
  let gaps := cfg.gaps
  if cols = 0 ∨ rows = 0 then none
  else
    let cellWidth := cellWidth32 cfg screen
    let cellHeight := cellHeight32 cfg screen
    if centeredScaled position then
      let scaledWidth := truncToInt (mulIntDouble screen.width position.scale)
      let scaledHeight := truncToInt (mulIntDouble screen.height position.scale)
      some { x := divInt (subInt screen.width scaledWidth) 2
             y := divInt (subInt screen.height scaledHeight) 2
             width := scaledWidth
             height := scaledHeight }
    else
      some { x := addInt gaps (mulInt position.x (addInt cellWidth gaps))
             y := addInt gaps (mulInt position.y (addInt cellHeight gaps))
             width := addInt (mulInt position.width cellWidth)
               (mulInt (subInt position.width 1) gaps)
             height := addInt (mulInt position.height cellHeight)
               (mulInt (subInt position.height 1) gaps) }

/-- Every intermediate value of a cell size
`(total - gaps * (count + 1)) / count` fits in an `int`. -/
@[reducible] def cellFits (total gaps count : ℤ) : Prop :=
  fitsInt (count + 1) ∧ fitsInt (gaps * (count + 1)) ∧
    fitsInt (total - gaps * (count + 1)) ∧
    fitsInt (Int.tdiv (total - gaps * (count + 1)) count)

/-- Every intermediate value of a coordinate `gaps + start * (cell + gaps)`
fits in an `int`. -/
@[reducible] def startFits (gaps start cell : ℤ) : Prop :=
  fitsInt (cell + gaps) ∧ fitsInt (start * (cell + gaps)) ∧
    fitsInt (gaps + start * (cell + gaps))

/-- Every intermediate value of a size `span * cell + (span - 1) * gaps` fits
in an `int`. -/
@[reducible] def spanFits (gaps span cell : ℤ) : Prop :=
  fitsInt (span * cell) ∧ fitsInt (span - 1) ∧ fitsInt ((span - 1) * gaps) ∧
    fitsInt (span * cell + (span - 1) * gaps)

/-- No intermediate value of the two cell sizes overflows. -/
@[reducible] def CellsFit (cfg : Config) (screen : Screen) : Prop :=
  cellFits screen.width cfg.gaps cfg.columns ∧ cellFits screen.height cfg.gaps cfg.rows

/-- No intermediate value of the width and the height of the grid branch
overflows. -/
@[reducible] def SizeFits (cfg : Config) (position : GridPosition) (screen : Screen) : Prop :=
  spanFits cfg.gaps position.width (cellWidth cfg screen) ∧
    spanFits cfg.gaps position.height (cellHeight cfg screen)

/-- No intermediate value of the x and the y of the grid branch overflows. -/
@[reducible] def StartFits (cfg : Config) (position : GridPosition) (screen : Screen) : Prop :=
  startFits cfg.gaps position.x (cellWidth cfg screen) ∧
    startFits cfg.gaps position.y (cellHeight cfg screen)

/-- No intermediate value of the grid branch of `gridToPixelPosition`
overflows: the cell sizes, the coordinates and the sizes are all computed within
the range of `int`. -/
@[reducible] def GridFits (cfg : Config) (position : GridPosition) (screen : Screen) : Prop :=
  CellsFit cfg screen ∧ StartFits cfg position screen ∧ SizeFits cfg position screen

/-! ## Arithmetic of the embedding -/

theorem tdiv_two (a : ℤ) : Int.tdiv a 2 = if 0 ≤ a then a / 2 else -((-a) / 2) := by
  split
  · rename_i h
    exact Int.tdiv_eq_ediv h (by decide)
  · rename_i h
    have h2 : Int.tdiv (-a) 2 = (-a) / 2 := Int.tdiv_eq_ediv (by omega) (by decide)
    rw [← h2, Int.neg_tdiv, neg_neg]

theorem roundHalfEven_intCast (n : ℤ) : roundHalfEven (n : ℚ) = n := by
  simp [roundHalfEven]

theorem truncToInt_intCast (n : ℤ) : truncToInt (n : ℚ) = n := by
  unfold truncToInt
  split <;> simp

/-- A positive rational with at most 53 significant bits, in the normal range,
is a binary64 value: rounding leaves it unchanged. -/
theorem roundToDouble_of_exact (q : ℚ) (e n : ℤ) (hq : 0 < q) (he : -1022 ≤ e)
    (hlo : (2 : ℚ) ^ e ≤ q) (hhi : q < (2 : ℚ) ^ (e + 1)) (hn : q = n * (2 : ℚ) ^ (e - 52)) :
    roundToDouble q = q := by
  have hlog : Int.log 2 |q| = e := by
    rw [abs_of_pos hq]
    apply le_antisymm
    · have h1 := (Int.lt_zpow_iff_log_lt (b := 2) (by decide) hq (x := e + 1)).1
        (by exact_mod_cast hhi)
      omega
    · exact (Int.zpow_le_iff_le_log (b := 2) (by decide) hq).1 (by exact_mod_cast hlo)
  unfold roundToDouble
  rw [if_neg hq.ne.symm, hlog, max_eq_left he]
  have hpos : (0 : ℚ) < 2 ^ (e - 52) := by positivity
  have hdiv : q / 2 ^ (e - 52) = (n : ℚ) := by
    rw [hn]; field_simp
  simp only [hdiv, roundHalfEven_intCast]
  exact hn.symm

theorem roundHalfEven_nonneg (x : ℚ) (hx : 0 ≤ x) : 0 ≤ roundHalfEven x := by
  have hf : 0 ≤ ⌊x⌋ := Int.floor_nonneg.2 hx
  unfold roundHalfEven
  simp only
  split_ifs <;> omega

theorem roundToDouble_nonneg (q : ℚ) (hq : 0 ≤ q) : 0 ≤ roundToDouble q := by
  unfold roundToDouble
  split
  · exact le_refl 0
  · simp only
    have hpos : (0 : ℚ) < 2 ^ (max (Int.log 2 |q|) (-1022) - 52) := by positivity
    have h1 : 0 ≤ roundHalfEven (q / 2 ^ (max (Int.log 2 |q|) (-1022) - 52)) :=
      roundHalfEven_nonneg _ (div_nonneg hq hpos.le)
    have h2 : (0 : ℚ) ≤ (roundHalfEven (q / 2 ^ (max (Int.log 2 |q|) (-1022) - 52)) : ℤ) := by
      exact_mod_cast h1
    exact mul_nonneg h2 hpos.le

theorem centeredScaled_iff (position : GridPosition) :
    centeredScaled position = true ↔
      position.centered = true ∧ 0 < position.scale ∧ position.scale < 1 := by
  simp [centeredScaled, and_assoc]

theorem gridToPixelPosition_centered (cfg : Config) (position : GridPosition) (screen : Screen)
    (hrows : cfg.rows ≠ 0) (hcols : cfg.columns ≠ 0) (hmode : centeredScaled position = true) :
    gridToPixelPosition cfg position screen = some
      { x := Int.tdiv (screen.width - truncToInt (mulIntDouble screen.width position.scale)) 2
        y := Int.tdiv (screen.height - truncToInt (mulIntDouble screen.height position.scale)) 2
        width := truncToInt (mulIntDouble screen.width position.scale)
        height := truncToInt (mulIntDouble screen.height position.scale) } := by
  simp [gridToPixelPosition, hrows, hcols, hmode]

theorem gridToPixelPosition_grid (cfg : Config) (position : GridPosition) (screen : Screen)
    (hrows : cfg.rows ≠ 0) (hcols : cfg.columns ≠ 0) (hmode : centeredScaled position = false) :
    gridToPixelPosition cfg position screen = some
      { x := cfg.gaps + position.x * (cellWidth cfg screen + cfg.gaps)
        y := cfg.gaps + position.y * (cellHeight cfg screen + cfg.gaps)
        width := position.width * cellWidth cfg screen + (position.width - 1) * cfg.gaps
        height := position.height * cellHeight cfg screen + (position.height - 1) * cfg.gaps } := by
  simp [gridToPixelPosition, hrows, hcols, hmode]

/-! ## Geometry: grid mode and centered mode -/

/-- The product 1366 * 0.625 = 853.75 is a binary64 value. -/
theorem mulIntDouble_1366_five_eighths : mulIntDouble 1366 (5 / 8) = 3415 / 4 := by
  unfold mulIntDouble
  have h : ((1366 : ℤ) : ℚ) * (5 / 8) = 3415 / 4 := by norm_num
  rw [h]
  exact roundToDouble_of_exact (3415 / 4) 9 (3415 * 2 ^ 41) (by norm_num) (by norm_num)
    (by norm_num) (by norm_num) (by norm_num)

/-- The product 768 * 0.625 = 480 is a binary64 value. -/
theorem mulIntDouble_768_five_eighths : mulIntDouble 768 (5 / 8) = 480 := by
  unfold mulIntDouble
  have h : ((768 : ℤ) : ℚ) * (5 / 8) = 480 := by norm_num
  rw [h]
  exact roundToDouble_of_exact 480 8 (480 * 2 ^ 44) (by norm_num) (by norm_num)
    (by norm_num) (by norm_num) (by norm_num)

/-- The product 1920 * 0.5 = 960 is a binary64 value. -/
theorem mulIntDouble_1920_half : mulIntDouble 1920 (1 / 2) = 960 := by
  unfold mulIntDouble
  have h : ((1920 : ℤ) : ℚ) * (1 / 2) = 960 := by norm_num
  rw [h]
  exact roundToDouble_of_exact 960 9 (960 * 2 ^ 43) (by norm_num) (by norm_num)
    (by norm_num) (by norm_num) (by norm_num)

/-- The product 1080 * 0.5 = 540 is a binary64 value. -/
theorem mulIntDouble_1080_half : mulIntDouble 1080 (1 / 2) = 540 := by
  unfold mulIntDouble
  have h : ((1080 : ℤ) : ℚ) * (1 / 2) = 540 := by norm_num
  rw [h]
  exact roundToDouble_of_exact 540 9 (540 * 2 ^ 43) (by norm_num) (by norm_num)
    (by norm_num) (by norm_num) (by norm_num)

theorem truncToInt_3415_quarters : truncToInt (3415 / 4) = 853 := by
  unfold truncToInt
  rw [if_pos (by norm_num)]
  rw [Int.floor_eq_iff]
  constructor <;> norm_num

/-- C2, counterexample: on a 1366x768 screen a centered position of scale
0.625 gets the width 853, the product 853.75 cut at the decimal point, while
the nearest integer is 854. -/
theorem gridToPixelPosition_centered_round_counterexample :
    gridToPixelPosition loadDefaultConfig
        { x := 0, y := 0, width := 3, height := 3, centered := true, scale := 5 / 8 }
        screen1366x768 = some { x := 256, y := 144, width := 853, height := 480 } ∧
      round ((screen1366x768.width : ℚ) * (5 / 8)) = 854 ∧ (853 : ℤ) ≠ 854 := by
  refine ⟨?_, ?_, by decide⟩
  · rw [gridToPixelPosition_centered _ _ _ (by decide) (by decide)
      (by rw [centeredScaled_iff]; norm_num)]
    simp only [screen1366x768, mulIntDouble_1366_five_eighths, mulIntDouble_768_five_eighths,
      truncToInt_3415_quarters]
    have h480 : truncToInt 480 = 480 := by exact_mod_cast truncToInt_intCast 480
    rw [h480]
    decide
  · rw [round_eq, Int.floor_eq_iff]
    simp only [screen1366x768]
    constructor <;> norm_num

/-- C2, as amended: for every position with centered = true and 0 < scale < 1
and every screen (the grid having rows and columns), `gridToPixelPosition`
returns width = trunc(screen.width * scale), height = trunc(screen.height *
scale), x = (screen.width - width)/2 and y = (screen.height - height)/2, where
trunc drops the fractional part of the double product (the conversion to
`int`); on a screen of non-negative size this is the greatest integer not above
the product. -/
theorem gridToPixelPosition_centered_trunc (cfg : Config) (position : GridPosition)
    (screen : Screen) (hrows : cfg.rows ≠ 0) (hcols : cfg.columns ≠ 0)
    (hc : position.centered = true) (h0 : 0 < position.scale) (h1 : position.scale < 1) :
    ∃ r, gridToPixelPosition cfg position screen = some r ∧
      r.width = truncToInt (mulIntDouble screen.width position.scale) ∧
      r.height = truncToInt (mulIntDouble screen.height position.scale) ∧
      r.x = Int.tdiv (screen.width - r.width) 2 ∧
      r.y = Int.tdiv (screen.height - r.height) 2 ∧
      (0 ≤ screen.width → r.width = ⌊mulIntDouble screen.width position.scale⌋) ∧
      (0 ≤ screen.height → r.height = ⌊mulIntDouble screen.height position.scale⌋) := by
  have hm : centeredScaled position = true := (centeredScaled_iff position).2 ⟨hc, h0, h1⟩
  refine ⟨_, gridToPixelPosition_centered cfg position screen hrows hcols hm,
    rfl, rfl, rfl, rfl, ?_, ?_⟩
  · intro hw
    have hq : (0 : ℚ) ≤ (screen.width : ℚ) * position.scale :=
      mul_nonneg (by exact_mod_cast hw) h0.le
    simp only [truncToInt, mulIntDouble]
    rw [if_pos (roundToDouble_nonneg _ hq)]
  · intro hh
    have hq : (0 : ℚ) ≤ (screen.height : ℚ) * position.scale :=
      mul_nonneg (by exact_mod_cast hh) h0.le
    simp only [truncToInt, mulIntDouble]
    rw [if_pos (roundToDouble_nonneg _ hq)]

/-- Witness of C2 as amended: scale 0.625 on a 1366x768 screen. -/
theorem gridToPixelPosition_centered_trunc_witness :
    ∃ r, gridToPixelPosition loadDefaultConfig
        { x := 0, y := 0, width := 3, height := 3, centered := true, scale := 5 / 8 }
        screen1366x768 = some r ∧
      r.width = truncToInt (mulIntDouble 1366 (5 / 8)) ∧
      r.height = truncToInt (mulIntDouble 768 (5 / 8)) ∧
      r.x = Int.tdiv (1366 - r.width) 2 ∧
      r.y = Int.tdiv (768 - r.height) 2 ∧
      ((0 : ℤ) ≤ 1366 → r.width = ⌊mulIntDouble 1366 (5 / 8)⌋) ∧
      ((0 : ℤ) ≤ 768 → r.height = ⌊mulIntDouble 768 (5 / 8)⌋) :=
  gridToPixelPosition_centered_trunc loadDefaultConfig
    { x := 0, y := 0, width := 3, height := 3, centered := true, scale := 5 / 8 }
    screen1366x768 (by decide) (by decide) rfl (by norm_num) (by norm_num)

theorem centering_within_one (total size : ℤ) :
    |(Int.tdiv (total - size) 2 + Int.tdiv size 2) - Int.tdiv total 2| ≤ 1 := by
  rw [tdiv_two (total - size), tdiv_two size, tdiv_two total, abs_le]
  split_ifs <;> constructor <;> omega

/-- C4: in centered-scale mode (centered = true, 0 < scale < 1) the rectangle
returned by `gridToPixelPosition` is centered to within 1 pixel:
|(x + width/2) - screen.width/2| <= 1 and |(y + height/2) - screen.height/2| <= 1,
with integer division.  This holds on every screen, in particular on those of
positive width and height. -/
theorem gridToPixelPosition_centered_within_one (cfg : Config) (position : GridPosition)
    (screen : Screen) (hrows : cfg.rows ≠ 0) (hcols : cfg.columns ≠ 0)
    (hc : position.centered = true) (h0 : 0 < position.scale) (h1 : position.scale < 1) :
    ∃ r, gridToPixelPosition cfg position screen = some r ∧
      |(r.x + Int.tdiv r.width 2) - Int.tdiv screen.width 2| ≤ 1 ∧
      |(r.y + Int.tdiv r.height 2) - Int.tdiv screen.height 2| ≤ 1 := by
  have hm : centeredScaled position = true := (centeredScaled_iff position).2 ⟨hc, h0, h1⟩
  exact ⟨_, gridToPixelPosition_centered cfg position screen hrows hcols hm,
    centering_within_one _ _, centering_within_one _ _⟩

/-- The preset position "medium" of the default configuration. -/
theorem getGridPosition_default_medium :
    getGridPosition loadDefaultConfig "default" "medium" =
      { x := 0, y := 0, width := 3, height := 3, centered := true,
        scale := 5854679515581645 / 9007199254740992 } := by
  have hl : List.lookup "default" defaultPresets = some defaultPreset := by
    simp [defaultPresets, List.lookup]
  have hm : List.lookup "medium" defaultPreset = some
      { x := some 0, y := some 0, width := some 3, height := some 3,
        centered := some true,
        scale := some (5854679515581645 / 9007199254740992) } := by
    simp [defaultPreset, List.lookup]
  simp only [getGridPosition, QMap.value, loadDefaultConfig, hl, hm, Option.getD_some]
  norm_num

/-- Witness of C4: the default preset "medium" (scale 0.65) on a 1366x768
screen. -/
theorem gridToPixelPosition_centered_within_one_witness :
    ∃ r, gridToPixelPosition loadDefaultConfig (getGridPosition loadDefaultConfig "default" "medium")
        screen1366x768 = some r ∧
      |(r.x + Int.tdiv r.width 2) - Int.tdiv screen1366x768.width 2| ≤ 1 ∧
      |(r.y + Int.tdiv r.height 2) - Int.tdiv screen1366x768.height 2| ≤ 1 :=
  gridToPixelPosition_centered_within_one loadDefaultConfig
    (getGridPosition loadDefaultConfig "default" "medium") screen1366x768
    (by decide) (by decide)
    (by rw [getGridPosition_default_medium])
    (by rw [getGridPosition_default_medium]; norm_num)
    (by rw [getGridPosition_default_medium]; norm_num)

/-- C5: cell coordinates are ignored in centered-scale mode and govern
otherwise.  For centered = true and 0 < scale < 1, two positions that differ
only in x, y, width, height, resolved on two grids with positive rows and
columns, give the same rectangle; two positions outside that mode with the
same x, y, width, height give the same rectangle whatever their values of
centered and scale. -/
theorem gridToPixelPosition_coordinates_ignored_or_governing (cfg cfg2 : Config)
    (p p2 : GridPosition) (screen : Screen) :
    (p.centered = true → 0 < p.scale → p.scale < 1 →
      p2.centered = p.centered → p2.scale = p.scale →
      0 < cfg.rows → 0 < cfg.columns → 0 < cfg2.rows → 0 < cfg2.columns →
      ∃ r, gridToPixelPosition cfg p screen = some r ∧
        gridToPixelPosition cfg2 p2 screen = some r) ∧
    (¬ (p.centered = true ∧ 0 < p.scale ∧ p.scale < 1) →
      ¬ (p2.centered = true ∧ 0 < p2.scale ∧ p2.scale < 1) →
      p2.x = p.x → p2.y = p.y → p2.width = p.width → p2.height = p.height →
      0 < cfg.rows → 0 < cfg.columns →
      ∃ r, gridToPixelPosition cfg p screen = some r ∧
        gridToPixelPosition cfg p2 screen = some r) := by
  constructor
  · intro hc h0 h1 hc2 hs2 hr hcol hr2 hcol2
    have hm : centeredScaled p = true := (centeredScaled_iff p).2 ⟨hc, h0, h1⟩
    have hm2 : centeredScaled p2 = true :=
      (centeredScaled_iff p2).2 ⟨hc2.trans hc, hs2 ▸ h0, hs2 ▸ h1⟩
    refine ⟨_, gridToPixelPosition_centered cfg p screen hr.ne.symm hcol.ne.symm hm, ?_⟩
    rw [gridToPixelPosition_centered cfg2 p2 screen hr2.ne.symm hcol2.ne.symm hm2, hs2]
  · intro hn hn2 hx hy hw hh hr hcol
    have hm : centeredScaled p = false := by
      rw [← Bool.not_eq_true, centeredScaled_iff]; exact hn
    have hm2 : centeredScaled p2 = false := by
      rw [← Bool.not_eq_true, centeredScaled_iff]; exact hn2
    refine ⟨_, gridToPixelPosition_grid cfg p screen hr.ne.symm hcol.ne.symm hm, ?_⟩
    rw [gridToPixelPosition_grid cfg p2 screen hr.ne.symm hcol.ne.symm hm2, hx, hy, hw, hh]

/-- Witness of C5: on a 1920x1080 screen, a centered position of scale 0.5 with
two sets of cell coordinates on two grids, and a cell position with two values
of centered and scale. -/
theorem gridToPixelPosition_coordinates_ignored_or_governing_witness :
    (∃ r, gridToPixelPosition loadDefaultConfig
          { x := 0, y := 0, width := 3, height := 3, centered := true, scale := 1 / 2 }
          screen1920x1080 = some r ∧
        gridToPixelPosition tallGridConfig
          { x := 2, y := 1, width := 1, height := 2, centered := true, scale := 1 / 2 }
          screen1920x1080 = some r) ∧
    (∃ r, gridToPixelPosition loadDefaultConfig
          { x := 2, y := 1, width := 1, height := 2, centered := false, scale := 1 / 2 }
          screen1920x1080 = some r ∧
        gridToPixelPosition loadDefaultConfig
          { x := 2, y := 1, width := 1, height := 2, centered := true, scale := 1 }
          screen1920x1080 = some r) :=
  ⟨(gridToPixelPosition_coordinates_ignored_or_governing loadDefaultConfig tallGridConfig
      { x := 0, y := 0, width := 3, height := 3, centered := true, scale := 1 / 2 }
      { x := 2, y := 1, width := 1, height := 2, centered := true, scale := 1 / 2 }
      screen1920x1080).1 rfl (by norm_num) (by norm_num) rfl rfl
      (by decide) (by decide) (by decide) (by decide),
   (gridToPixelPosition_coordinates_ignored_or_governing loadDefaultConfig loadDefaultConfig
      { x := 2, y := 1, width := 1, height := 2, centered := false, scale := 1 / 2 }
      { x := 2, y := 1, width := 1, height := 2, centered := true, scale := 1 }
      screen1920x1080).2 (by simp) (by simp) rfl rfl rfl rfl (by decide) (by decide)⟩

/-- C6: scale defaulting.  For every position with scale <= 0, centered or
not, `gridToPixelPosition` returns the same rectangle as for the same position
with scale = 1.0 (a rectangle is returned on every grid with rows and columns),
and `getGridPosition` replaces a stored scale <= 0, or a missing scale, by
1.0. -/
theorem scale_defaulting (cfg : Config) (position : GridPosition) (screen : Screen)
    (preset code : String) :
    (position.scale ≤ 0 →
      gridToPixelPosition cfg position screen =
        gridToPixelPosition cfg { position with scale := 1 } screen ∧
      (cfg.rows ≠ 0 → cfg.columns ≠ 0 →
        (gridToPixelPosition cfg position screen).isSome = true)) ∧
    (((cfg.presets.value preset []).value code {}).scale = none ∨
      (∃ s, ((cfg.presets.value preset []).value code {}).scale = some s ∧ s ≤ 0) →
      (getGridPosition cfg preset code).scale = 1) := by
  constructor
  · intro hs
    have hm : centeredScaled position = false := by
      rw [← Bool.not_eq_true, centeredScaled_iff]
      intro h
      exact absurd h.2.1 (not_lt.2 hs)
    have hm1 : centeredScaled { position with scale := 1 } = false := by
      rw [← Bool.not_eq_true, centeredScaled_iff]
      intro h
      exact absurd h.2.2 (lt_irrefl 1)
    constructor
    · simp [gridToPixelPosition, hm, hm1]
    · intro hr hc
      rw [gridToPixelPosition_grid cfg position screen hr hc hm]
      rfl
  · intro h
    rcases h with h | ⟨s, h, hs⟩
    · simp [getGridPosition, h]
    · simp [getGridPosition, h, hs]

/-- Witness of C6: a centered position of scale 0 on a 1920x1080 screen, and a
stored scale of -1. -/
theorem scale_defaulting_witness :
    (gridToPixelPosition loadDefaultConfig
        { x := 1, y := 1, width := 1, height := 1, centered := true, scale := 0 }
        screen1920x1080 =
      gridToPixelPosition loadDefaultConfig
        { x := 1, y := 1, width := 1, height := 1, centered := true, scale := 1 }
        screen1920x1080 ∧
      (loadDefaultConfig.rows ≠ 0 → loadDefaultConfig.columns ≠ 0 →
        (gridToPixelPosition loadDefaultConfig
          { x := 1, y := 1, width := 1, height := 1, centered := true, scale := 0 }
          screen1920x1080).isSome = true)) ∧
    (getGridPosition negativeScaleConfig "p" "c").scale = 1 :=
  ⟨(scale_defaulting loadDefaultConfig
      { x := 1, y := 1, width := 1, height := 1, centered := true, scale := 0 }
      screen1920x1080 "p" "c").1 (le_refl 0),
   (scale_defaulting negativeScaleConfig
      { x := 1, y := 1, width := 1, height := 1, centered := true, scale := 0 }
      screen1920x1080 "p" "c").2
      (Or.inr ⟨-1, by simp [negativeScaleConfig, QMap.value, List.lookup], by norm_num⟩)⟩

/-- C7: the worked grid example.  With rows = 3, columns = 3, gap = 5 (the
default grid) on a 1920x1080 screen the cell size is 633x353, the position
x:0, y:0, width:1, height:1 resolves to the rectangle x:5, y:5, width:633,
height:353, and the position x:2, y:2, width:1, height:1 resolves to the origin
x = 1281, y = 721. -/
theorem gridToPixelPosition_default_grid_example :
    loadDefaultConfig.rows = 3 ∧ loadDefaultConfig.columns = 3 ∧ loadDefaultConfig.gaps = 5 ∧
    cellWidth loadDefaultConfig screen1920x1080 = 633 ∧
    cellHeight loadDefaultConfig screen1920x1080 = 353 ∧
    gridToPixelPosition loadDefaultConfig { x := 0, y := 0, width := 1, height := 1 }
      screen1920x1080 = some { x := 5, y := 5, width := 633, height := 353 } ∧
    gridToPixelPosition loadDefaultConfig { x := 2, y := 2, width := 1, height := 1 }
      screen1920x1080 = some { x := 1281, y := 721, width := 633, height := 353 } := by
  decide

/-- C8: the worked centered example.  A position with centered = true and
scale = 0.5 on a 1920x1080 screen resolves to the rectangle x:480, y:270,
width:960, height:540, whatever its cell coordinates (on every grid with rows
and columns). -/
theorem gridToPixelPosition_centered_half_example (cfg : Config) (x y width height : ℤ)
    (hrows : cfg.rows ≠ 0) (hcols : cfg.columns ≠ 0) :
    gridToPixelPosition cfg
        { x := x, y := y, width := width, height := height, centered := true, scale := 1 / 2 }
        screen1920x1080 = some { x := 480, y := 270, width := 960, height := 540 } := by
  rw [gridToPixelPosition_centered _ _ _ hrows hcols (by rw [centeredScaled_iff]; norm_num)]
  simp only [screen1920x1080, mulIntDouble_1920_half, mulIntDouble_1080_half]
  have h960 : truncToInt 960 = 960 := by exact_mod_cast truncToInt_intCast 960
  have h540 : truncToInt 540 = 540 := by exact_mod_cast truncToInt_intCast 540
  rw [h960, h540]
  decide

/-- Witness of C8: the default grid and the cell coordinates of the preset
"medium". -/
theorem gridToPixelPosition_centered_half_example_witness :
    gridToPixelPosition loadDefaultConfig
        { x := 0, y := 0, width := 3, height := 3, centered := true, scale := 1 / 2 }
        screen1920x1080 = some { x := 480, y := 270, width := 960, height := 540 } :=
  gridToPixelPosition_centered_half_example loadDefaultConfig 0 0 3 3 (by decide) (by decide)

/-! ## Events of the operations -/

theorem Emits.refl (w : World) : Emits w w [] :=
  ⟨[], (List.append_nil _).symm, rfl⟩

theorem Emits.congr_trace {w w1 : World} {l : List Event} (h : Emits w w1 l)
    (w2 : World) (ht : w2.trace = w1.trace) : Emits w w2 l := by
  obtain ⟨es, h1, hf⟩ := h
  exact ⟨es, ht.trans h1, hf⟩

theorem Emits.trans {w w1 w2 : World} {l1 l2 : List Event} (h1 : Emits w w1 l1)
    (h2 : Emits w1 w2 l2) : Emits w w2 (l1 ++ l2) := by
  obtain ⟨es1, ht1, hf1⟩ := h1
  obtain ⟨es2, ht2, hf2⟩ := h2
  exact ⟨es1 ++ es2, by rw [ht2, ht1, List.append_assoc], by rw [List.filter_append, hf1, hf2]⟩

theorem Emits.quiet {w w1 w2 : World} {l : List Event} (h1 : Emits w w1 l)
    (h2 : Emits w1 w2 []) : Emits w w2 l := by
  have h := h1.trans h2
  rwa [List.append_nil] at h

theorem Emits.record (w : World) (e : Event) :
    Emits w (w.record e) ([e].filter Event.isPositioning) :=
  ⟨[e], rfl, rfl⟩

theorem Emits.calls_eq {w w1 : World} {l : List Event} (h : Emits w w1 l) :
    positioningCalls w w1 = l := by
  obtain ⟨es, ht, hf⟩ := h
  simp [positioningCalls, World.since, ht, hf]

theorem getFocusedWindowData_emits (env : Env) (w : World) :
    Emits w (getFocusedWindowData env w).2 [] :=
  Emits.record w _

theorem executeHyprlandCommand_emits (env : Env) (command : Dispatch) (w : World) :
    Emits w (executeHyprlandCommand env command w).2 [] :=
  Emits.record w _

theorem isWindowFloating_emits (env : Env) (w : World) :
    Emits w (isWindowFloating env w).2 [] := by
  have h0 : Emits w (w.record .isWindowFloating) [] := Emits.record w _
  have h1 : Emits w (getFocusedWindowData env (w.record .isWindowFloating)).2 [] :=
    h0.quiet (getFocusedWindowData_emits env _)
  unfold isWindowFloating
  dsimp only
  split
  · exact h0
  · split <;> exact h1

theorem toggleFloating_emits (env : Env) (w : World) :
    Emits w (toggleFloating env w).2 [] := by
  have h0 : Emits w (w.record .toggleFloating) [] := Emits.record w _
  have h1 : Emits w (getFocusedWindowData env (w.record .toggleFloating)).2 [] :=
    h0.quiet (getFocusedWindowData_emits env _)
  unfold toggleFloating
  dsimp only
  split
  · exact h0
  · split
    · exact h1
    · exact h1.quiet (executeHyprlandCommand_emits env _ _)

theorem sendNotification_emits (env : Env) (title message : String) (timeout : ℤ) (w : World) :
    Emits w (sendNotification env title message timeout w).2 [] :=
  Emits.record w _

theorem getScreenDimensions_emits (env : Env) (w : World) :
    Emits w (getScreenDimensions env w).2 [] := by
  have h0 : Emits w (w.record (.hyprctl .monitors)) [] := Emits.record w _
  unfold getScreenDimensions getFocusedMonitorData
  dsimp only
  repeat' split
  all_goals exact h0

theorem hasMultipleWindowsInWorkspace_emits (env : Env) (w : World) :
    Emits w (hasMultipleWindowsInWorkspace env w).2 [] := by
  have h0 : Emits w (getCurrentWorkspaceId env w).2 [] := by
    unfold getCurrentWorkspaceId
    dsimp only
    split <;> exact Emits.record w _
  have h1 : Emits w ((getCurrentWorkspaceId env w).2.record (.hyprctl .clients)) [] :=
    h0.quiet (Emits.record _ _)
  unfold hasMultipleWindowsInWorkspace
  dsimp only
  split
  · exact h0
  · split
    · exact h1
    · split <;> exact h1

theorem ensureFloatingLoop_emits (env : Env) (n : ℕ) (isFloating : Bool) (w : World) :
    Emits w (ensureFloatingLoop env n isFloating w).2 [] := by
  induction n generalizing isFloating w with
  | zero => exact Emits.refl w
  | succ n ih =>
    unfold ensureFloatingLoop
    dsimp only
    split
    · exact Emits.refl w
    · have h1 := toggleFloating_emits env w
      have h2 := h1.quiet (Emits.record _ (.msleep 200))
      have h3 := h2.quiet (toggleFloating_emits env _)
      have h4 := h3.quiet (Emits.record _ (.msleep 200))
      have h5 := h4.quiet (isWindowFloating_emits env _)
      exact h5.quiet (ih _ _)

theorem ensureFloating_emits (env : Env) (cfg : Config) (w : World) :
    Emits w (ensureFloating env cfg w).2 [] := by
  have h0 := isWindowFloating_emits env w
  have h1 := h0.quiet (toggleFloating_emits env _)
  have h2 := h1.quiet (Emits.record _ (.msleep 100))
  have h3 := h2.quiet (isWindowFloating_emits env _)
  unfold ensureFloating
  dsimp only
  split
  · split
    · exact h1
    · split
      · exact h3.quiet (ensureFloatingLoop_emits env _ _ _)
      · exact h3
  · exact h0

theorem ensureTiled_emits (env : Env) (w : World) :
    Emits w (ensureTiled env w).2 [] := by
  have h0 := isWindowFloating_emits env w
  have h1 := h0.quiet (toggleFloating_emits env _)
  have h2 := h1.quiet (Emits.record _ (.msleep 100))
  have h3 := h2.quiet (isWindowFloating_emits env _)
  unfold ensureTiled
  dsimp only
  split
  · split
    · exact h1
    · split <;> exact h3
  · exact h0

theorem moveAndResizeWindow_emits (env : Env) (x y width height : ℤ) (w : World) :
    Emits w (moveAndResizeWindow env x y width height w).2
      [.moveAndResizeWindow x y width height] := by
  have h0 : Emits w (w.record (.moveAndResizeWindow x y width height))
      [.moveAndResizeWindow x y width height] := Emits.record w _
  have h1 := h0.quiet (getFocusedWindowData_emits env _)
  unfold moveAndResizeWindow
  dsimp only
  split
  · exact h0
  · split
    · exact h1
    · rename_i windowData _
      exact ((h1.congr_trace { (getFocusedWindowData env
          (w.record (.moveAndResizeWindow x y width height))).2 with
          m_currentWindowAddress := windowData.address } rfl).quiet
        (executeHyprlandCommand_emits env _ _)).quiet (executeHyprlandCommand_emits env _ _)

theorem positionTiledWindow_emits (env : Env) (x y width height : ℤ) (w : World) :
    Emits w (positionTiledWindow env x y width height w).2
      [.positionTiledWindow x y width height] := by
  have h0 : Emits w (w.record (.positionTiledWindow x y width height))
      [.positionTiledWindow x y width height] := Emits.record w _
  have h1 := h0.quiet (getFocusedWindowData_emits env _)
  unfold positionTiledWindow
  dsimp only
  split
  · exact h0
  · split
    · exact h1
    · rename_i windowData _
      have h2 := (h1.congr_trace { (getFocusedWindowData env
          (w.record (.positionTiledWindow x y width height))).2 with
          m_currentWindowAddress := windowData.address } rfl).quiet
        (isWindowFloating_emits env _)
      split
      · have h3 := h2.quiet (toggleFloating_emits env _)
        split
        · exact h3
        · exact ((h3.quiet (executeHyprlandCommand_emits env _ _)).quiet
            (executeHyprlandCommand_emits env _ _)).quiet (getFocusedWindowData_emits env _)
      · exact ((h2.quiet (executeHyprlandCommand_emits env _ _)).quiet
            (executeHyprlandCommand_emits env _ _)).quiet (getFocusedWindowData_emits env _)

theorem gridToPixelPosition_isSome (cfg : Config) (position : GridPosition) (screen : Screen)
    (hrows : cfg.rows ≠ 0) (hcols : cfg.columns ≠ 0) :
    ∃ r, gridToPixelPosition cfg position screen = some r := by
  cases hm : centeredScaled position
  · exact ⟨_, gridToPixelPosition_grid cfg position screen hrows hcols hm⟩
  · exact ⟨_, gridToPixelPosition_centered cfg position screen hrows hcols hm⟩

/-- On a valid screen `applyGridPosition` makes exactly one positioning call,
chosen by `useTiling && hasMultipleWindows`, with the resolved rectangle. -/
theorem applyGridPosition_emits (env : Env) (cfg : Config) (position : GridPosition)
    (w : World) (pixelPos : PixelPosition)
    (hwidth : 0 < (getScreenDimensions env w).1.width)
    (hheight : 0 < (getScreenDimensions env w).1.height)
    (hpixel : gridToPixelPosition cfg position (getScreenDimensions env w).1 = some pixelPos) :
    Emits w (applyGridPosition env cfg position w).2
      [if cfg.useTiling && (hasMultipleWindowsInWorkspace env (getScreenDimensions env w).2).1
        then .positionTiledWindow pixelPos.x pixelPos.y pixelPos.width pixelPos.height
        else .moveAndResizeWindow pixelPos.x pixelPos.y pixelPos.width pixelPos.height] := by
  have hscreen : ¬ ((getScreenDimensions env w).1.width ≤ 0 ∨
      (getScreenDimensions env w).1.height ≤ 0) := by omega
  have h0 := (getScreenDimensions_emits env w).quiet (hasMultipleWindowsInWorkspace_emits env _)
  unfold applyGridPosition
  simp only [hscreen, hpixel, if_false, Bool.not_true, Bool.false_and, Bool.false_eq_true]
  cases hcond : (cfg.useTiling &&
      (hasMultipleWindowsInWorkspace env (getScreenDimensions env w).2).1)
  · have h1 := (Emits.trans (h0.quiet (ensureFloating_emits env cfg _))
      (moveAndResizeWindow_emits env pixelPos.x pixelPos.y pixelPos.width pixelPos.height _))
    simp only [Bool.false_eq_true, if_false]
    split
    · exact h1
    · split
      · exact h1.quiet (sendNotification_emits env _ _ _ _)
      · exact h1
  · have h1 := (Emits.trans (h0.quiet (ensureTiled_emits env _))
      (positionTiledWindow_emits env pixelPos.x pixelPos.y pixelPos.width pixelPos.height _))
    simp only [if_true]
    split
    · exact h1
    · split
      · exact h1.quiet (sendNotification_emits env _ _ _ _)
      · exact h1

/-! ## Positioning (`GridManager::applyGridPosition`) -/

/-- C9: strategy selection in `applyGridPosition` on a valid screen (and a grid
with rows and columns).  The call `positionTiledWindow` is made if and only if
the `useTiling` flag is true and `hasMultipleWindowsInWorkspace` reports more
than one window in the current workspace; then it is the only positioning call.
In every other case, in particular whenever a single window is reported, even
with `useTiling` = true, the only positioning call is `moveAndResizeWindow` and
`positionTiledWindow` is never called.  Both receive the resolved rectangle. -/
theorem applyGridPosition_strategy (env : Env) (cfg : Config) (position : GridPosition)
    (w : World)
    (hwidth : 0 < (getScreenDimensions env w).1.width)
    (hheight : 0 < (getScreenDimensions env w).1.height)
    (hrows : cfg.rows ≠ 0) (hcols : cfg.columns ≠ 0) :
    ∃ pixelPos, gridToPixelPosition cfg position (getScreenDimensions env w).1 = some pixelPos ∧
      ((∃ x y width height, Event.positionTiledWindow x y width height ∈
          w.since (applyGridPosition env cfg position w).2) ↔
        (cfg.useTiling = true ∧
          (hasMultipleWindowsInWorkspace env (getScreenDimensions env w).2).1 = true)) ∧
      ((cfg.useTiling = true ∧
          (hasMultipleWindowsInWorkspace env (getScreenDimensions env w).2).1 = true) →
        positioningCalls w (applyGridPosition env cfg position w).2 =
          [.positionTiledWindow pixelPos.x pixelPos.y pixelPos.width pixelPos.height]) ∧
      (¬ (cfg.useTiling = true ∧
          (hasMultipleWindowsInWorkspace env (getScreenDimensions env w).2).1 = true) →
        positioningCalls w (applyGridPosition env cfg position w).2 =
          [.moveAndResizeWindow pixelPos.x pixelPos.y pixelPos.width pixelPos.height]) ∧
      ((hasMultipleWindowsInWorkspace env (getScreenDimensions env w).2).1 = false →
        positioningCalls w (applyGridPosition env cfg position w).2 =
            [.moveAndResizeWindow pixelPos.x pixelPos.y pixelPos.width pixelPos.height] ∧
          ∀ x y width height, Event.positionTiledWindow x y width height ∉
            w.since (applyGridPosition env cfg position w).2) := by
  obtain ⟨pixelPos, hpixel⟩ :=
    gridToPixelPosition_isSome cfg position (getScreenDimensions env w).1 hrows hcols
  have hcalls := (applyGridPosition_emits env cfg position w pixelPos hwidth hheight
    hpixel).calls_eq
  have hmem : ∀ e, Event.isPositioning e = true →
      (e ∈ w.since (applyGridPosition env cfg position w).2 ↔
        e ∈ positioningCalls w (applyGridPosition env cfg position w).2) := by
    intro e he
    simp [positioningCalls, List.mem_filter, he]
  refine ⟨pixelPos, hpixel, ?_, ?_, ?_, ?_⟩
  · constructor
    · rintro ⟨x, y, width, height, hin⟩
      rw [hmem (.positionTiledWindow x y width height) rfl, hcalls] at hin
      by_contra hcond
      have hb : (cfg.useTiling &&
          (hasMultipleWindowsInWorkspace env (getScreenDimensions env w).2).1) = false := by
        simpa using hcond
      simp [hb] at hin
    · rintro ⟨h1, h2⟩
      refine ⟨pixelPos.x, pixelPos.y, pixelPos.width, pixelPos.height, ?_⟩
      rw [hmem (.positionTiledWindow pixelPos.x pixelPos.y pixelPos.width pixelPos.height) rfl,
        hcalls]
      simp [h1, h2]
  · rintro ⟨h1, h2⟩
    rw [hcalls]
    simp [h1, h2]
  · intro hcond
    have hb : (cfg.useTiling &&
        (hasMultipleWindowsInWorkspace env (getScreenDimensions env w).2).1) = false := by
      simpa using hcond
    rw [hcalls]
    simp [hb]
  · intro hsingle
    constructor
    · rw [hcalls]
      simp [hsingle]
    · intro x y width height hin
      rw [hmem (.positionTiledWindow x y width height) rfl, hcalls] at hin
      simp [hsingle] at hin

/-- Witness of C9: the default grid with `useTiling` set, two windows on the
current workspace, a 1920x1080 screen. -/
theorem applyGridPosition_strategy_witness :
    ∃ pixelPos, gridToPixelPosition tilingConfig { x := 0, y := 0, width := 1, height := 1 }
        (getScreenDimensions twoWindowsEnv initialWorld).1 = some pixelPos ∧
      ((∃ x y width height, Event.positionTiledWindow x y width height ∈
          initialWorld.since (applyGridPosition twoWindowsEnv tilingConfig
            { x := 0, y := 0, width := 1, height := 1 } initialWorld).2) ↔
        (tilingConfig.useTiling = true ∧
          (hasMultipleWindowsInWorkspace twoWindowsEnv
            (getScreenDimensions twoWindowsEnv initialWorld).2).1 = true)) ∧
      ((tilingConfig.useTiling = true ∧
          (hasMultipleWindowsInWorkspace twoWindowsEnv
            (getScreenDimensions twoWindowsEnv initialWorld).2).1 = true) →
        positioningCalls initialWorld (applyGridPosition twoWindowsEnv tilingConfig
            { x := 0, y := 0, width := 1, height := 1 } initialWorld).2 =
          [.positionTiledWindow pixelPos.x pixelPos.y pixelPos.width pixelPos.height]) ∧
      (¬ (tilingConfig.useTiling = true ∧
          (hasMultipleWindowsInWorkspace twoWindowsEnv
            (getScreenDimensions twoWindowsEnv initialWorld).2).1 = true) →
        positioningCalls initialWorld (applyGridPosition twoWindowsEnv tilingConfig
            { x := 0, y := 0, width := 1, height := 1 } initialWorld).2 =
          [.moveAndResizeWindow pixelPos.x pixelPos.y pixelPos.width pixelPos.height]) ∧
      ((hasMultipleWindowsInWorkspace twoWindowsEnv
            (getScreenDimensions twoWindowsEnv initialWorld).2).1 = false →
        positioningCalls initialWorld (applyGridPosition twoWindowsEnv tilingConfig
            { x := 0, y := 0, width := 1, height := 1 } initialWorld).2 =
            [.moveAndResizeWindow pixelPos.x pixelPos.y pixelPos.width pixelPos.height] ∧
          ∀ x y width height, Event.positionTiledWindow x y width height ∉
            initialWorld.since (applyGridPosition twoWindowsEnv tilingConfig
              { x := 0, y := 0, width := 1, height := 1 } initialWorld).2) :=
  applyGridPosition_strategy twoWindowsEnv tilingConfig
    { x := 0, y := 0, width := 1, height := 1 } initialWorld
    (by decide) (by decide) (by decide) (by decide)

/-- C10, the run that shows the defect: with the default configuration
(`retryOnFailure` = true, `retryCount` = 3, `retryDelay` = 200) and an
environment whose first `movewindowpixel` fails and whose later commands
succeed, `applyGridPosition` returns false after a single `moveAndResizeWindow`
call, without any `msleep` and without a second attempt, although the same call
made again at the end of the run succeeds. -/
theorem applyGridPosition_first_move_fails_no_retry :
    loadDefaultConfig.retryOnFailure = true ∧ loadDefaultConfig.retryCount = 3 ∧
    (applyGridPosition firstMoveFailsEnv loadDefaultConfig
        { x := 0, y := 0, width := 1, height := 1 } initialWorld).1 = some false ∧
    (applyGridPosition firstMoveFailsEnv loadDefaultConfig
        { x := 0, y := 0, width := 1, height := 1 } initialWorld).2.trace =
      [.hyprctl .monitors, .hyprctl .activeworkspace, .hyprctl .clients, .isWindowFloating,
       .hyprctl .activewindow, .moveAndResizeWindow 5 5 633 353, .hyprctl .activewindow,
       .hyprctl (.dispatch (.movewindowpixel 5 5 "0x55d0")),
       .hyprctl (.dispatch (.resizewindowpixel 633 353 "0x55d0"))] ∧
    (moveAndResizeWindow firstMoveFailsEnv 5 5 633 353
      (applyGridPosition firstMoveFailsEnv loadDefaultConfig
        { x := 0, y := 0, width := 1, height := 1 } initialWorld).2).1 = true := by
  decide

/-! ## Bounded retry (`GridManager::ensureFloating`) -/

theorem Within.within_refl (w : World) : Within w w 0 0 :=
  ⟨[], (List.append_nil _).symm, by simp, by simp⟩

theorem Within.within_trans {w w1 w2 : World} {t1 q1 t2 q2 : ℕ} (h1 : Within w w1 t1 q1)
    (h2 : Within w1 w2 t2 q2) : Within w w2 (t1 + t2) (q1 + q2) := by
  obtain ⟨es1, ht1, ha1, hb1⟩ := h1
  obtain ⟨es2, ht2, ha2, hb2⟩ := h2
  refine ⟨es1 ++ es2, by rw [ht2, ht1, List.append_assoc], ?_, ?_⟩
  · rw [List.count_append]; omega
  · rw [List.count_append]; omega

theorem Within.mono {w w1 : World} {t q t2 q2 : ℕ} (h : Within w w1 t q)
    (ht : t ≤ t2) (hq : q ≤ q2) : Within w w1 t2 q2 := by
  obtain ⟨es, h1, ha, hb⟩ := h
  exact ⟨es, h1, ha.trans ht, hb.trans hq⟩

theorem Within.within_record (w : World) (e : Event) :
    Within w (w.record e) ([e].count .toggleFloating) ([e].count .isWindowFloating) :=
  ⟨[e], rfl, le_refl _, le_refl _⟩

theorem Within.msleep (w : World) (ms : ℤ) : Within w (w.record (.msleep ms)) 0 0 :=
  Within.within_record w _

theorem Within.counts {w w1 : World} {t q : ℕ} (h : Within w w1 t q) :
    (w.since w1).count .toggleFloating ≤ t ∧ (w.since w1).count .isWindowFloating ≤ q := by
  obtain ⟨es, h1, ha, hb⟩ := h
  have hs : w.since w1 = es := by simp [World.since, h1]
  rw [hs]
  exact ⟨ha, hb⟩

theorem isWindowFloating_within (env : Env) (w : World) :
    Within w (isWindowFloating env w).2 0 1 := by
  have h0 : Within w (w.record .isWindowFloating) 0 1 := Within.within_record w _
  have h1 : Within w (getFocusedWindowData env (w.record .isWindowFloating)).2 0 1 :=
    h0.within_trans (Within.within_record _ (.hyprctl .activewindow))
  unfold isWindowFloating
  dsimp only
  split
  · exact h0
  · split <;> exact h1

theorem toggleFloating_within (env : Env) (w : World) :
    Within w (toggleFloating env w).2 1 0 := by
  have h0 : Within w (w.record .toggleFloating) 1 0 := Within.within_record w _
  have h1 : Within w (getFocusedWindowData env (w.record .toggleFloating)).2 1 0 :=
    h0.within_trans (Within.within_record _ (.hyprctl .activewindow))
  unfold toggleFloating
  dsimp only
  split
  · exact h0
  · split
    · exact h1
    · exact h1.within_trans (Within.within_record _ (.hyprctl (.dispatch .togglefloating)))

theorem ensureFloatingLoop_within (env : Env) (n : ℕ) (isFloating : Bool) (w : World) :
    Within w (ensureFloatingLoop env n isFloating w).2 (2 * n) n := by
  induction n generalizing isFloating w with
  | zero => exact Within.within_refl w
  | succ n ih =>
    unfold ensureFloatingLoop
    dsimp only
    split
    · exact (Within.within_refl w).mono (by omega) (by omega)
    · have h1 := toggleFloating_within env w
      have h2 := h1.within_trans (Within.msleep _ 200)
      have h3 := h2.within_trans (toggleFloating_within env _)
      have h4 := h3.within_trans (Within.msleep _ 200)
      have h5 := h4.within_trans (isWindowFloating_within env _)
      exact (h5.within_trans (ih _ _)).mono (by omega) (by omega)

theorem ensureFloating_within (env : Env) (cfg : Config) (w : World) :
    Within w (ensureFloating env cfg w).2 (1 + 2 * cfg.retryCount.toNat)
      (2 + cfg.retryCount.toNat) := by
  have h0 := isWindowFloating_within env w
  have h1 := h0.within_trans (toggleFloating_within env _)
  have h2 := h1.within_trans (Within.msleep _ 100)
  have h3 := h2.within_trans (isWindowFloating_within env _)
  unfold ensureFloating
  dsimp only
  split
  · split
    · exact h1.mono (by omega) (by omega)
    · split
      · exact (h3.within_trans (ensureFloatingLoop_within env _ _ _)).mono (by omega) (by omega)
      · exact h3.mono (by omega) (by omega)
  · exact h0.mono (by omega) (by omega)

/-- C11: bounded retry.  For every `retryCount` and every pattern of compositor
responses `ensureFloating` returns after at most `retryCount + 1` toggle
attempts, an attempt being the initial toggle or one toggle-twice reset
sequence: it makes at most 1 + 2*max(retryCount,0) calls of `toggleFloating`
and at most 2 + max(retryCount,0) mode queries. -/
theorem ensureFloating_bounded_retry (env : Env) (cfg : Config) (w : World) :
    (((w.since (ensureFloating env cfg w).2).count .toggleFloating : ℕ) : ℤ) ≤
        1 + 2 * max cfg.retryCount 0 ∧
      (((w.since (ensureFloating env cfg w).2).count .isWindowFloating : ℕ) : ℤ) ≤
        2 + max cfg.retryCount 0 := by
  have h := (ensureFloating_within env cfg w).counts
  have hmax : ((cfg.retryCount.toNat : ℕ) : ℤ) = max cfg.retryCount 0 := by
    rw [Int.toNat_eq_max]
  constructor
  · rw [← hmax]; exact_mod_cast h.1
  · rw [← hmax]; exact_mod_cast h.2

/-- The bounds of C11 are reached: with `retryCount` = 3 and a window that
never becomes floating, `ensureFloating` makes 7 calls of `toggleFloating` and
5 mode queries, and returns false. -/
theorem ensureFloating_bounds_reached :
    (ensureFloating neverFloatingEnv loadDefaultConfig initialWorld).1 = false ∧
    (initialWorld.since
      (ensureFloating neverFloatingEnv loadDefaultConfig initialWorld).2).count
        .toggleFloating = 7 ∧
    (initialWorld.since
      (ensureFloating neverFloatingEnv loadDefaultConfig initialWorld).2).count
        .isWindowFloating = 5 := by
  decide

/-! ## Mode reports (`GridManager::ensureFloating`, `GridManager::ensureTiled`) -/

theorem guardedToggles_append (env : Env) (initialized : Bool) (a b : List Event) :
    ∀ (history : List Event) (last : Option Bool),
      guardedToggles env initialized history (a ++ b) last =
        (guardedToggles env initialized history a last).bind
          (guardedToggles env initialized (history ++ a) b) := by
  induction a with
  | nil => intro history last; simp [guardedToggles]
  | cons e a ih =>
    intro history last
    simp only [List.cons_append, guardedToggles, List.append_eq]
    split
    · split
      · rw [ih]; simp
      · rfl
    · rw [ih]; simp

theorem guardedToggles_sound (env : Env) (initialized : Bool) (es : List Event) :
    ∀ (history : List Event) (last l : Option Bool),
      guardedToggles env initialized history es last = some l →
      lastModeReport env initialized history es last = l ∧
        ∀ a b, es = a ++ Event.toggleFloating :: b →
          lastModeReport env initialized history a last = some false := by
  induction es with
  | nil =>
    intro history last l h
    simp only [guardedToggles, Option.some.injEq] at h
    refine ⟨by simpa [lastModeReport] using h, ?_⟩
    intro a b hab
    simp at hab
  | cons e es ih =>
    intro history last l h
    simp only [guardedToggles] at h
    by_cases he : e = .toggleFloating
    · subst he
      simp only [if_true] at h
      by_cases hl : last = some false
      · rw [if_pos hl] at h
        obtain ⟨h1, h2⟩ := ih _ _ _ h
        refine ⟨by simpa [lastModeReport] using h1, ?_⟩
        intro a b hab
        cases a with
        | nil => simpa [lastModeReport] using hl
        | cons e2 a2 =>
          simp only [List.cons_append, List.cons.injEq] at hab
          obtain ⟨he2, hrest⟩ := hab
          subst he2
          simpa [lastModeReport] using h2 a2 b hrest
      · rw [if_neg hl] at h
        exact absurd h (by simp)
    · rw [if_neg he] at h
      obtain ⟨h1, h2⟩ := ih _ _ _ h
      refine ⟨by simpa [lastModeReport] using h1, ?_⟩
      intro a b hab
      cases a with
      | nil =>
        simp only [List.nil_append, List.cons.injEq] at hab
        exact absurd hab.1 he
      | cons e2 a2 =>
        simp only [List.cons_append, List.cons.injEq] at hab
        obtain ⟨he2, hrest⟩ := hab
        subst he2
        simpa [lastModeReport] using h2 a2 b hrest

theorem Guarded.guarded_refl (env : Env) (w : World) (last : Option Bool) : Guarded env w w last last :=
  ⟨[], (List.append_nil _).symm, rfl, rfl⟩

theorem Guarded.guarded_trans {env : Env} {w w1 w2 : World} {l l1 l2 : Option Bool}
    (h1 : Guarded env w w1 l l1) (h2 : Guarded env w1 w2 l1 l2) : Guarded env w w2 l l2 := by
  obtain ⟨es1, ht1, hi1, hg1⟩ := h1
  obtain ⟨es2, ht2, hi2, hg2⟩ := h2
  refine ⟨es1 ++ es2, by rw [ht2, ht1, List.append_assoc], hi2.trans hi1, ?_⟩
  rw [guardedToggles_append, hg1]
  rw [hi1, ht1] at hg2
  simpa using hg2

theorem Guarded.guarded_congr_trace {env : Env} {w w1 : World} {l l1 : Option Bool}
    (h : Guarded env w w1 l l1) (w2 : World) (ht : w2.trace = w1.trace)
    (hi : w2.m_initialized = w1.m_initialized) : Guarded env w w2 l l1 := by
  obtain ⟨es, h1, h2, h3⟩ := h
  exact ⟨es, ht.trans h1, hi.trans h2, h3⟩

theorem Guarded.other (env : Env) (w : World) (e : Event) (last : Option Bool)
    (h1 : e ≠ .toggleFloating) (h2 : e ≠ .isWindowFloating) :
    Guarded env w (w.record e) last last :=
  ⟨[e], rfl, rfl, by simp [guardedToggles, h1, h2]⟩

theorem Guarded.sound {env : Env} {w w1 : World} {l l1 : Option Bool}
    (h : Guarded env w w1 l l1) :
    lastModeReport env w.m_initialized w.trace (w.since w1) l = l1 ∧
      ∀ a b, w.since w1 = a ++ Event.toggleFloating :: b →
        lastModeReport env w.m_initialized w.trace a l = some false := by
  obtain ⟨es, h1, _, h3⟩ := h
  have hs : w.since w1 = es := by simp [World.since, h1]
  rw [hs]
  exact guardedToggles_sound env _ es _ _ _ h3

theorem isWindowFloating_eq_modeReport (env : Env) (w : World) :
    (isWindowFloating env w).1 = modeReport env w.m_initialized w.trace := by
  unfold isWindowFloating modeReport getFocusedWindowData World.record
  dsimp only
  cases w.m_initialized
  · simp
  · simp only [Bool.not_true, Bool.false_eq_true, if_false, Bool.true_and]
    split <;> simp_all

theorem isWindowFloating_guarded (env : Env) (w : World) (last : Option Bool) :
    Guarded env w (isWindowFloating env w).2 last (some (isWindowFloating env w).1) := by
  have h0 : Guarded env w (w.record .isWindowFloating) last
      (some (isWindowFloating env w).1) :=
    ⟨[.isWindowFloating], rfl, rfl, by
      simp [guardedToggles, isWindowFloating_eq_modeReport]⟩
  have h1 : Guarded env w (getFocusedWindowData env (w.record .isWindowFloating)).2 last
      (some (isWindowFloating env w).1) :=
    h0.guarded_trans (Guarded.other env _ _ _ (by simp) (by simp))
  unfold isWindowFloating at h0 h1 ⊢
  dsimp only at h0 h1 ⊢
  split
  · rename_i h; simpa [h] using h0
  · rename_i h
    split
    · rename_i h2; simpa [h, h2] using h1
    · rename_i d h2; simpa [h, h2] using h1

theorem toggleFloating_guarded (env : Env) (w : World) :
    Guarded env w (toggleFloating env w).2 (some false) (some false) := by
  have h0 : Guarded env w (w.record .toggleFloating) (some false) (some false) :=
    ⟨[.toggleFloating], rfl, rfl, by simp [guardedToggles]⟩
  have h1 : Guarded env w (getFocusedWindowData env (w.record .toggleFloating)).2
      (some false) (some false) :=
    h0.guarded_trans (Guarded.other env _ _ _ (by simp) (by simp))
  unfold toggleFloating
  dsimp only
  split
  · exact h0
  · split
    · exact h1
    · rename_i windowData _
      exact (h1.guarded_congr_trace { (getFocusedWindowData env (w.record .toggleFloating)).2 with
          m_currentWindowAddress := windowData.address } rfl rfl).guarded_trans
        (Guarded.other env _ _ _ (by simp) (by simp))

theorem msleep_guarded (env : Env) (w : World) (ms : ℤ) (last : Option Bool) :
    Guarded env w (w.record (.msleep ms)) last last :=
  Guarded.other env w _ last (by simp) (by simp)

theorem ensureFloatingLoop_guarded (env : Env) (n : ℕ) (isFloating : Bool) (w : World) :
    Guarded env w (ensureFloatingLoop env n isFloating w).2 (some isFloating)
      (some (ensureFloatingLoop env n isFloating w).1) := by
  induction n generalizing isFloating w with
  | zero => exact Guarded.guarded_refl env w _
  | succ n ih =>
    unfold ensureFloatingLoop
    dsimp only
    split
    · exact Guarded.guarded_refl env w _
    · rename_i h
      have hf : isFloating = false := by simpa using h
      subst hf
      have h1 := toggleFloating_guarded env w
      have h2 := h1.guarded_trans (msleep_guarded env _ 200 _)
      have h3 := h2.guarded_trans (toggleFloating_guarded env _)
      have h4 := h3.guarded_trans (msleep_guarded env _ 200 _)
      have h5 := h4.guarded_trans (isWindowFloating_guarded env _ _)
      exact h5.guarded_trans (ih _ _)

theorem ensureFloating_guarded (env : Env) (cfg : Config) (w : World) :
    Guarded env w (ensureFloating env cfg w).2 none (some (ensureFloating env cfg w).1) := by
  have h0 := isWindowFloating_guarded env w none
  unfold ensureFloating
  dsimp only
  split
  · rename_i h
    have hf : (isWindowFloating env w).1 = false := by simpa using h
    rw [hf] at h0
    have h1 := h0.guarded_trans (toggleFloating_guarded env _)
    split
    · exact h1
    · have h2 := h1.guarded_trans (msleep_guarded env _ 100 _)
      have h3 := h2.guarded_trans (isWindowFloating_guarded env _ _)
      split
      · exact h3.guarded_trans (ensureFloatingLoop_guarded env _ _ _)
      · exact h3
  · exact h0

theorem ensureTiled_guarded (env : Env) (w : World) :
    ∃ last, Guarded env w (ensureTiled env w).2 none (some last) ∧
      (ensureTiled env w).1 = last := by
  have h0 := isWindowFloating_guarded env w none
  unfold ensureTiled
  dsimp only
  split
  · rename_i h
    have hf : (isWindowFloating env w).1 = false := by simpa using h
    rw [hf] at h0
    have h1 := h0.guarded_trans (toggleFloating_guarded env _)
    split
    · exact ⟨false, h1, rfl⟩
    · have h2 := h1.guarded_trans (msleep_guarded env _ 100 _)
      have h3 := h2.guarded_trans (isWindowFloating_guarded env _ _)
      split
      · rename_i h4
        refine ⟨_, h3, ?_⟩
        simpa using h4
      · rename_i h4
        refine ⟨_, h3, ?_⟩
        simpa using h4
  · rename_i h
    refine ⟨_, h0, ?_⟩
    simpa using h

theorem not_mem_of_count_le_zero {es : List Event} {e : Event} (h : es.count e ≤ 0) :
    e ∉ es := by
  intro hmem
  have := List.count_pos_iff.2 hmem
  omega

/-- C12: `ensureFloating` returns true exactly when the most recent mode query
it made reported Floating, for every pattern of compositor responses.  When the
first query already reports Floating it issues no toggle (and returns true),
and every call of `toggleFloating` comes while the most recent query reports
not floating, so it stops toggling as soon as a re-query reports Floating. -/
theorem ensureFloating_reports (env : Env) (cfg : Config) (w : World) :
    lastModeReport env w.m_initialized w.trace (w.since (ensureFloating env cfg w).2) none =
        some (ensureFloating env cfg w).1 ∧
      (modeReport env w.m_initialized w.trace = true →
        (ensureFloating env cfg w).1 = true ∧
          Event.toggleFloating ∉ w.since (ensureFloating env cfg w).2) ∧
      (∀ a b, w.since (ensureFloating env cfg w).2 = a ++ Event.toggleFloating :: b →
        lastModeReport env w.m_initialized w.trace a none = some false) := by
  obtain ⟨h1, h2⟩ := (ensureFloating_guarded env cfg w).sound
  refine ⟨h1, ?_, h2⟩
  intro hfirst
  rw [← isWindowFloating_eq_modeReport] at hfirst
  have heq : ensureFloating env cfg w = isWindowFloating env w := by
    unfold ensureFloating
    simp only [hfirst, Bool.not_true, Bool.false_eq_true, if_false]
    exact Prod.ext hfirst.symm rfl
  rw [heq]
  exact ⟨hfirst, not_mem_of_count_le_zero (isWindowFloating_within env w).counts.1⟩

/-- Witness of C12: a window that is floating at the first query, and a window
that becomes floating by the first toggle. -/
theorem ensureFloating_reports_witness :
    lastModeReport floatsAfterToggleEnv initialWorld.m_initialized initialWorld.trace
        (initialWorld.since (ensureFloating floatsAfterToggleEnv loadDefaultConfig
          initialWorld).2) none =
        some (ensureFloating floatsAfterToggleEnv loadDefaultConfig initialWorld).1 ∧
      ((ensureFloating twoWindowsEnv loadDefaultConfig initialWorld).1 = true ∧
        Event.toggleFloating ∉
          initialWorld.since (ensureFloating twoWindowsEnv loadDefaultConfig initialWorld).2) ∧
      lastModeReport floatsAfterToggleEnv initialWorld.m_initialized initialWorld.trace
        [.isWindowFloating, .hyprctl .activewindow] none = some false :=
  ⟨(ensureFloating_reports floatsAfterToggleEnv loadDefaultConfig initialWorld).1,
   (ensureFloating_reports twoWindowsEnv loadDefaultConfig initialWorld).2.1 (by decide),
   (ensureFloating_reports floatsAfterToggleEnv loadDefaultConfig initialWorld).2.2
     [.isWindowFloating, .hyprctl .activewindow]
     [.hyprctl .activewindow, .hyprctl (.dispatch .togglefloating), .msleep 100,
      .isWindowFloating, .hyprctl .activewindow] (by decide)⟩

/-- C20: `ensureTiled` gives the same floating guarantee as `ensureFloating` and
never moves a window towards tiled.  When the first mode query reports Floating
it issues no toggle and returns true; for every response pattern it returns
true exactly when the last mode query it made reported Floating; every call of
`toggleFloating` comes while the most recent query reports not floating; and
whenever it returns true, `ensureFloating` does the same calls and returns
true. -/
theorem ensureTiled_reports (env : Env) (cfg : Config) (w : World) :
    lastModeReport env w.m_initialized w.trace (w.since (ensureTiled env w).2) none =
        some (ensureTiled env w).1 ∧
      (modeReport env w.m_initialized w.trace = true →
        (ensureTiled env w).1 = true ∧ Event.toggleFloating ∉ w.since (ensureTiled env w).2) ∧
      (∀ a b, w.since (ensureTiled env w).2 = a ++ Event.toggleFloating :: b →
        lastModeReport env w.m_initialized w.trace a none = some false) ∧
      ((ensureTiled env w).1 = true → ensureFloating env cfg w = ensureTiled env w) := by
  obtain ⟨last, hg, hlast⟩ := ensureTiled_guarded env w
  obtain ⟨h1, h2⟩ := hg.sound
  refine ⟨by rw [h1, hlast], ?_, h2, ?_⟩
  · intro hfirst
    rw [← isWindowFloating_eq_modeReport] at hfirst
    have heq : ensureTiled env w = (true, (isWindowFloating env w).2) := by
      unfold ensureTiled
      simp only [hfirst, Bool.not_true, Bool.false_eq_true, if_false]
    rw [heq]
    exact ⟨rfl, not_mem_of_count_le_zero (isWindowFloating_within env w).counts.1⟩
  · unfold ensureTiled ensureFloating
    dsimp only
    cases h0 : (isWindowFloating env w).1
    · simp only [Bool.not_false, if_true]
      cases ht : (toggleFloating env (isWindowFloating env w).2).1
      · simp
      · simp only [Bool.not_true, Bool.false_eq_true, if_false]
        cases hq : (isWindowFloating env
            ((toggleFloating env (isWindowFloating env w).2).2.record (.msleep 100))).1
        · simp
        · intro _
          simp only [Bool.not_true, Bool.false_eq_true, if_false]
    · intro _
      simp only [Bool.not_true, Bool.false_eq_true, if_false]

/-- Witness of C20: a window that is floating at the first query, and a window
that becomes floating by the toggle. -/
theorem ensureTiled_reports_witness :
    lastModeReport floatsAfterToggleEnv initialWorld.m_initialized initialWorld.trace
        (initialWorld.since (ensureTiled floatsAfterToggleEnv initialWorld).2) none =
        some (ensureTiled floatsAfterToggleEnv initialWorld).1 ∧
      ((ensureTiled twoWindowsEnv initialWorld).1 = true ∧
        Event.toggleFloating ∉ initialWorld.since (ensureTiled twoWindowsEnv initialWorld).2) ∧
      lastModeReport floatsAfterToggleEnv initialWorld.m_initialized initialWorld.trace
        [.isWindowFloating, .hyprctl .activewindow] none = some false ∧
      ensureFloating floatsAfterToggleEnv loadDefaultConfig initialWorld =
        ensureTiled floatsAfterToggleEnv initialWorld :=
  ⟨(ensureTiled_reports floatsAfterToggleEnv loadDefaultConfig initialWorld).1,
   (ensureTiled_reports twoWindowsEnv loadDefaultConfig initialWorld).2.1 (by decide),
   (ensureTiled_reports floatsAfterToggleEnv loadDefaultConfig initialWorld).2.2.1
     [.isWindowFloating, .hyprctl .activewindow]
     [.hyprctl .activewindow, .hyprctl (.dispatch .togglefloating), .msleep 100,
      .isWindowFloating, .hyprctl .activewindow] (by decide),
   (ensureTiled_reports floatsAfterToggleEnv loadDefaultConfig initialWorld).2.2.2
     (by decide)⟩

/-! ## Outcome of `GridManager::applyGridPosition` -/

/-- On a valid screen the value returned by `applyGridPosition` is the value of
its positioning call, made in the world left by `ensureTiled` or
`ensureFloating`. -/
theorem applyGridPosition_result (env : Env) (cfg : Config) (position : GridPosition)
    (w : World) (pixelPos : PixelPosition)
    (hwidth : 0 < (getScreenDimensions env w).1.width)
    (hheight : 0 < (getScreenDimensions env w).1.height)
    (hpixel : gridToPixelPosition cfg position (getScreenDimensions env w).1 = some pixelPos) :
    (applyGridPosition env cfg position w).1 = some
      (if cfg.useTiling && (hasMultipleWindowsInWorkspace env (getScreenDimensions env w).2).1
        then
          (positionTiledWindow env pixelPos.x pixelPos.y pixelPos.width pixelPos.height
            (ensureTiled env
              (hasMultipleWindowsInWorkspace env (getScreenDimensions env w).2).2).2).1
        else
          (moveAndResizeWindow env pixelPos.x pixelPos.y pixelPos.width pixelPos.height
            (ensureFloating env cfg
              (hasMultipleWindowsInWorkspace env (getScreenDimensions env w).2).2).2).1) := by
  have hscreen : ¬ ((getScreenDimensions env w).1.width ≤ 0 ∨
      (getScreenDimensions env w).1.height ≤ 0) := by omega
  unfold applyGridPosition
  simp only [hscreen, hpixel, if_false, Bool.not_true, Bool.false_and, Bool.false_eq_true]
  cases hcond : (cfg.useTiling &&
      (hasMultipleWindowsInWorkspace env (getScreenDimensions env w).2).1)
  · simp only [Bool.false_eq_true, if_false]
    cases hp : (moveAndResizeWindow env pixelPos.x pixelPos.y pixelPos.width pixelPos.height
        (ensureFloating env cfg
          (hasMultipleWindowsInWorkspace env (getScreenDimensions env w).2).2).2).1 <;> simp
  · simp only [if_true]
    cases hp : (positionTiledWindow env pixelPos.x pixelPos.y pixelPos.width pixelPos.height
        (ensureTiled env
          (hasMultipleWindowsInWorkspace env (getScreenDimensions env w).2).2).2).1 <;> simp

/-- C13: a failed mode transition does not abort positioning.  With a valid
screen (and a grid with rows and columns) `applyGridPosition` makes the
positioning call in the world left by `ensureTiled` (tiled strategy) or
`ensureFloating` (floating strategy), it is the only positioning call of the
run, and the value returned is the value of that call, whatever `ensureTiled`
or `ensureFloating` returned. -/
theorem applyGridPosition_proceeds_after_failed_transition (env : Env) (cfg : Config)
    (position : GridPosition) (w : World)
    (hwidth : 0 < (getScreenDimensions env w).1.width)
    (hheight : 0 < (getScreenDimensions env w).1.height)
    (hrows : cfg.rows ≠ 0) (hcols : cfg.columns ≠ 0) :
    ∃ pixelPos, gridToPixelPosition cfg position (getScreenDimensions env w).1 = some pixelPos ∧
      ((cfg.useTiling = true ∧
          (hasMultipleWindowsInWorkspace env (getScreenDimensions env w).2).1 = true) →
        ∀ ensured : Bool,
          (ensureTiled env
            (hasMultipleWindowsInWorkspace env (getScreenDimensions env w).2).2).1 = ensured →
          positioningCalls w (applyGridPosition env cfg position w).2 =
            [.positionTiledWindow pixelPos.x pixelPos.y pixelPos.width pixelPos.height] ∧
          (applyGridPosition env cfg position w).1 = some
            (positionTiledWindow env pixelPos.x pixelPos.y pixelPos.width pixelPos.height
              (ensureTiled env
                (hasMultipleWindowsInWorkspace env (getScreenDimensions env w).2).2).2).1) ∧
      (¬ (cfg.useTiling = true ∧
          (hasMultipleWindowsInWorkspace env (getScreenDimensions env w).2).1 = true) →
        ∀ ensured : Bool,
          (ensureFloating env cfg
            (hasMultipleWindowsInWorkspace env (getScreenDimensions env w).2).2).1 = ensured →
          positioningCalls w (applyGridPosition env cfg position w).2 =
            [.moveAndResizeWindow pixelPos.x pixelPos.y pixelPos.width pixelPos.height] ∧
          (applyGridPosition env cfg position w).1 = some
            (moveAndResizeWindow env pixelPos.x pixelPos.y pixelPos.width pixelPos.height
              (ensureFloating env cfg
                (hasMultipleWindowsInWorkspace env (getScreenDimensions env w).2).2).2).1) := by
  obtain ⟨pixelPos, hpixel⟩ :=
    gridToPixelPosition_isSome cfg position (getScreenDimensions env w).1 hrows hcols
  have hcalls := (applyGridPosition_emits env cfg position w pixelPos hwidth hheight
    hpixel).calls_eq
  have hres := applyGridPosition_result env cfg position w pixelPos hwidth hheight hpixel
  refine ⟨pixelPos, hpixel, ?_, ?_⟩
  · rintro ⟨h1, h2⟩ ensured _
    rw [hcalls, hres]
    simp [h1, h2]
  · intro hcond ensured _
    have hb : (cfg.useTiling &&
        (hasMultipleWindowsInWorkspace env (getScreenDimensions env w).2).1) = false := by
      simpa using hcond
    rw [hcalls, hres]
    simp [hb]

/-- Witness of C13: the focused window never becomes floating, so
`ensureFloating` returns false after its retries, and the window is moved and
resized all the same; `applyGridPosition` returns true. -/
theorem applyGridPosition_proceeds_after_failed_transition_witness :
    (ensureFloating neverFloatingEnv loadDefaultConfig
      (hasMultipleWindowsInWorkspace neverFloatingEnv
        (getScreenDimensions neverFloatingEnv initialWorld).2).2).1 = false ∧
    (applyGridPosition neverFloatingEnv loadDefaultConfig
      { x := 0, y := 0, width := 1, height := 1 } initialWorld).1 = some true ∧
    ∃ pixelPos, gridToPixelPosition loadDefaultConfig { x := 0, y := 0, width := 1, height := 1 }
        (getScreenDimensions neverFloatingEnv initialWorld).1 = some pixelPos ∧
      positioningCalls initialWorld (applyGridPosition neverFloatingEnv loadDefaultConfig
          { x := 0, y := 0, width := 1, height := 1 } initialWorld).2 =
        [.moveAndResizeWindow pixelPos.x pixelPos.y pixelPos.width pixelPos.height] ∧
      (applyGridPosition neverFloatingEnv loadDefaultConfig
          { x := 0, y := 0, width := 1, height := 1 } initialWorld).1 = some
        (moveAndResizeWindow neverFloatingEnv pixelPos.x pixelPos.y pixelPos.width
          pixelPos.height
          (ensureFloating neverFloatingEnv loadDefaultConfig
            (hasMultipleWindowsInWorkspace neverFloatingEnv
              (getScreenDimensions neverFloatingEnv initialWorld).2).2).2).1 := by
  refine ⟨by decide, by decide, ?_⟩
  obtain ⟨pixelPos, hpixel, _, hfloat⟩ :=
    applyGridPosition_proceeds_after_failed_transition neverFloatingEnv loadDefaultConfig
      { x := 0, y := 0, width := 1, height := 1 } initialWorld
      (by decide) (by decide) (by decide) (by decide)
  exact ⟨pixelPos, hpixel, hfloat (by decide) false (by decide)⟩

theorem getScreenDimensions_trace (env : Env) (w : World) :
    (getScreenDimensions env w).2.trace = w.trace ++ [.hyprctl .monitors] := by
  unfold getScreenDimensions getFocusedMonitorData
  dsimp only
  repeat' split
  all_goals rfl

theorem getScreenDimensions_of_no_monitor (env : Env) (w : World)
    (h : env.monitors w.trace = none ∨ env.monitors w.trace = some []) :
    (getScreenDimensions env w).1.width = 0 ∧ (getScreenDimensions env w).1.height = 0 := by
  unfold getScreenDimensions getFocusedMonitorData
  rcases h with h | h <;> simp [h]

/-- C14: screen unavailable.  When the focused-screen query yields width <= 0
or height <= 0, which includes a monitor reply that is not a JSON array and an
empty one, `applyGridPosition` returns false and the one thing it has done is
the `monitors` query: no mode query, no dispatch of a move, resize or toggle
command, no notification, no sleep and no retry. -/
theorem applyGridPosition_screen_unavailable (env : Env) (cfg : Config)
    (position : GridPosition) (w : World) :
    (((getScreenDimensions env w).1.width ≤ 0 ∨ (getScreenDimensions env w).1.height ≤ 0) →
      (applyGridPosition env cfg position w).1 = some false ∧
        w.since (applyGridPosition env cfg position w).2 = [.hyprctl .monitors]) ∧
    ((env.monitors w.trace = none ∨ env.monitors w.trace = some []) →
      (applyGridPosition env cfg position w).1 = some false ∧
        w.since (applyGridPosition env cfg position w).2 = [.hyprctl .monitors]) := by
  have key : ((getScreenDimensions env w).1.width ≤ 0 ∨
      (getScreenDimensions env w).1.height ≤ 0) →
      (applyGridPosition env cfg position w).1 = some false ∧
        w.since (applyGridPosition env cfg position w).2 = [.hyprctl .monitors] := by
    intro h
    have heq : applyGridPosition env cfg position w =
        (some false, (getScreenDimensions env w).2) := by
      unfold applyGridPosition
      simp only [h, if_true]
    rw [heq]
    exact ⟨rfl, by simp [World.since, getScreenDimensions_trace]⟩
  refine ⟨key, ?_⟩
  intro h
  have h0 := getScreenDimensions_of_no_monitor env w h
  exact key (Or.inl (le_of_eq h0.1))

/-- Witness of C14: a `monitors` reply that is not a JSON array. -/
theorem applyGridPosition_screen_unavailable_witness :
    ((applyGridPosition malformedMonitorsEnv loadDefaultConfig
        { x := 0, y := 0, width := 1, height := 1 } initialWorld).1 = some false ∧
      initialWorld.since (applyGridPosition malformedMonitorsEnv loadDefaultConfig
        { x := 0, y := 0, width := 1, height := 1 } initialWorld).2 = [.hyprctl .monitors]) ∧
    ((applyGridPosition malformedMonitorsEnv loadDefaultConfig
        { x := 0, y := 0, width := 1, height := 1 } initialWorld).1 = some false ∧
      initialWorld.since (applyGridPosition malformedMonitorsEnv loadDefaultConfig
        { x := 0, y := 0, width := 1, height := 1 } initialWorld).2 = [.hyprctl .monitors]) :=
  ⟨(applyGridPosition_screen_unavailable malformedMonitorsEnv loadDefaultConfig
      { x := 0, y := 0, width := 1, height := 1 } initialWorld).1 (by decide),
   (applyGridPosition_screen_unavailable malformedMonitorsEnv loadDefaultConfig
      { x := 0, y := 0, width := 1, height := 1 } initialWorld).2 (Or.inl rfl)⟩

/-! ## No focused window -/

theorem NoDispatch.noDispatch_refl (w : World) : NoDispatch w w :=
  ⟨[], (List.append_nil _).symm, by simp⟩

theorem NoDispatch.noDispatch_trans {w w1 w2 : World} (h1 : NoDispatch w w1) (h2 : NoDispatch w1 w2) :
    NoDispatch w w2 := by
  obtain ⟨es1, ht1, hn1⟩ := h1
  obtain ⟨es2, ht2, hn2⟩ := h2
  refine ⟨es1 ++ es2, by rw [ht2, ht1, List.append_assoc], ?_⟩
  intro command hmem
  rcases List.mem_append.1 hmem with h | h
  · exact hn1 command h
  · exact hn2 command h

theorem NoDispatch.noDispatch_record (w : World) (e : Event)
    (h : ∀ command, e ≠ .hyprctl (.dispatch command)) : NoDispatch w (w.record e) :=
  ⟨[e], rfl, by
    intro command hmem
    rw [List.mem_singleton] at hmem
    exact h command hmem.symm⟩

theorem NoDispatch.since {w w1 : World} (h : NoDispatch w w1) :
    ∀ command, Event.hyprctl (.dispatch command) ∉ w.since w1 := by
  obtain ⟨es, h1, hn⟩ := h
  have hs : w.since w1 = es := by simp [World.since, h1]
  rw [hs]
  exact hn

theorem getFocusedWindowData_noDispatch (env : Env) (w : World) :
    NoDispatch w (getFocusedWindowData env w).2 :=
  NoDispatch.noDispatch_record w _ (by simp)

theorem isWindowFloating_noDispatch (env : Env) (w : World) :
    NoDispatch w (isWindowFloating env w).2 := by
  have h0 : NoDispatch w (w.record .isWindowFloating) := NoDispatch.noDispatch_record w _ (by simp)
  have h1 := h0.noDispatch_trans (getFocusedWindowData_noDispatch env _)
  unfold isWindowFloating
  dsimp only
  split
  · exact h0
  · split <;> exact h1

theorem NoDispatch.later {w w1 : World} (h : NoDispatch w w1) {trace : List Event}
    (ht : w1.trace <+: trace) : w.trace <+: trace := by
  obtain ⟨es, h1, _⟩ := h
  exact (h1 ▸ List.prefix_append w.trace es).trans ht

theorem isWindowFloating_of_no_window (env : Env) (w : World)
    (hnone : ∀ trace, w.trace <+: trace → env.activewindow trace = none) :
    (isWindowFloating env w).1 = false := by
  have hq : env.activewindow (w.trace ++ [.isWindowFloating]) = none :=
    hnone _ (List.prefix_append _ _)
  unfold isWindowFloating getFocusedWindowData
  dsimp only
  split
  · rfl
  · simp [World.record, hq]

theorem toggleFloating_of_no_window (env : Env) (w : World)
    (hnone : ∀ trace, w.trace <+: trace → env.activewindow trace = none) :
    (toggleFloating env w).1 = false ∧ NoDispatch w (toggleFloating env w).2 := by
  have h0 : NoDispatch w (w.record .toggleFloating) := NoDispatch.noDispatch_record w _ (by simp)
  have h1 := h0.noDispatch_trans (getFocusedWindowData_noDispatch env _)
  have hnow : env.activewindow (w.trace ++ [.toggleFloating]) = none :=
    hnone _ (List.prefix_append _ _)
  unfold toggleFloating
  dsimp only
  split
  · exact ⟨rfl, h0⟩
  · have hq : (getFocusedWindowData env (w.record .toggleFloating)).1 = none := by
      simp [getFocusedWindowData, World.record, hnow]
    simp only [hq]
    exact ⟨trivial, h1⟩

theorem ensureFloating_of_no_window (env : Env) (cfg : Config) (w : World)
    (hnone : ∀ trace, w.trace <+: trace → env.activewindow trace = none) :
    NoDispatch w (ensureFloating env cfg w).2 := by
  have h0 := isWindowFloating_noDispatch env w
  have hq := isWindowFloating_of_no_window env w hnone
  have ht := toggleFloating_of_no_window env (isWindowFloating env w).2
    (fun trace h => hnone trace (h0.later h))
  unfold ensureFloating
  simp only [hq, ht.1, Bool.not_false, if_true]
  exact h0.noDispatch_trans ht.2

theorem ensureTiled_of_no_window (env : Env) (w : World)
    (hnone : ∀ trace, w.trace <+: trace → env.activewindow trace = none) :
    NoDispatch w (ensureTiled env w).2 := by
  have h0 := isWindowFloating_noDispatch env w
  have hq := isWindowFloating_of_no_window env w hnone
  have ht := toggleFloating_of_no_window env (isWindowFloating env w).2
    (fun trace h => hnone trace (h0.later h))
  unfold ensureTiled
  simp only [hq, ht.1, Bool.not_false, if_true]
  exact h0.noDispatch_trans ht.2

theorem moveAndResizeWindow_of_no_window (env : Env) (x y width height : ℤ) (w : World)
    (hnone : ∀ trace, w.trace <+: trace → env.activewindow trace = none) :
    (moveAndResizeWindow env x y width height w).1 = false ∧
      NoDispatch w (moveAndResizeWindow env x y width height w).2 := by
  have h0 : NoDispatch w (w.record (.moveAndResizeWindow x y width height)) :=
    NoDispatch.noDispatch_record w _ (by simp)
  have h1 := h0.noDispatch_trans (getFocusedWindowData_noDispatch env _)
  have hnow : env.activewindow (w.trace ++ [.moveAndResizeWindow x y width height]) = none :=
    hnone _ (List.prefix_append _ _)
  unfold moveAndResizeWindow
  dsimp only
  split
  · exact ⟨rfl, h0⟩
  · have hq : (getFocusedWindowData env
        (w.record (.moveAndResizeWindow x y width height))).1 = none := by
      simp [getFocusedWindowData, World.record, hnow]
    simp only [hq]
    exact ⟨trivial, h1⟩

theorem positionTiledWindow_of_no_window (env : Env) (x y width height : ℤ) (w : World)
    (hnone : ∀ trace, w.trace <+: trace → env.activewindow trace = none) :
    (positionTiledWindow env x y width height w).1 = false ∧
      NoDispatch w (positionTiledWindow env x y width height w).2 := by
  have h0 : NoDispatch w (w.record (.positionTiledWindow x y width height)) :=
    NoDispatch.noDispatch_record w _ (by simp)
  have h1 := h0.noDispatch_trans (getFocusedWindowData_noDispatch env _)
  have hnow : env.activewindow (w.trace ++ [.positionTiledWindow x y width height]) = none :=
    hnone _ (List.prefix_append _ _)
  unfold positionTiledWindow
  dsimp only
  split
  · exact ⟨rfl, h0⟩
  · have hq : (getFocusedWindowData env
        (w.record (.positionTiledWindow x y width height))).1 = none := by
      simp [getFocusedWindowData, World.record, hnow]
    simp only [hq]
    exact ⟨trivial, h1⟩

theorem getScreenDimensions_noDispatch (env : Env) (w : World) :
    NoDispatch w (getScreenDimensions env w).2 :=
  ⟨[.hyprctl .monitors], getScreenDimensions_trace env w, by simp⟩

theorem hasMultipleWindowsInWorkspace_noDispatch (env : Env) (w : World) :
    NoDispatch w (hasMultipleWindowsInWorkspace env w).2 := by
  have h0 : NoDispatch w (getCurrentWorkspaceId env w).2 := by
    unfold getCurrentWorkspaceId
    dsimp only
    split <;> exact NoDispatch.noDispatch_record w _ (by simp)
  have h1 : NoDispatch w ((getCurrentWorkspaceId env w).2.record (.hyprctl .clients)) :=
    h0.noDispatch_trans (NoDispatch.noDispatch_record _ _ (by simp))
  unfold hasMultipleWindowsInWorkspace
  dsimp only
  split
  · exact h0
  · split
    · exact h1
    · split <;> exact h1

/-- C15: no focused window.  If every focused-window query made from the start
of the operation on returns no window, `applyGridPosition` sends no dispatch
command (`togglefloating`, `movewindowpixel`, `resizewindowpixel`) to the
compositor, and it returns false (on a grid with rows and columns), whatever
the `useTiling` flag and the number of windows are, that is in the floating and
in the tiled strategy. -/
theorem applyGridPosition_no_focused_window (env : Env) (cfg : Config)
    (position : GridPosition) (w : World)
    (hnone : ∀ trace, w.trace <+: trace → env.activewindow trace = none) :
    (∀ command, Event.hyprctl (.dispatch command) ∉
        w.since (applyGridPosition env cfg position w).2) ∧
      (cfg.rows ≠ 0 → cfg.columns ≠ 0 →
        (applyGridPosition env cfg position w).1 = some false) := by
  have h0 := getScreenDimensions_noDispatch env w
  have h1 := h0.noDispatch_trans (hasMultipleWindowsInWorkspace_noDispatch env _)
  have h2 := h1.noDispatch_trans (ensureFloating_of_no_window env cfg _
    (fun trace h => hnone trace (h1.later h)))
  have h3 := h1.noDispatch_trans (ensureTiled_of_no_window env _
    (fun trace h => hnone trace (h1.later h)))
  have hall : NoDispatch w (applyGridPosition env cfg position w).2 ∧
      (cfg.rows ≠ 0 → cfg.columns ≠ 0 →
        (applyGridPosition env cfg position w).1 = some false) := by
    unfold applyGridPosition
    dsimp only
    split
    · exact ⟨h0, fun _ _ => rfl⟩
    · split
      · rename_i hpixel
        refine ⟨h0, fun hrows hcols => ?_⟩
        obtain ⟨r, hr⟩ := gridToPixelPosition_isSome cfg position
          (getScreenDimensions env w).1 hrows hcols
        rw [hr] at hpixel
        exact absurd hpixel (by simp)
      · rename_i pixelPos _
        cases hcond : (cfg.useTiling &&
            (hasMultipleWindowsInWorkspace env (getScreenDimensions env w).2).1)
        · have hm := moveAndResizeWindow_of_no_window env pixelPos.x pixelPos.y
            pixelPos.width pixelPos.height
            (ensureFloating env cfg
              (hasMultipleWindowsInWorkspace env (getScreenDimensions env w).2).2).2
            (fun trace h => hnone trace (h2.later h))
          simp only [Bool.false_eq_true, if_false, hm.1, Bool.not_false, if_true]
          exact ⟨h2.noDispatch_trans hm.2, fun _ _ => trivial⟩
        · have hm := positionTiledWindow_of_no_window env pixelPos.x pixelPos.y
            pixelPos.width pixelPos.height
            (ensureTiled env
              (hasMultipleWindowsInWorkspace env (getScreenDimensions env w).2).2).2
            (fun trace h => hnone trace (h3.later h))
          simp only [if_true, hm.1, Bool.not_false]
          exact ⟨h3.noDispatch_trans hm.2, fun _ _ => trivial⟩
  exact ⟨hall.1.since, hall.2⟩

/-- Witness of C15: no focused window, in the floating strategy (default
configuration) and in the tiled strategy (`useTiling` set, two windows on the
workspace). -/
theorem applyGridPosition_no_focused_window_witness :
    ((∀ command, Event.hyprctl (.dispatch command) ∉
        initialWorld.since (applyGridPosition noWindowEnv loadDefaultConfig
          { x := 0, y := 0, width := 1, height := 1 } initialWorld).2) ∧
      (applyGridPosition noWindowEnv loadDefaultConfig
          { x := 0, y := 0, width := 1, height := 1 } initialWorld).1 = some false) ∧
    ((∀ command, Event.hyprctl (.dispatch command) ∉
        initialWorld.since (applyGridPosition noWindowEnv tilingConfig
          { x := 0, y := 0, width := 1, height := 1 } initialWorld).2) ∧
      (applyGridPosition noWindowEnv tilingConfig
          { x := 0, y := 0, width := 1, height := 1 } initialWorld).1 = some false) :=
  ⟨⟨(applyGridPosition_no_focused_window noWindowEnv loadDefaultConfig
        { x := 0, y := 0, width := 1, height := 1 } initialWorld (fun _ _ => rfl)).1,
     (applyGridPosition_no_focused_window noWindowEnv loadDefaultConfig
        { x := 0, y := 0, width := 1, height := 1 } initialWorld (fun _ _ => rfl)).2
        (by decide) (by decide)⟩,
   ⟨(applyGridPosition_no_focused_window noWindowEnv tilingConfig
        { x := 0, y := 0, width := 1, height := 1 } initialWorld (fun _ _ => rfl)).1,
     (applyGridPosition_no_focused_window noWindowEnv tilingConfig
        { x := 0, y := 0, width := 1, height := 1 } initialWorld (fun _ _ => rfl)).2
        (by decide) (by decide)⟩⟩

/-! ## Reading a response -/

theorem toLower_of_isSpace (c : Char) (h : isSpace c = true) : c.toLower = c := by
  have hn : ¬ (c.toNat ≥ 65 ∧ c.toNat ≤ 90) := by
    simp only [isSpace, Bool.or_eq_true, Bool.and_eq_true, decide_eq_true_eq] at h
    omega
  unfold Char.toLower
  simp only [hn, if_false]

theorem trimmed_decomp (s : String) :
    ∃ ws1 ws2 : List Char, (∀ c ∈ ws1, isSpace c = true) ∧ (∀ c ∈ ws2, isSpace c = true) ∧
      s.data = ws1 ++ (trimmed s).data ++ ws2 := by
  refine ⟨s.data.takeWhile isSpace,
    (((s.data.dropWhile isSpace).reverse).takeWhile isSpace).reverse, ?_, ?_, ?_⟩
  · intro c hc
    exact List.mem_takeWhile_imp hc
  · intro c hc
    exact List.mem_takeWhile_imp (List.mem_reverse.1 hc)
  · have h1 : (s.data.dropWhile isSpace) =
        (((s.data.dropWhile isSpace).reverse).dropWhile isSpace).reverse ++
          (((s.data.dropWhile isSpace).reverse).takeWhile isSpace).reverse := by
      rw [← List.reverse_append, List.takeWhile_append_dropWhile, List.reverse_reverse]
    have h2 : s.data = s.data.takeWhile isSpace ++ s.data.dropWhile isSpace :=
      (List.takeWhile_append_dropWhile isSpace s.data).symm
    simp only [trimmed, List.append_assoc]
    rw [← h1]
    exact h2

theorem containsCI_eq_false_of_letter (s pattern : String) (letter : Char)
    (hl : letter ∈ pattern.data.map Char.toLower) (hsp : isSpace letter = false)
    (hcore : ∀ c ∈ (trimmed s).data, c.toLower ≠ letter) : containsCI s pattern = false := by
  unfold containsCI
  rw [decide_eq_false_iff_not]
  intro hinfix
  have hmem : letter ∈ s.data.map Char.toLower := hinfix.subset hl
  obtain ⟨c, hc, hcl⟩ := List.mem_map.1 hmem
  obtain ⟨ws1, ws2, h1, h2, hs⟩ := trimmed_decomp s
  rw [hs] at hc
  have hspace : isSpace c = true → False := by
    intro hcs
    rw [toLower_of_isSpace c hcs] at hcl
    rw [hcl] at hcs
    rw [hsp] at hcs
    exact absurd hcs (by decide)
  rcases List.mem_append.1 hc with hc | hc
  · rcases List.mem_append.1 hc with hc | hc
    · exact hspace (h1 c hc)
    · exact hcore c hc hcl
  · exact hspace (h2 c hc)

theorem containsNoErrorMarker_of_trimmed_empty (result : String)
    (h : (trimmed result == "") = true) : containsNoErrorMarker result = true := by
  have hd : (trimmed result).data = [] := by
    rw [eq_of_beq h]
  have h1 : containsCI result "error" = false :=
    containsCI_eq_false_of_letter result "error" 'e' (by decide) (by decide)
      (by rw [hd]; simp)
  have h2 : containsCI result "failed" = false :=
    containsCI_eq_false_of_letter result "failed" 'f' (by decide) (by decide)
      (by rw [hd]; simp)
  simp [containsNoErrorMarker, h1, h2]

theorem containsNoErrorMarker_of_trimmed_ok (result : String)
    (h : (trimmed result == "ok") = true) : containsNoErrorMarker result = true := by
  have hd : (trimmed result).data = ['o', 'k'] := by
    rw [eq_of_beq h]
  have h1 : containsCI result "error" = false :=
    containsCI_eq_false_of_letter result "error" 'e' (by decide) (by decide)
      (by rw [hd]; decide)
  have h2 : containsCI result "failed" = false :=
    containsCI_eq_false_of_letter result "failed" 'f' (by decide) (by decide)
      (by rw [hd]; decide)
  simp [containsNoErrorMarker, h1, h2]

theorem moveResizeSuccess_eq (result : String) :
    moveResizeSuccess result = containsNoErrorMarker result := by
  have h1 := containsNoErrorMarker_of_trimmed_empty result
  have h2 := containsNoErrorMarker_of_trimmed_ok result
  unfold moveResizeSuccess
  unfold containsNoErrorMarker at h1 h2 ⊢
  cases ha : (trimmed result == "") <;> cases hb : (trimmed result == "ok") <;>
    simp_all

theorem tiledSuccess_eq (result : String) :
    tiledSuccess result = containsNoErrorMarker result := by
  have h1 := containsNoErrorMarker_of_trimmed_empty result
  unfold tiledSuccess
  unfold containsNoErrorMarker at h1 ⊢
  cases ha : (trimmed result == "") <;> simp_all

theorem trimmed_eq_empty_of_spaces (result : String)
    (h : ∀ c ∈ result.data, isSpace c = true) : (trimmed result == "") = true := by
  have h1 : result.data.dropWhile isSpace = [] := List.dropWhile_eq_nil_iff.2 h
  have h2 : trimmed result = "" := by
    unfold trimmed
    rw [h1]
    rfl
  rw [h2]
  rfl

/-- C16: dispatch success inference.  The success tests of
`moveAndResizeWindow` and `positionTiledWindow` and the one of `toggleFloating`
accept a response if and only if it contains neither `error` nor `failed`
(case-insensitively).  With a focused window, `toggleFloating` returns this
verdict on the response to its command, and `moveAndResizeWindow` and
`positionTiledWindow` (here for a window reported floating) return the
conjunction of the verdicts on the move and the resize responses.  In
particular a response made of white space only (the empty one included) and
the token `ok` are successes, and a response that contains one of the two
markers is a failure. -/
theorem dispatch_success_inference (env : Env) (w : World) (x y width height : ℤ)
    (windowData windowData2 : WindowData) (result : String) :
    moveResizeSuccess result = containsNoErrorMarker result ∧
    tiledSuccess result = containsNoErrorMarker result ∧
    (w.m_initialized = true →
      env.activewindow (w.trace ++ [.toggleFloating]) = some windowData →
      (toggleFloating env w).1 = containsNoErrorMarker
        (env.dispatch (w.trace ++ [.toggleFloating, .hyprctl .activewindow])
          .togglefloating)) ∧
    (w.m_initialized = true →
      env.activewindow (w.trace ++ [.moveAndResizeWindow x y width height]) =
        some windowData →
      (moveAndResizeWindow env x y width height w).1 =
        (containsNoErrorMarker
            (env.dispatch
              (w.trace ++ [.moveAndResizeWindow x y width height, .hyprctl .activewindow])
              (.movewindowpixel x y windowData.address)) &&
          containsNoErrorMarker
            (env.dispatch
              (w.trace ++ [.moveAndResizeWindow x y width height, .hyprctl .activewindow,
                .hyprctl (.dispatch (.movewindowpixel x y windowData.address))])
              (.resizewindowpixel width height windowData.address)))) ∧
    (w.m_initialized = true →
      env.activewindow (w.trace ++ [.positionTiledWindow x y width height]) =
        some windowData →
      env.activewindow (w.trace ++ [.positionTiledWindow x y width height,
        .hyprctl .activewindow, .isWindowFloating]) = some windowData2 →
      windowData2.floating = true →
      (positionTiledWindow env x y width height w).1 =
        (containsNoErrorMarker
            (env.dispatch
              (w.trace ++ [.positionTiledWindow x y width height, .hyprctl .activewindow,
                .isWindowFloating, .hyprctl .activewindow])
              (.movewindowpixel x y windowData.address)) &&
          containsNoErrorMarker
            (env.dispatch
              (w.trace ++ [.positionTiledWindow x y width height, .hyprctl .activewindow,
                .isWindowFloating, .hyprctl .activewindow,
                .hyprctl (.dispatch (.movewindowpixel x y windowData.address))])
              (.resizewindowpixel width height windowData.address)))) ∧
    ((∀ c ∈ result.data, isSpace c = true) → containsNoErrorMarker result = true) ∧
    (result = "ok" → containsNoErrorMarker result = true) ∧
    ((containsCI result "error" = true ∨ containsCI result "failed" = true) →
      moveResizeSuccess result = false ∧ tiledSuccess result = false ∧
        containsNoErrorMarker result = false) := by
  refine ⟨moveResizeSuccess_eq result, tiledSuccess_eq result, ?_, ?_, ?_, ?_, ?_, ?_⟩
  · intro hinit hq
    simp [toggleFloating, getFocusedWindowData, executeHyprlandCommand, World.record, hinit,
      hq, containsNoErrorMarker]
  · intro hinit hq
    simp [moveAndResizeWindow, getFocusedWindowData, executeHyprlandCommand, World.record,
      hinit, hq, moveResizeSuccess_eq]
  · intro hinit hq hq2 hfloat
    simp [positionTiledWindow, isWindowFloating, getFocusedWindowData, executeHyprlandCommand,
      World.record, hinit, hq, hq2, hfloat, tiledSuccess_eq]
  · intro hspaces
    exact containsNoErrorMarker_of_trimmed_empty result
      (trimmed_eq_empty_of_spaces result hspaces)
  · intro hok
    subst hok
    decide
  · intro hmark
    have hv : containsNoErrorMarker result = false := by
      unfold containsNoErrorMarker
      rcases hmark with h | h <;> simp [h]
    exact ⟨by rw [moveResizeSuccess_eq, hv], by rw [tiledSuccess_eq, hv], hv⟩

/-- Witness of C16: responses to the commands of `twoWindowsEnv`, the response
of three blanks, the token `ok` and the response `Error: invalid window`. -/
theorem dispatch_success_inference_witness :
    (toggleFloating twoWindowsEnv initialWorld).1 = containsNoErrorMarker
        (twoWindowsEnv.dispatch (initialWorld.trace ++ [.toggleFloating, .hyprctl .activewindow])
          .togglefloating) ∧
    containsNoErrorMarker "   " = true ∧
    containsNoErrorMarker "ok" = true ∧
    (moveResizeSuccess "Error: invalid window" = false ∧
      tiledSuccess "Error: invalid window" = false ∧
      containsNoErrorMarker "Error: invalid window" = false) :=
  ⟨(dispatch_success_inference twoWindowsEnv initialWorld 5 5 633 353
      { address := "0x55d0", floating := true, atX := 0, atY := 0, sizeX := 800, sizeY := 600 }
      { address := "0x55d0", floating := true, atX := 0, atY := 0, sizeX := 800, sizeY := 600 }
      "ok").2.2.1 rfl rfl,
   (dispatch_success_inference twoWindowsEnv initialWorld 5 5 633 353
      { address := "0x55d0", floating := true, atX := 0, atY := 0, sizeX := 800, sizeY := 600 }
      { address := "0x55d0", floating := true, atX := 0, atY := 0, sizeX := 800, sizeY := 600 }
      "   ").2.2.2.2.2.1 (by decide),
   (dispatch_success_inference twoWindowsEnv initialWorld 5 5 633 353
      { address := "0x55d0", floating := true, atX := 0, atY := 0, sizeX := 800, sizeY := 600 }
      { address := "0x55d0", floating := true, atX := 0, atY := 0, sizeX := 800, sizeY := 600 }
      "ok").2.2.2.2.2.2.1 rfl,
   (dispatch_success_inference twoWindowsEnv initialWorld 5 5 633 353
      { address := "0x55d0", floating := true, atX := 0, atY := 0, sizeX := 800, sizeY := 600 }
      { address := "0x55d0", floating := true, atX := 0, atY := 0, sizeX := 800, sizeY := 600 }
      "Error: invalid window").2.2.2.2.2.2.2 (Or.inl (by decide))⟩

/-! ## Verification (`HyprlandAPI::positionTiledWindow`) -/

theorem positionTiledWindow_reply (env : Env) (x y width height : ℤ) (w : World) :
    (positionTiledWindow env x y width height w).1 =
      match dispatchReply env Dispatch.isMove w.trace
          (w.since (positionTiledWindow env x y width height w).2),
        dispatchReply env Dispatch.isResize w.trace
          (w.since (positionTiledWindow env x y width height w).2) with
      | some moveResult, some resizeResult =>
        tiledSuccess moveResult && tiledSuccess resizeResult
      | _, _ => false := by
  unfold positionTiledWindow isWindowFloating toggleFloating getFocusedWindowData
    executeHyprlandCommand
  simp only [World.record, World.since]
  cases hinit : w.m_initialized
  · simp [dispatchReply]
  · simp only [Bool.not_true, Bool.false_eq_true, if_false]
    cases hq : env.activewindow (w.trace ++ [.positionTiledWindow x y width height])
    · simp [dispatchReply]
    · rename_i windowData
      simp only
      cases hq2 : env.activewindow (w.trace ++ [.positionTiledWindow x y width height] ++
          [.hyprctl .activewindow] ++ [.isWindowFloating])
      · simp only [Bool.not_false, if_true]
        cases hq3 : env.activewindow (w.trace ++ [.positionTiledWindow x y width height] ++
            [.hyprctl .activewindow] ++ [.isWindowFloating] ++ [.hyprctl .activewindow] ++
            [.toggleFloating])
        · simp [dispatchReply]
        · simp only [Bool.not_true, Bool.false_eq_true, if_false]
          split_ifs <;> simp_all [dispatchReply, Dispatch.isMove, Dispatch.isResize]
      · rename_i windowData2
        simp only
        cases hfl : windowData2.floating
        · simp only [Bool.not_false, if_true]
          cases hq3 : env.activewindow (w.trace ++ [.positionTiledWindow x y width height] ++
              [.hyprctl .activewindow] ++ [.isWindowFloating] ++ [.hyprctl .activewindow] ++
              [.toggleFloating])
          · simp [dispatchReply]
          · simp only [Bool.not_true, Bool.false_eq_true, if_false]
            split_ifs <;> simp_all [dispatchReply, Dispatch.isMove, Dispatch.isResize]
        · simp [dispatchReply, Dispatch.isMove, Dispatch.isResize]

theorem afterResize_append_singleton (trace : List Event) (e : Event)
    (h : ∀ a b address, e ≠ .hyprctl (.dispatch (.resizewindowpixel a b address))) :
    afterResize (trace ++ [e]) = false := by
  unfold afterResize
  simp only [List.getLast?_append, List.getLast?_singleton, Option.or_some]
  split
  · rename_i a b address heq
    exact absurd (Option.some.inj heq) (h a b address)
  · rfl

theorem positionTiledWindow_ignores_final_geometry (env : Env)
    (answer : List Event → Option WindowData) (x y width height : ℤ) (w : World)
    (hagree : ∀ trace, afterResize trace = false → answer trace = env.activewindow trace) :
    (positionTiledWindow { env with activewindow := answer } x y width height w).1 =
      (positionTiledWindow env x y width height w).1 := by
  have h1 : ∀ trace, answer (trace ++ [.positionTiledWindow x y width height]) =
      env.activewindow (trace ++ [.positionTiledWindow x y width height]) := fun trace =>
    hagree _ (afterResize_append_singleton _ _ (by simp))
  have h2 : ∀ trace, answer (trace ++ [.isWindowFloating]) =
      env.activewindow (trace ++ [.isWindowFloating]) := fun trace =>
    hagree _ (afterResize_append_singleton _ _ (by simp))
  have h3 : ∀ trace, answer (trace ++ [.toggleFloating]) =
      env.activewindow (trace ++ [.toggleFloating]) := fun trace =>
    hagree _ (afterResize_append_singleton _ _ (by simp))
  unfold positionTiledWindow isWindowFloating toggleFloating getFocusedWindowData
    executeHyprlandCommand
  simp only [World.record, h1, h2, h3]

/-- C17: verification never flips the outcome.  `positionTiledWindow` computes
a position match as |actualX - x| <= 5 and |actualY - y| <= 5 and a size match
as |actualW - width| <= 10 and |actualH - height| <= 10.  Its return value is
moveSuccess && resizeSuccess, the verdicts on the responses to its move and
resize commands (and false when it did not send them), and it is the same for
every answer to the focused-window query made after the resize command, that
is for every post-move window geometry, matched or not. -/
theorem positionTiledWindow_verification_never_flips (env : Env)
    (answer : List Event → Option WindowData) (x y width height : ℤ) (w : World)
    (actualX actualY actualW actualH : ℤ) :
    (positionMatch actualX actualY x y = true ↔ |actualX - x| ≤ 5 ∧ |actualY - y| ≤ 5) ∧
    (sizeMatch actualW actualH width height = true ↔
      |actualW - width| ≤ 10 ∧ |actualH - height| ≤ 10) ∧
    (positionTiledWindow env x y width height w).1 =
      (match dispatchReply env Dispatch.isMove w.trace
          (w.since (positionTiledWindow env x y width height w).2),
        dispatchReply env Dispatch.isResize w.trace
          (w.since (positionTiledWindow env x y width height w).2) with
      | some moveResult, some resizeResult =>
        tiledSuccess moveResult && tiledSuccess resizeResult
      | _, _ => false) ∧
    ((∀ trace, afterResize trace = false → answer trace = env.activewindow trace) →
      (positionTiledWindow { env with activewindow := answer } x y width height w).1 =
        (positionTiledWindow env x y width height w).1) := by
  refine ⟨by simp [positionMatch], by simp [sizeMatch],
    positionTiledWindow_reply env x y width height w,
    positionTiledWindow_ignores_final_geometry env answer x y width height w⟩

/-- Witness of C17: the window is reported at (900, 700) with the size 100x100
after the resize command, far from the target (5, 5) and 633x353; neither the
position nor the size matches, and the result is the one of the run whose
window stays at (0, 0), which is true. -/
theorem positionTiledWindow_verification_never_flips_witness :
    positionMatch 900 700 5 5 = false ∧ sizeMatch 100 100 633 353 = false ∧
    (positionTiledWindow twoWindowsEnv 5 5 633 353 initialWorld).1 = true ∧
    (positionTiledWindow { twoWindowsEnv with activewindow := displacedAfterResize }
        5 5 633 353 initialWorld).1 =
      (positionTiledWindow twoWindowsEnv 5 5 633 353 initialWorld).1 :=
  ⟨by decide, by decide, by decide,
   (positionTiledWindow_verification_never_flips twoWindowsEnv displacedAfterResize
      5 5 633 353 initialWorld 900 700 100 100).2.2.2
      (fun trace h => by simp [displacedAfterResize, h])⟩

/-! ## Workspace occupancy (`GridManager::hasMultipleWindowsInWorkspace`) -/

theorem foldl_windowCount (currentWorkspace : ℤ) (windows : List (Option ℤ)) :
    ∀ start : ℤ,
      windows.foldl (fun windowCount val =>
        match val with
        | none => windowCount
        | some windowWorkspace =>
          if windowWorkspace = currentWorkspace ∧ windowWorkspace > 0 then windowCount + 1
          else windowCount) start = start + (countInWorkspace currentWorkspace windows : ℤ) := by
  induction windows with
  | nil => intro start; simp [countInWorkspace]
  | cons val windows ih =>
    intro start
    rw [List.foldl_cons, ih]
    cases val with
    | none => simp [countInWorkspace]
    | some windowWorkspace =>
      by_cases h : windowWorkspace = currentWorkspace ∧ windowWorkspace > 0
      · have hd : decide (windowWorkspace = currentWorkspace ∧ windowWorkspace > 0) = true :=
          decide_eq_true h
        simp only [countInWorkspace, List.countP_cons, hd, if_pos h, if_true]
        push_cast
        ring
      · have hd : decide (windowWorkspace = currentWorkspace ∧ windowWorkspace > 0) = false :=
          decide_eq_false h
        simp only [countInWorkspace, List.countP_cons, hd, if_neg h]
        simp

theorem countInWorkspace_of_nonpos (currentWorkspace : ℤ) (h : currentWorkspace ≤ 0)
    (windows : List (Option ℤ)) : countInWorkspace currentWorkspace windows = 0 := by
  unfold countInWorkspace
  rw [List.countP_eq_zero]
  intro val _
  cases val with
  | none => simp
  | some windowWorkspace =>
    simp only [decide_eq_true_eq, not_and, not_lt]
    intro heq
    omega

/-- C18: workspace occupancy.  `hasMultipleWindowsInWorkspace` returns true if
and only if the client list is obtained (the `clients` query exits with code 0
and prints a JSON array) and more than one client in it has a workspace id
equal to the current workspace id and greater than 0.  A window in a special
workspace (id below 0, and likewise id 0) is never counted, wherever it is in
the list, and a negative current workspace id yields false. -/
theorem hasMultipleWindowsInWorkspace_iff (env : Env) (w : World)
    (before after : List (Option ℤ)) (special : ℤ) :
    ((hasMultipleWindowsInWorkspace env w).1 = true ↔
      (env.clients (getCurrentWorkspaceId env w).2.trace).exitCode = 0 ∧
        ∃ windows, (env.clients (getCurrentWorkspaceId env w).2.trace).windows = some windows ∧
          1 < countInWorkspace (getCurrentWorkspaceId env w).1 windows) ∧
    (special ≤ 0 →
      countInWorkspace (getCurrentWorkspaceId env w).1 (before ++ some special :: after) =
        countInWorkspace (getCurrentWorkspaceId env w).1 (before ++ after)) ∧
    ((getCurrentWorkspaceId env w).1 < 0 → (hasMultipleWindowsInWorkspace env w).1 = false) := by
  refine ⟨?_, ?_, ?_⟩
  · unfold hasMultipleWindowsInWorkspace
    dsimp only
    split
    · rename_i hneg
      simp only [Bool.false_eq_true, false_iff, not_and, not_exists]
      intro _ windows _
      rw [countInWorkspace_of_nonpos _ (by omega)]
      omega
    · split
      · rename_i hexit
        simp [hexit]
      · rename_i hexit
        have hexit0 : (env.clients (getCurrentWorkspaceId env w).2.trace).exitCode = 0 := by
          simpa using hexit
        split
        · rename_i hwin
          simp [hwin]
        · rename_i windows hwin
          simp only [hexit0, hwin, Option.some.injEq, exists_eq_left', true_and,
            decide_eq_true_eq, foldl_windowCount, zero_add]
          constructor
          · intro h; exact_mod_cast h
          · intro h; exact_mod_cast h
  · intro hs
    unfold countInWorkspace
    rw [List.countP_append, List.countP_append, List.countP_cons]
    have : ¬ (special = (getCurrentWorkspaceId env w).1 ∧ special > 0) := by
      intro h; omega
    simp [this]
  · intro hneg
    unfold hasMultipleWindowsInWorkspace
    simp [hneg]

/-- Witness of C18: the current workspace is the special workspace -99, which
holds three windows; and a list in which a window of workspace -99 is put
among the two windows of workspace 1. -/
theorem hasMultipleWindowsInWorkspace_iff_witness :
    countInWorkspace (getCurrentWorkspaceId twoWindowsEnv initialWorld).1
        ([some 1] ++ some (-99) :: [some 1]) =
      countInWorkspace (getCurrentWorkspaceId twoWindowsEnv initialWorld).1
        ([some 1] ++ [some 1]) ∧
    (hasMultipleWindowsInWorkspace specialWorkspaceEnv initialWorld).1 = false :=
  ⟨(hasMultipleWindowsInWorkspace_iff twoWindowsEnv initialWorld [some 1] [some 1]
      (-99)).2.1 (by decide),
   (hasMultipleWindowsInWorkspace_iff specialWorkspaceEnv initialWorld [] [] 0).2.2
      (by decide)⟩

/-! ## Notification (`GridManager::applyGridPosition`) -/

theorem ensureFloatingLoop_notifier (env : Env) (notifier : List Event → Bool) (n : ℕ)
    (isFloating : Bool) (w : World) :
    ensureFloatingLoop { env with sendNotification := notifier } n isFloating w =
      ensureFloatingLoop env n isFloating w := by
  induction n generalizing isFloating w with
  | zero => rfl
  | succ n ih =>
    unfold ensureFloatingLoop
    dsimp only
    split
    · rfl
    · exact ih _ _

theorem ensureFloating_notifier (env : Env) (notifier : List Event → Bool) (cfg : Config)
    (w : World) :
    ensureFloating { env with sendNotification := notifier } cfg w = ensureFloating env cfg w := by
  have hq : ∀ w1, isWindowFloating { env with sendNotification := notifier } w1 =
      isWindowFloating env w1 := fun _ => rfl
  have ht : ∀ w1, toggleFloating { env with sendNotification := notifier } w1 =
      toggleFloating env w1 := fun _ => rfl
  unfold ensureFloating
  simp only [hq, ht, ensureFloatingLoop_notifier]

/-- C19: the notification is best-effort.  The value returned by
`applyGridPosition` is the same whether `showNotifications` is on or off,
whatever the notification duration is, and whether `sendNotification` succeeds
or fails. -/
theorem applyGridPosition_notification_best_effort (env : Env) (cfg : Config)
    (position : GridPosition) (w : World) (notifier : List Event → Bool)
    (showNotifications : Bool) (notificationDuration : ℤ) :
    (applyGridPosition { env with sendNotification := notifier }
        { cfg with showNotifications := showNotifications,
                   notificationDuration := notificationDuration } position w).1 =
      (applyGridPosition env cfg position w).1 := by
  have hscreen : getScreenDimensions { env with sendNotification := notifier } w =
      getScreenDimensions env w := rfl
  have hmulti : ∀ w1, hasMultipleWindowsInWorkspace { env with sendNotification := notifier } w1 =
      hasMultipleWindowsInWorkspace env w1 := fun _ => rfl
  have htiled : ∀ w1, ensureTiled { env with sendNotification := notifier } w1 =
      ensureTiled env w1 := fun _ => rfl
  have hpos : ∀ x y a b w1,
      positionTiledWindow { env with sendNotification := notifier } x y a b w1 =
        positionTiledWindow env x y a b w1 := fun _ _ _ _ _ => rfl
  have hmove : ∀ x y a b w1,
      moveAndResizeWindow { env with sendNotification := notifier } x y a b w1 =
        moveAndResizeWindow env x y a b w1 := fun _ _ _ _ _ => rfl
  have hfloat : ∀ w1, ensureFloating { env with sendNotification := notifier }
      { cfg with showNotifications := showNotifications,
                 notificationDuration := notificationDuration } w1 =
      ensureFloating env cfg w1 := fun w1 => ensureFloating_notifier env notifier cfg w1
  have hpixel : ∀ screen, gridToPixelPosition
      { cfg with showNotifications := showNotifications,
                 notificationDuration := notificationDuration } position screen =
      gridToPixelPosition cfg position screen := fun _ => rfl
  unfold applyGridPosition
  simp only [hscreen, hmulti, htiled, hpos, hmove, hfloat, hpixel, Bool.not_true,
    Bool.false_and, Bool.false_eq_true, if_false]
  split
  · rfl
  · split
    · rfl
    · split <;> split <;> rfl

/-! ## Clamping of a selection (`GridPreview::setSelection`) -/

/-- C24: caller-side clamping.  For every grid with rows >= 1 and columns >= 1
and all integers x, y, width, height, the selection stored by
`GridPreview::setSelection` satisfies 0 <= x' <= columns-1, 0 <= y' <= rows-1,
width' >= 1, height' >= 1, x' + width' <= columns and y' + height' <= rows, and
a selection already inside the grid is stored unchanged. -/
theorem setSelection_clamps (rows columns x y width height : ℤ)
    (hrows : 1 ≤ rows) (hcols : 1 ≤ columns) :
    (0 ≤ (GridPreview.setSelection rows columns x y width height).x ∧
      (GridPreview.setSelection rows columns x y width height).x ≤ columns - 1 ∧
      0 ≤ (GridPreview.setSelection rows columns x y width height).y ∧
      (GridPreview.setSelection rows columns x y width height).y ≤ rows - 1 ∧
      1 ≤ (GridPreview.setSelection rows columns x y width height).width ∧
      1 ≤ (GridPreview.setSelection rows columns x y width height).height ∧
      (GridPreview.setSelection rows columns x y width height).x +
        (GridPreview.setSelection rows columns x y width height).width ≤ columns ∧
      (GridPreview.setSelection rows columns x y width height).y +
        (GridPreview.setSelection rows columns x y width height).height ≤ rows) ∧
    (0 ≤ x → 0 ≤ y → 1 ≤ width → 1 ≤ height → x + width ≤ columns → y + height ≤ rows →
      GridPreview.setSelection rows columns x y width height =
        { x := x, y := y, width := width, height := height }) := by
  constructor
  · simp only [GridPreview.setSelection]
    refine ⟨?_, ?_, ?_, ?_, ?_, ?_, ?_, ?_⟩ <;> omega
  · intro hx hy hw hh hxw hyh
    simp only [GridPreview.setSelection]
    have h1 : max 0 (min x (columns - 1)) = x := by omega
    have h2 : max 0 (min y (rows - 1)) = y := by omega
    rw [h1, h2]
    have h3 : max 1 (min width (columns - x)) = width := by omega
    have h4 : max 1 (min height (rows - y)) = height := by omega
    rw [h3, h4]

/-- Witness of C24: on the default 3x3 grid the selection (5, -2, 7, 0) is
stored as (2, 0, 1, 1), and the selection (1, 1, 2, 2) is stored unchanged. -/
theorem setSelection_clamps_witness :
    GridPreview.setSelection 3 3 5 (-2) 7 0 = { x := 2, y := 0, width := 1, height := 1 } ∧
    (0 ≤ (GridPreview.setSelection 3 3 5 (-2) 7 0).x ∧
      (GridPreview.setSelection 3 3 5 (-2) 7 0).x ≤ 3 - 1 ∧
      0 ≤ (GridPreview.setSelection 3 3 5 (-2) 7 0).y ∧
      (GridPreview.setSelection 3 3 5 (-2) 7 0).y ≤ 3 - 1 ∧
      1 ≤ (GridPreview.setSelection 3 3 5 (-2) 7 0).width ∧
      1 ≤ (GridPreview.setSelection 3 3 5 (-2) 7 0).height ∧
      (GridPreview.setSelection 3 3 5 (-2) 7 0).x +
        (GridPreview.setSelection 3 3 5 (-2) 7 0).width ≤ 3 ∧
      (GridPreview.setSelection 3 3 5 (-2) 7 0).y +
        (GridPreview.setSelection 3 3 5 (-2) 7 0).height ≤ 3) ∧
    GridPreview.setSelection 3 3 1 1 2 2 = { x := 1, y := 1, width := 2, height := 2 } :=
  ⟨by decide,
   (setSelection_clamps 3 3 5 (-2) 7 0 (by decide) (by decide)).1,
   (setSelection_clamps 3 3 1 1 2 2 (by decide) (by decide)).2
     (by decide) (by decide) (by decide) (by decide) (by decide) (by decide)⟩

/-! ## Geometry: tiling and bounds -/

theorem cell_bounds (total gaps count : ℤ) (hcount : 1 ≤ count)
    (htotal : gaps * (count + 1) ≤ total) :
    0 ≤ Int.tdiv (total - gaps * (count + 1)) count ∧
      count * Int.tdiv (total - gaps * (count + 1)) count ≤ total - gaps * (count + 1) := by
  rw [Int.tdiv_eq_ediv (by omega) (by omega)]
  exact ⟨Int.ediv_nonneg (by omega) (by omega), Int.mul_ediv_self_le (by omega)⟩

theorem span_bounds (total gaps count cell start span : ℤ) (hgap : 0 ≤ gaps)
    (hcell : 0 ≤ cell) (hfit : count * cell ≤ total - gaps * (count + 1))
    (hstart : 0 ≤ start) (hend : start + span ≤ count) :
    gaps ≤ gaps + start * (cell + gaps) ∧
      gaps + start * (cell + gaps) + (span * cell + (span - 1) * gaps) + gaps ≤ total := by
  have hsum : 0 ≤ cell + gaps := by omega
  have h1 : 0 ≤ start * (cell + gaps) := mul_nonneg hstart hsum
  have h2 : (start + span) * (cell + gaps) ≤ count * (cell + gaps) :=
    mul_le_mul_of_nonneg_right hend hsum
  constructor
  · omega
  · nlinarith

/-- C28: an in-grid span stays on screen.  In grid mode, if gap >= 0,
columns >= 1, rows >= 1, screen.width >= gap*(columns+1),
screen.height >= gap*(rows+1), x >= 0, y >= 0, width >= 1, height >= 1,
x + width <= columns and y + height <= rows, then the resolved rectangle
satisfies rect.x >= gap, rect.y >= gap, rect.x + rect.width + gap <= screen.width
and rect.y + rect.height + gap <= screen.height.  The bounds width >= 1 and
height >= 1 are not needed: the four inequalities hold for every span that ends
inside the grid. -/
theorem gridToPixelPosition_span_on_screen (cfg : Config) (screen : Screen)
    (position : GridPosition)
    (hmode : ¬ (position.centered = true ∧ 0 < position.scale ∧ position.scale < 1))
    (hgap : 0 ≤ cfg.gaps) (hcols : 1 ≤ cfg.columns) (hrows : 1 ≤ cfg.rows)
    (hW : cfg.gaps * (cfg.columns + 1) ≤ screen.width)
    (hH : cfg.gaps * (cfg.rows + 1) ≤ screen.height)
    (hx : 0 ≤ position.x) (hy : 0 ≤ position.y)
    (hxw : position.x + position.width ≤ cfg.columns)
    (hyh : position.y + position.height ≤ cfg.rows) :
    ∃ rect, gridToPixelPosition cfg position screen = some rect ∧
      cfg.gaps ≤ rect.x ∧ cfg.gaps ≤ rect.y ∧
      rect.x + rect.width + cfg.gaps ≤ screen.width ∧
      rect.y + rect.height + cfg.gaps ≤ screen.height := by
  have hm : centeredScaled position = false := by
    rw [← Bool.not_eq_true, centeredScaled_iff]; exact hmode
  have hcw := cell_bounds screen.width cfg.gaps cfg.columns hcols hW
  have hch := cell_bounds screen.height cfg.gaps cfg.rows hrows hH
  have hsx := span_bounds screen.width cfg.gaps cfg.columns (cellWidth cfg screen)
    position.x position.width hgap hcw.1 hcw.2 hx hxw
  have hsy := span_bounds screen.height cfg.gaps cfg.rows (cellHeight cfg screen)
    position.y position.height hgap hch.1 hch.2 hy hyh
  exact ⟨_, gridToPixelPosition_grid cfg position screen (by omega) (by omega) hm,
    hsx.1, hsy.1, hsx.2, hsy.2⟩

/-- Witness of C28: the bottom-right cell of the default grid on a 1920x1080
screen. -/
theorem gridToPixelPosition_span_on_screen_witness :
    ∃ rect, gridToPixelPosition loadDefaultConfig { x := 2, y := 2, width := 1, height := 1 }
        screen1920x1080 = some rect ∧
      loadDefaultConfig.gaps ≤ rect.x ∧ loadDefaultConfig.gaps ≤ rect.y ∧
      rect.x + rect.width + loadDefaultConfig.gaps ≤ screen1920x1080.width ∧
      rect.y + rect.height + loadDefaultConfig.gaps ≤ screen1920x1080.height :=
  gridToPixelPosition_span_on_screen loadDefaultConfig screen1920x1080
    { x := 2, y := 2, width := 1, height := 1 } (by simp) (by decide) (by decide) (by decide)
    (by decide) (by decide) (by decide) (by decide) (by decide) (by decide)

theorem roundHalfEven_le (x : ℚ) (m : ℤ) (h : x ≤ m) : roundHalfEven x ≤ m := by
  have hf : (⌊x⌋ : ℚ) ≤ x := Int.floor_le x
  have hfm : ⌊x⌋ ≤ m := by
    have : (⌊x⌋ : ℚ) ≤ m := le_trans hf h
    exact_mod_cast this
  unfold roundHalfEven
  simp only
  split_ifs with h1 h2 h3
  · exact hfm
  · have : (⌊x⌋ : ℚ) < m := by linarith
    have : ⌊x⌋ < m := by exact_mod_cast this
    omega
  · exact hfm
  · have : (⌊x⌋ : ℚ) < m := by linarith
    have : ⌊x⌋ < m := by exact_mod_cast this
    omega

/-- The rounded product of a size of at most 53 bits with a factor below 1 does
not exceed the size: the size is itself a multiple of the spacing used. -/
theorem mulIntDouble_le (n : ℤ) (d : Double) (hn : 0 ≤ n) (hbig : n ≤ 2 ^ 53)
    (h0 : 0 < d) (h1 : d < 1) : 0 ≤ mulIntDouble n d ∧ mulIntDouble n d ≤ n := by
  have hnq : (0 : ℚ) ≤ n := by exact_mod_cast hn
  have hq0 : (0 : ℚ) ≤ (n : ℚ) * d := mul_nonneg hnq h0.le
  refine ⟨roundToDouble_nonneg _ hq0, ?_⟩
  unfold mulIntDouble roundToDouble
  split
  · exact hnq
  · rename_i hne
    have hqpos : (0 : ℚ) < (n : ℚ) * d := lt_of_le_of_ne hq0 (Ne.symm hne)
    have hnpos : (0 : ℚ) < n := by
      rcases hnq.lt_or_eq with h | h
      · exact h
      · rw [← h] at hqpos; simp at hqpos
    have hlt : (n : ℚ) * d < n := by nlinarith
    have hbigq : (n : ℚ) ≤ 2 ^ 53 := by exact_mod_cast hbig
    have hlog : Int.log 2 |(n : ℚ) * d| < 53 := by
      rw [abs_of_pos hqpos]
      apply (Int.lt_zpow_iff_log_lt (b := 2) (by decide) hqpos).1
      have : (n : ℚ) * d < 2 ^ 53 := lt_of_lt_of_le hlt hbigq
      exact_mod_cast this
    simp only
    generalize he : max (Int.log 2 |(n : ℚ) * d|) (-1022) = e
    have he52 : e ≤ 52 := by
      rw [← he]; exact max_le (by omega) (by decide)
    obtain ⟨k, hk⟩ : ∃ k : ℕ, e - 52 = -(k : ℤ) := ⟨(52 - e).toNat, by omega⟩
    rw [hk]
    have hpos : (0 : ℚ) < 2 ^ (-(k : ℤ)) := by positivity
    have hmul : (n : ℚ) / 2 ^ (-(k : ℤ)) = ((n * 2 ^ k : ℤ) : ℚ) := by
      rw [zpow_neg, zpow_natCast]
      push_cast
      field_simp
    have hle : (n : ℚ) * d / 2 ^ (-(k : ℤ)) ≤ ((n * 2 ^ k : ℤ) : ℚ) := by
      rw [← hmul]
      exact div_le_div_of_nonneg_right hlt.le hpos.le
    have hr := roundHalfEven_le _ _ hle
    have hrq : ((roundHalfEven ((n : ℚ) * d / 2 ^ (-(k : ℤ))) : ℤ) : ℚ) ≤
        ((n * 2 ^ k : ℤ) : ℚ) := by exact_mod_cast hr
    calc ((roundHalfEven ((n : ℚ) * d / 2 ^ (-(k : ℤ))) : ℤ) : ℚ) * 2 ^ (-(k : ℤ))
        ≤ ((n * 2 ^ k : ℤ) : ℚ) * 2 ^ (-(k : ℤ)) :=
          mul_le_mul_of_nonneg_right hrq hpos.le
      _ = n := by
          rw [← hmul]; field_simp

theorem truncToInt_bounds (d : Double) (n : ℤ) (h0 : 0 ≤ d) (hn : d ≤ n) :
    0 ≤ truncToInt d ∧ truncToInt d ≤ n := by
  unfold truncToInt
  rw [if_pos h0]
  refine ⟨Int.floor_nonneg.2 h0, ?_⟩
  have : (⌊d⌋ : ℚ) ≤ n := le_trans (Int.floor_le d) hn
  exact_mod_cast this

theorem centered_bounds (total size : ℤ) (h1 : size ≤ total) :
    0 ≤ Int.tdiv (total - size) 2 ∧ Int.tdiv (total - size) 2 + size ≤ total := by
  rw [Int.tdiv_eq_ediv (by omega) (by decide)]
  constructor <;> omega

/-- C29: a centered rectangle stays on screen.  In centered-scale mode
(centered = true, 0 < scale < 1), on a screen of positive width and height (a
width or height of 0 is covered too), the resolved rectangle satisfies
0 <= width <= screen.width, 0 <= height <= screen.height, x >= 0, y >= 0,
x + width <= screen.width and y + height <= screen.height.  The screen sizes are
C++ `int` values, so they are below 2^53 and convert to `double` exactly; the
theorem needs no more than that bound. -/
theorem gridToPixelPosition_centered_on_screen (cfg : Config) (position : GridPosition)
    (screen : Screen) (hrows : cfg.rows ≠ 0) (hcols : cfg.columns ≠ 0)
    (hc : position.centered = true) (h0 : 0 < position.scale) (h1 : position.scale < 1)
    (hW : 0 ≤ screen.width) (hH : 0 ≤ screen.height)
    (hWint : screen.width ≤ 2 ^ 53) (hHint : screen.height ≤ 2 ^ 53) :
    ∃ rect, gridToPixelPosition cfg position screen = some rect ∧
      0 ≤ rect.width ∧ rect.width ≤ screen.width ∧
      0 ≤ rect.height ∧ rect.height ≤ screen.height ∧
      0 ≤ rect.x ∧ 0 ≤ rect.y ∧
      rect.x + rect.width ≤ screen.width ∧ rect.y + rect.height ≤ screen.height := by
  have hm : centeredScaled position = true := (centeredScaled_iff position).2 ⟨hc, h0, h1⟩
  have hw := mulIntDouble_le screen.width position.scale hW hWint h0 h1
  have hh := mulIntDouble_le screen.height position.scale hH hHint h0 h1
  have htw := truncToInt_bounds _ _ hw.1 hw.2
  have hth := truncToInt_bounds _ _ hh.1 hh.2
  have hcx := centered_bounds _ _ htw.2
  have hcy := centered_bounds _ _ hth.2
  exact ⟨_, gridToPixelPosition_centered cfg position screen hrows hcols hm,
    htw.1, htw.2, hth.1, hth.2, hcx.1, hcy.1, hcx.2, hcy.2⟩

/-- Witness of C29: a centered position of scale 1/2 on a 1920x1080 screen. -/
theorem gridToPixelPosition_centered_on_screen_witness :
    ∃ rect, gridToPixelPosition loadDefaultConfig
        { x := 0, y := 0, width := 1, height := 1, centered := true, scale := 1 / 2 }
        screen1920x1080 = some rect ∧
      0 ≤ rect.width ∧ rect.width ≤ screen1920x1080.width ∧
      0 ≤ rect.height ∧ rect.height ≤ screen1920x1080.height ∧
      0 ≤ rect.x ∧ 0 ≤ rect.y ∧
      rect.x + rect.width ≤ screen1920x1080.width ∧
      rect.y + rect.height ≤ screen1920x1080.height :=
  gridToPixelPosition_centered_on_screen loadDefaultConfig
    { x := 0, y := 0, width := 1, height := 1, centered := true, scale := 1 / 2 }
    screen1920x1080 (by decide) (by decide) rfl (by norm_num) (by norm_num)
    (by decide) (by decide) (by decide) (by decide)

/-! ## Runs of `hyprctl` inside a call -/

theorem isWindowFloating_trace (env : Env) (w : World) :
    ∃ es, (isWindowFloating env w).2.trace = w.trace ++ .isWindowFloating :: es ∧
      ∀ e ∈ es, e.isHyprctl = true := by
  unfold isWindowFloating
  dsimp only
  split
  · exact ⟨[], rfl, by simp⟩
  · split <;> exact ⟨[.hyprctl .activewindow], by simp [getFocusedWindowData, World.record],
      by simp [Event.isHyprctl]⟩

theorem toggleFloating_trace (env : Env) (w : World) :
    ∃ es, (toggleFloating env w).2.trace = w.trace ++ .toggleFloating :: es ∧
      ∀ e ∈ es, e.isHyprctl = true := by
  unfold toggleFloating
  dsimp only
  split
  · exact ⟨[], rfl, by simp⟩
  · split
    · exact ⟨[.hyprctl .activewindow], by simp [getFocusedWindowData, World.record],
        by simp [Event.isHyprctl]⟩
    · exact ⟨[.hyprctl .activewindow, .hyprctl (.dispatch .togglefloating)],
        by simp [getFocusedWindowData, executeHyprlandCommand, World.record],
        by simp [Event.isHyprctl]⟩

theorem clearWindowRules_trace (env : Env) (w : World) :
    ∃ es, (clearWindowRules env w).2.trace = w.trace ++ .clearWindowRules :: es ∧
      ∀ e ∈ es, e.isHyprctl = true := by
  unfold clearWindowRules
  dsimp only
  split
  · exact ⟨[], rfl, by simp⟩
  · exact ⟨[.hyprctl .reload], by simp [World.record], by simp [Event.isHyprctl]⟩

theorem filter_isStateCall_of_hyprctl (es : List Event) (h : ∀ e ∈ es, e.isHyprctl = true) :
    es.filter Event.isStateCall = [] := by
  rw [List.filter_eq_nil_iff]
  intro e he
  have := h e he
  cases e <;> simp_all [Event.isHyprctl, Event.isStateCall]

/-! ## Reset (`GridManager::resetWindowState`) -/

/-- C22: `resetWindowState` calls `toggleFloating` exactly twice and then
`clearWindowRules` exactly once, in that order, and returns true, in every
environment and world, so whatever those three calls return. -/
theorem resetWindowState_calls (env : Env) (w : World) :
    (resetWindowState env w).1 = true ∧
      (w.since (resetWindowState env w).2).filter Event.isStateCall =
        [.toggleFloating, .toggleFloating, .clearWindowRules] := by
  refine ⟨rfl, ?_⟩
  obtain ⟨es1, h1, hes1⟩ := toggleFloating_trace env w
  obtain ⟨es2, h2, hes2⟩ := toggleFloating_trace env
    ((toggleFloating env w).2.record (.msleep 100))
  obtain ⟨es3, h3, hes3⟩ := clearWindowRules_trace env
    (toggleFloating env ((toggleFloating env w).2.record (.msleep 100))).2
  have ht : (resetWindowState env w).2.trace =
      w.trace ++ (.toggleFloating :: es1 ++ .msleep 100 :: .toggleFloating :: es2 ++
        .clearWindowRules :: es3) := by
    unfold resetWindowState
    dsimp only
    rw [h3, h2]
    simp only [World.record, h1, List.append_assoc, List.cons_append, List.nil_append]
  simp only [World.since, ht, List.drop_left, List.filter_append, List.filter_cons,
    filter_isStateCall_of_hyprctl es1 hes1, filter_isStateCall_of_hyprctl es2 hes2,
    filter_isStateCall_of_hyprctl es3 hes3, Event.isStateCall]
  simp

/-- A run of `resetWindowState` in which the two calls of `toggleFloating` and
the call of `clearWindowRules` all report failure: the result is still true. -/
theorem resetWindowState_all_calls_fail :
    (toggleFloating everyCommandFailsEnv initialWorld).1 = false ∧
    (toggleFloating everyCommandFailsEnv
      ((toggleFloating everyCommandFailsEnv initialWorld).2.record (.msleep 100))).1 = false ∧
    (clearWindowRules everyCommandFailsEnv
      (toggleFloating everyCommandFailsEnv
        ((toggleFloating everyCommandFailsEnv initialWorld).2.record (.msleep 100))).2).1
      = false ∧
    (resetWindowState everyCommandFailsEnv initialWorld).1 = true ∧
    (resetWindowState everyCommandFailsEnv initialWorld).2.trace =
      [.toggleFloating, .hyprctl .activewindow, .hyprctl (.dispatch .togglefloating),
       .msleep 100,
       .toggleFloating, .hyprctl .activewindow, .hyprctl (.dispatch .togglefloating),
       .clearWindowRules, .hyprctl .reload] := by
  decide

theorem not_mem_of_hyprctl (es : List Event) (h : ∀ e ∈ es, e.isHyprctl = true) (e : Event)
    (he : e.isHyprctl = false) : e ∉ es := by
  intro hmem
  rw [h e hmem] at he
  exact Bool.noConfusion he

/-! ## A failed first toggle (`GridManager::ensureFloating`) -/

/-- C25: if the window is not floating and the first `toggleFloating` reports
failure, `ensureFloating` returns false in the world left by that toggle: one
call of `toggleFloating`, one mode query (the initial one, none after the
toggle), no pause and no retry, for every `retryCount`.  Inside the retry loop
the values returned by the two calls of `toggleFloating` are not looked at: a
round always goes on to the pauses and the mode query, and the loop continues
from what that query reports. -/
theorem ensureFloating_first_toggle_fails (env : Env) (cfg : Config) (w : World)
    (hquery : (isWindowFloating env w).1 = false)
    (htoggle : (toggleFloating env (isWindowFloating env w).2).1 = false) :
    ensureFloating env cfg w = (false, (toggleFloating env (isWindowFloating env w).2).2) ∧
      (w.since (ensureFloating env cfg w).2).count .toggleFloating = 1 ∧
      (w.since (ensureFloating env cfg w).2).count .isWindowFloating = 1 ∧
      (∀ ms, Event.msleep ms ∉ w.since (ensureFloating env cfg w).2) ∧
      ∀ (n : ℕ) (w1 : World),
        ensureFloatingLoop env (n + 1) false w1 =
          ensureFloatingLoop env n
            (isWindowFloating env
              ((toggleFloating env
                ((toggleFloating env w1).2.record (.msleep 200))).2.record (.msleep 200))).1
            (isWindowFloating env
              ((toggleFloating env
                ((toggleFloating env w1).2.record (.msleep 200))).2.record (.msleep 200))).2 := by
  have hres : ensureFloating env cfg w =
      (false, (toggleFloating env (isWindowFloating env w).2).2) := by
    unfold ensureFloating
    simp only [hquery, htoggle, Bool.not_false, if_true]
  obtain ⟨es1, h1, hes1⟩ := isWindowFloating_trace env w
  obtain ⟨es2, h2, hes2⟩ := toggleFloating_trace env (isWindowFloating env w).2
  have hsince : w.since (ensureFloating env cfg w).2 =
      .isWindowFloating :: es1 ++ .toggleFloating :: es2 := by
    rw [hres]
    simp only [World.since, h2, h1, List.append_assoc, List.drop_left]
  have hc1 := fun e he => List.count_eq_zero.2 (not_mem_of_hyprctl es1 hes1 e he)
  have hc2 := fun e he => List.count_eq_zero.2 (not_mem_of_hyprctl es2 hes2 e he)
  refine ⟨hres, ?_, ?_, ?_, fun _ _ => rfl⟩
  · rw [hsince]
    simp [List.count_cons, hc1 .toggleFloating rfl, hc2 .toggleFloating rfl]
  · rw [hsince]
    simp [List.count_cons, hc1 .isWindowFloating rfl, hc2 .isWindowFloating rfl]
  · intro ms
    rw [hsince]
    simp [not_mem_of_hyprctl es1 hes1 (.msleep ms) rfl,
      not_mem_of_hyprctl es2 hes2 (.msleep ms) rfl]

/-- Witness of C25: a tiled window and a `togglefloating` command answered by
an error text, with the default `retryCount` of 3. -/
theorem ensureFloating_first_toggle_fails_witness :
    loadDefaultConfig.retryCount = 3 ∧
    (ensureFloating everyCommandFailsEnv loadDefaultConfig initialWorld).1 = false ∧
    (initialWorld.since
      (ensureFloating everyCommandFailsEnv loadDefaultConfig initialWorld).2).count
        .toggleFloating = 1 ∧
    (initialWorld.since
      (ensureFloating everyCommandFailsEnv loadDefaultConfig initialWorld).2).count
        .isWindowFloating = 1 :=
  ⟨by decide,
    congrArg Prod.fst (ensureFloating_first_toggle_fails everyCommandFailsEnv loadDefaultConfig
      initialWorld (by decide) (by decide)).1,
    (ensureFloating_first_toggle_fails everyCommandFailsEnv loadDefaultConfig
      initialWorld (by decide) (by decide)).2.1,
    (ensureFloating_first_toggle_fails everyCommandFailsEnv loadDefaultConfig
      initialWorld (by decide) (by decide)).2.2.1⟩

/-- A run of `ensureFloating` in which the first toggle succeeds, the window is
still tiled, and both toggles of the first round of the retry loop report
failure: the round goes on to its mode query, which reports a floating window,
and `ensureFloating` returns true. -/
theorem ensureFloating_loop_toggle_failures_ignored :
    (ensureFloating laterTogglesFailEnv loadDefaultConfig initialWorld).2.trace =
      [.isWindowFloating, .hyprctl .activewindow,
       .toggleFloating, .hyprctl .activewindow, .hyprctl (.dispatch .togglefloating),
       .msleep 100, .isWindowFloating, .hyprctl .activewindow,
       .toggleFloating, .hyprctl .activewindow, .hyprctl (.dispatch .togglefloating),
       .msleep 200,
       .toggleFloating, .hyprctl .activewindow, .hyprctl (.dispatch .togglefloating),
       .msleep 200, .isWindowFloating, .hyprctl .activewindow] ∧
    (toggleFloating laterTogglesFailEnv
      { initialWorld with trace :=
        [.isWindowFloating, .hyprctl .activewindow,
         .toggleFloating, .hyprctl .activewindow, .hyprctl (.dispatch .togglefloating),
         .msleep 100, .isWindowFloating, .hyprctl .activewindow] }).1 = false ∧
    (toggleFloating laterTogglesFailEnv
      { initialWorld with trace :=
        [.isWindowFloating, .hyprctl .activewindow,
         .toggleFloating, .hyprctl .activewindow, .hyprctl (.dispatch .togglefloating),
         .msleep 100, .isWindowFloating, .hyprctl .activewindow,
         .toggleFloating, .hyprctl .activewindow, .hyprctl (.dispatch .togglefloating),
         .msleep 200] }).1 = false ∧
    (ensureFloating laterTogglesFailEnv loadDefaultConfig initialWorld).1 = true := by
  decide

/-! ## Applying a stored position (`GridManager::applyPositionByCode`) -/

theorem getGridPosition_of_unknown (cfg : Config) (preset code : String)
    (h : List.lookup preset cfg.presets = none ∨
      ∃ presetData, List.lookup preset cfg.presets = some presetData ∧
        List.lookup code presetData = none) :
    getGridPosition cfg preset code =
      { x := 0, y := 0, width := 0, height := 0, centered := false, scale := 1 } := by
  rcases h with h | ⟨presetData, h1, h2⟩
  · simp [getGridPosition, QMap.value, h, List.lookup]
  · simp [getGridPosition, QMap.value, h1, h2]

/-- C26: `applyPositionByCode` returns false and leaves the world as it was (no
query of the screen, no command, no event at all) whenever the preset is
unknown, the position code is unknown in that preset, or the stored position
has width 0 or height 0; otherwise it returns exactly what `applyGridPosition`
returns for the stored position, in the world that call leaves. -/
theorem applyPositionByCode_guard (env : Env) (cfg : Config) (preset code : String)
    (w : World) :
    ((List.lookup preset cfg.presets = none ∨
        (∃ presetData, List.lookup preset cfg.presets = some presetData ∧
          List.lookup code presetData = none) ∨
        (getGridPosition cfg preset code).width = 0 ∨
        (getGridPosition cfg preset code).height = 0) →
      applyPositionByCode env cfg preset code w = (some false, w)) ∧
    ((getGridPosition cfg preset code).width ≠ 0 →
      (getGridPosition cfg preset code).height ≠ 0 →
      applyPositionByCode env cfg preset code w =
        applyGridPosition env cfg (getGridPosition cfg preset code) w) := by
  constructor
  · intro h
    have hzero : (getGridPosition cfg preset code).width = 0 ∨
        (getGridPosition cfg preset code).height = 0 := by
      rcases h with h | h | h
      · rw [getGridPosition_of_unknown cfg preset code (Or.inl h)]
        exact Or.inl rfl
      · rw [getGridPosition_of_unknown cfg preset code (Or.inr h)]
        exact Or.inl rfl
      · exact h
    unfold applyPositionByCode
    simp only [hzero, if_true]
  · intro hw hh
    unfold applyPositionByCode
    simp only [hw, hh, or_self, if_false]

/-- Witness of C26: with the configuration `threeCodesConfig`, the unknown
preset "q", the unknown code "z" of the preset "p" and the code "b" of width 0
are refused in an unchanged world, and the code "a" is handed to
`applyGridPosition`. -/
theorem applyPositionByCode_guard_witness :
    applyPositionByCode twoWindowsEnv threeCodesConfig "q" "a" initialWorld =
      (some false, initialWorld) ∧
    applyPositionByCode twoWindowsEnv threeCodesConfig "p" "z" initialWorld =
      (some false, initialWorld) ∧
    applyPositionByCode twoWindowsEnv threeCodesConfig "p" "b" initialWorld =
      (some false, initialWorld) ∧
    applyPositionByCode twoWindowsEnv threeCodesConfig "p" "a" initialWorld =
      applyGridPosition twoWindowsEnv threeCodesConfig
        (getGridPosition threeCodesConfig "p" "a") initialWorld :=
  ⟨(applyPositionByCode_guard twoWindowsEnv threeCodesConfig "q" "a" initialWorld).1
      (Or.inl rfl),
    (applyPositionByCode_guard twoWindowsEnv threeCodesConfig "p" "z" initialWorld).1
      (Or.inr (Or.inl ⟨_, rfl, rfl⟩)),
    (applyPositionByCode_guard twoWindowsEnv threeCodesConfig "p" "b" initialWorld).1
      (Or.inr (Or.inr (Or.inl (by decide)))),
    (applyPositionByCode_guard twoWindowsEnv threeCodesConfig "p" "a" initialWorld).2
      (by decide) (by decide)⟩

/-! ## The retry branch (`GridManager::applyGridPosition`) -/

theorem applyGridPosition_calls_le_one (env : Env) (cfg : Config) (position : GridPosition)
    (w : World) : (positioningCalls w (applyGridPosition env cfg position w).2).length ≤ 1 := by
  by_cases hscreen : (getScreenDimensions env w).1.width ≤ 0 ∨
      (getScreenDimensions env w).1.height ≤ 0
  · have h : (applyGridPosition env cfg position w).2 = (getScreenDimensions env w).2 := by
      unfold applyGridPosition
      simp only [hscreen, if_true]
    rw [h, (getScreenDimensions_emits env w).calls_eq]
    exact Nat.zero_le 1
  · cases hpixel : gridToPixelPosition cfg position (getScreenDimensions env w).1 with
    | none =>
      have h : (applyGridPosition env cfg position w).2 = (getScreenDimensions env w).2 := by
        unfold applyGridPosition
        simp only [hscreen, hpixel, if_false]
      rw [h, (getScreenDimensions_emits env w).calls_eq]
      exact Nat.zero_le 1
    | some pixelPos =>
      rw [(applyGridPosition_emits env cfg position w pixelPos (by omega) (by omega)
        hpixel).calls_eq]
      exact le_refl 1

/-- C23: the retry path of `applyGridPosition` is unreachable.  In one call at
most one positioning call (`moveAndResizeWindow` or `positionTiledWindow`) is
made; when that call fails, `applyGridPosition` returns false in the world the
call left, so nothing follows it (no pause, no second attempt, no
notification); and the run is the same for every value of `retryOnFailure` and
`retryDelay`.  All of this holds for every configuration, so for every
`retryCount` too (`retryCount` is also read by `ensureFloating`, before the
positioning call). -/
theorem applyGridPosition_retry_unreachable (env : Env) (cfg : Config)
    (position : GridPosition) (w : World) :
    (positioningCalls w (applyGridPosition env cfg position w).2).length ≤ 1 ∧
    (∀ pixelPos, 0 < (getScreenDimensions env w).1.width →
      0 < (getScreenDimensions env w).1.height →
      gridToPixelPosition cfg position (getScreenDimensions env w).1 = some pixelPos →
      (if cfg.useTiling && (hasMultipleWindowsInWorkspace env (getScreenDimensions env w).2).1
        then positionTiledWindow env pixelPos.x pixelPos.y pixelPos.width pixelPos.height
          (ensureTiled env
            (hasMultipleWindowsInWorkspace env (getScreenDimensions env w).2).2).2
        else moveAndResizeWindow env pixelPos.x pixelPos.y pixelPos.width pixelPos.height
          (ensureFloating env cfg
            (hasMultipleWindowsInWorkspace env (getScreenDimensions env w).2).2).2).1 = false →
      applyGridPosition env cfg position w = (some false,
        (if cfg.useTiling &&
            (hasMultipleWindowsInWorkspace env (getScreenDimensions env w).2).1
          then positionTiledWindow env pixelPos.x pixelPos.y pixelPos.width pixelPos.height
            (ensureTiled env
              (hasMultipleWindowsInWorkspace env (getScreenDimensions env w).2).2).2
          else moveAndResizeWindow env pixelPos.x pixelPos.y pixelPos.width pixelPos.height
            (ensureFloating env cfg
              (hasMultipleWindowsInWorkspace env (getScreenDimensions env w).2).2).2).2)) ∧
    (∀ (retryOnFailure : Bool) (retryDelay : ℤ),
      applyGridPosition env
          { cfg with retryOnFailure := retryOnFailure, retryDelay := retryDelay } position w =
        applyGridPosition env cfg position w) := by
  refine ⟨applyGridPosition_calls_le_one env cfg position w, ?_, ?_⟩
  · intro pixelPos hwidth hheight hpixel hfail
    have hscreen : ¬ ((getScreenDimensions env w).1.width ≤ 0 ∨
        (getScreenDimensions env w).1.height ≤ 0) := by omega
    unfold applyGridPosition
    simp only [hscreen, hpixel, if_false, hfail, Bool.not_false, if_true]
  · intro retryOnFailure retryDelay
    unfold applyGridPosition
    simp only [Bool.not_true, Bool.false_and, Bool.false_eq_true, if_false]
    rfl

/-- Witness of C23: the default configuration (`retryOnFailure` = true,
`retryCount` = 3) in an environment whose first `movewindowpixel` fails. -/
theorem applyGridPosition_retry_unreachable_witness :
    (positioningCalls initialWorld (applyGridPosition firstMoveFailsEnv loadDefaultConfig
      { x := 0, y := 0, width := 1, height := 1 } initialWorld).2).length ≤ 1 ∧
    (applyGridPosition firstMoveFailsEnv loadDefaultConfig
      { x := 0, y := 0, width := 1, height := 1 } initialWorld).1 = some false ∧
    applyGridPosition firstMoveFailsEnv
        { loadDefaultConfig with retryOnFailure := false, retryDelay := 0 }
        { x := 0, y := 0, width := 1, height := 1 } initialWorld =
      applyGridPosition firstMoveFailsEnv loadDefaultConfig
        { x := 0, y := 0, width := 1, height := 1 } initialWorld :=
  ⟨(applyGridPosition_retry_unreachable firstMoveFailsEnv loadDefaultConfig
      { x := 0, y := 0, width := 1, height := 1 } initialWorld).1,
    congrArg Prod.fst ((applyGridPosition_retry_unreachable firstMoveFailsEnv loadDefaultConfig
      { x := 0, y := 0, width := 1, height := 1 } initialWorld).2.1
        { x := 5, y := 5, width := 633, height := 353 }
        (by decide) (by decide) (by decide) (by decide)),
    (applyGridPosition_retry_unreachable firstMoveFailsEnv loadDefaultConfig
      { x := 0, y := 0, width := 1, height := 1 } initialWorld).2.2 false 0⟩

/-! ## The smoke test (`GridManager::testAllPositions`) -/

theorem applyGridPosition_returns (env : Env) (cfg : Config) (position : GridPosition)
    (w : World) (hrows : cfg.rows ≠ 0) (hcols : cfg.columns ≠ 0) :
    ∃ result, (applyGridPosition env cfg position w).1 = some result := by
  by_cases hscreen : (getScreenDimensions env w).1.width ≤ 0 ∨
      (getScreenDimensions env w).1.height ≤ 0
  · refine ⟨false, ?_⟩
    unfold applyGridPosition
    simp only [hscreen, if_true]
  · obtain ⟨pixelPos, hpixel⟩ := gridToPixelPosition_isSome cfg position
      (getScreenDimensions env w).1 hrows hcols
    exact ⟨_, applyGridPosition_result env cfg position w pixelPos (by omega) (by omega) hpixel⟩

theorem applyPositionByCode_returns (env : Env) (cfg : Config) (preset code : String)
    (w : World) (hrows : cfg.rows ≠ 0) (hcols : cfg.columns ≠ 0) :
    ∃ result, (applyPositionByCode env cfg preset code w).1 = some result := by
  unfold applyPositionByCode
  dsimp only
  split
  · exact ⟨false, rfl⟩
  · exact applyGridPosition_returns env cfg _ w hrows hcols

theorem applyEveryCode_length (env : Env) (cfg : Config) (preset : String)
    (codes : List String) (w : World) :
    (applyEveryCode env cfg preset codes w).1.length = codes.length := by
  induction codes generalizing w with
  | nil => rfl
  | cons code codes ih =>
    simp only [applyEveryCode, List.length_cons, ih]

theorem testAllPositionsLoop_eq (env : Env) (cfg : Config) (preset : String)
    (hrows : cfg.rows ≠ 0) (hcols : cfg.columns ≠ 0) (codes : List String)
    (allSuccess : Bool) (w : World) :
    testAllPositionsLoop env cfg preset codes allSuccess w =
      (some (allSuccess &&
          (applyEveryCode env cfg preset codes w).1.all (fun applied => applied == some true)),
        (applyEveryCode env cfg preset codes w).2) := by
  induction codes generalizing allSuccess w with
  | nil => simp [testAllPositionsLoop, applyEveryCode]
  | cons code codes ih =>
    obtain ⟨result, hresult⟩ := applyPositionByCode_returns env cfg preset code w hrows hcols
    simp only [testAllPositionsLoop, applyEveryCode, hresult, ih, List.all_cons]
    cases result <;> cases allSuccess <;> simp

/-- C21: `testAllPositions` returns false, in an unchanged world, when there is
no preset or when the first preset has no position.  Otherwise (for a grid with
rows and columns) its run is the run `applyEveryCode` of the specification over
the position codes of the first preset in the order of its keys: every code is
applied once, also after an application that returned false, and the result is
true if and only if every application returned true. -/
theorem testAllPositions_applies_every_code (env : Env) (cfg : Config) (w : World)
    (hrows : cfg.rows ≠ 0) (hcols : cfg.columns ≠ 0) :
    (getPresetNames cfg = [] → testAllPositions env cfg w = (some false, w)) ∧
    ∀ testPreset, (getPresetNames cfg).head? = some testPreset →
      (getPositionCodesForPreset cfg testPreset = [] →
        testAllPositions env cfg w = (some false, w)) ∧
      (getPositionCodesForPreset cfg testPreset ≠ [] →
        testAllPositions env cfg w =
          (some ((applyEveryCode env cfg testPreset
              (getPositionCodesForPreset cfg testPreset) w).1.all
                (fun applied => applied == some true)),
            (applyEveryCode env cfg testPreset
              (getPositionCodesForPreset cfg testPreset) w).2) ∧
        (applyEveryCode env cfg testPreset
          (getPositionCodesForPreset cfg testPreset) w).1.length =
            (getPositionCodesForPreset cfg testPreset).length ∧
        ((testAllPositions env cfg w).1 = some true ↔
          ∀ applied ∈ (applyEveryCode env cfg testPreset
            (getPositionCodesForPreset cfg testPreset) w).1, applied = some true)) := by
  constructor
  · intro h
    unfold testAllPositions
    simp only [h]
  · intro testPreset hfirst
    obtain ⟨rest, hnames⟩ : ∃ rest, getPresetNames cfg = testPreset :: rest := by
      cases hn : getPresetNames cfg with
      | nil => rw [hn] at hfirst; exact Option.noConfusion hfirst
      | cons a rest =>
        rw [hn] at hfirst
        exact ⟨rest, by rw [Option.some.inj hfirst]⟩
    constructor
    · intro hcodes
      unfold testAllPositions
      simp only [hnames, hcodes, List.isEmpty_nil, if_true]
    · intro hcodes
      have hne : (getPositionCodesForPreset cfg testPreset).isEmpty = false := by
        cases hc : getPositionCodesForPreset cfg testPreset with
        | nil => exact absurd hc hcodes
        | cons a l => rfl
      have hrun : testAllPositions env cfg w =
          (some ((applyEveryCode env cfg testPreset
              (getPositionCodesForPreset cfg testPreset) w).1.all
                (fun applied => applied == some true)),
            (applyEveryCode env cfg testPreset
              (getPositionCodesForPreset cfg testPreset) w).2) := by
        unfold testAllPositions
        simp only [hnames, hne, Bool.false_eq_true, if_false,
          testAllPositionsLoop_eq env cfg testPreset hrows hcols, Bool.true_and]
      refine ⟨hrun, applyEveryCode_length env cfg testPreset _ w, ?_⟩
      rw [hrun]
      simp

/-- Witness of C21: the three codes of `threeCodesConfig`, of which the second
is refused. -/
theorem testAllPositions_applies_every_code_witness :
    testAllPositions twoWindowsEnv threeCodesConfig initialWorld =
      (some ((applyEveryCode twoWindowsEnv threeCodesConfig "p" ["a", "b", "c"]
          initialWorld).1.all (fun applied => applied == some true)),
        (applyEveryCode twoWindowsEnv threeCodesConfig "p" ["a", "b", "c"] initialWorld).2) :=
  (((testAllPositions_applies_every_code twoWindowsEnv threeCodesConfig initialWorld
    (by decide) (by decide)).2 "p" rfl).2 (by decide)).1

/-- A run of `testAllPositions` over the three codes of `threeCodesConfig`: the
second application returns false, the third is made all the same, there are
three pauses of 2000 ms, and the result is false. -/
theorem testAllPositions_continues_after_failure :
    (applyEveryCode twoWindowsEnv threeCodesConfig "p" ["a", "b", "c"] initialWorld).1 =
      [some true, some false, some true] ∧
    (testAllPositions twoWindowsEnv threeCodesConfig initialWorld).1 = some false ∧
    positioningCalls initialWorld
        (testAllPositions twoWindowsEnv threeCodesConfig initialWorld).2 =
      [.moveAndResizeWindow 5 5 633 353, .moveAndResizeWindow 643 363 633 353] ∧
    (initialWorld.since
      (testAllPositions twoWindowsEnv threeCodesConfig initialWorld).2).count
        (.msleep 2000) = 3 := by
  decide

/-! ## Preset round trip (`saveGridPosition`, `getGridPosition`) -/

theorem lookup_insert_self {β : Type} (m : QMap β) (key : String) (value : β) :
    List.lookup key (QMap.insert m key value) = some value := by
  induction m with
  | nil => simp [QMap.insert, List.lookup]
  | cons entry rest ih =>
    obtain ⟨k, v⟩ := entry
    unfold QMap.insert
    split_ifs with h1 h2
    · simp [List.lookup]
    · simp [List.lookup]
    · have hne : (key == k) = false := by simpa using h1
      rw [List.lookup_cons, hne]
      exact ih

theorem lookup_insert_of_ne {β : Type} (m : QMap β) (key other : String) (value : β)
    (h : other ≠ key) : List.lookup other (QMap.insert m key value) = List.lookup other m := by
  have hne : (other == key) = false := by simpa using h
  induction m with
  | nil => simp [QMap.insert, List.lookup, hne]
  | cons entry rest ih =>
    obtain ⟨k, v⟩ := entry
    unfold QMap.insert
    split_ifs with h1 h2
    · rw [List.lookup_cons, hne, List.lookup_cons, ← h1, hne]
    · rw [List.lookup_cons, hne]
    · rw [List.lookup_cons, List.lookup_cons, ih]

theorem value_insert_self {β : Type} (m : QMap β) (key : String) (value dflt : β) :
    QMap.value (QMap.insert m key value) key dflt = value := by
  simp only [QMap.value, lookup_insert_self]

theorem value_insert_of_ne {β : Type} (m : QMap β) (key other : String) (value dflt : β)
    (h : other ≠ key) :
    QMap.value (QMap.insert m key value) other dflt = QMap.value m other dflt := by
  simp only [QMap.value, lookup_insert_of_ne m key other value h]

/-- C30: preset round trip.  After `saveGridPosition(preset, code, p)`,
`getGridPosition(preset, code)` returns p when p.scale > 0 and p with the scale
replaced by 1.0 otherwise, and `getGridPosition` of every other pair
(preset, code) returns what it returned before the save. -/
theorem saveGridPosition_round_trip (cfg : Config) (preset code : String) (p : GridPosition) :
    getGridPosition (saveGridPosition cfg preset code p) preset code =
        (if 0 < p.scale then p else { p with scale := 1 }) ∧
      ∀ otherPreset otherCode, ¬ (otherPreset = preset ∧ otherCode = code) →
        getGridPosition (saveGridPosition cfg preset code p) otherPreset otherCode =
          getGridPosition cfg otherPreset otherCode := by
  constructor
  · simp only [getGridPosition, saveGridPosition, value_insert_self, Option.getD_some]
    by_cases hs : 0 < p.scale
    · simp only [hs, if_true, not_le.2 hs, if_false]
    · simp only [hs, if_false, not_lt.1 hs, if_true]
  · intro otherPreset otherCode hne
    by_cases hp : otherPreset = preset
    · have hc : otherCode ≠ code := fun hc => hne ⟨hp, hc⟩
      subst hp
      simp only [getGridPosition, saveGridPosition, value_insert_self,
        value_insert_of_ne _ code otherCode _ _ hc]
    · simp only [getGridPosition, saveGridPosition,
        value_insert_of_ne _ preset otherPreset _ _ hp]

/-- Witness of C30: a position of scale -2 saved as "default:mine" in the
default configuration is read back with the scale 1, a position of scale 3/4 is
read back as it is, and "default:medium" is read as before. -/
theorem saveGridPosition_round_trip_witness :
    getGridPosition (saveGridPosition loadDefaultConfig "default" "mine"
        { x := 1, y := 2, width := 1, height := 1, centered := true, scale := -2 })
        "default" "mine" =
      { x := 1, y := 2, width := 1, height := 1, centered := true, scale := 1 } ∧
    getGridPosition (saveGridPosition loadDefaultConfig "default" "mine"
        { x := 1, y := 2, width := 1, height := 1, centered := true, scale := 3 / 4 })
        "default" "mine" =
      { x := 1, y := 2, width := 1, height := 1, centered := true, scale := 3 / 4 } ∧
    getGridPosition (saveGridPosition loadDefaultConfig "default" "mine"
        { x := 1, y := 2, width := 1, height := 1, centered := true, scale := -2 })
        "default" "medium" =
      getGridPosition loadDefaultConfig "default" "medium" := by
  refine ⟨?_, ?_, ?_⟩
  · have h := (saveGridPosition_round_trip loadDefaultConfig "default" "mine"
      { x := 1, y := 2, width := 1, height := 1, centered := true, scale := -2 }).1
    rw [h]
    norm_num
  · have h := (saveGridPosition_round_trip loadDefaultConfig "default" "mine"
      { x := 1, y := 2, width := 1, height := 1, centered := true, scale := 3 / 4 }).1
    rw [h]
    norm_num
  · exact (saveGridPosition_round_trip loadDefaultConfig "default" "mine"
      { x := 1, y := 2, width := 1, height := 1, centered := true, scale := -2 }).2
      "default" "medium" (by decide)

/-- The preset "default" after a save under the new code "mine": the entry is
put at its place in the order of the keys, between "medium" and "right". -/
theorem saveGridPosition_keeps_key_order :
    getPositionCodesForPreset loadDefaultConfig "default" =
      ["bottom", "bottom-left", "bottom-right", "full", "large", "left", "medium", "right",
       "small", "top", "top-left", "top-right"] ∧
    getPositionCodesForPreset (saveGridPosition loadDefaultConfig "default" "mine"
        { x := 1, y := 2, width := 1, height := 1 }) "default" =
      ["bottom", "bottom-left", "bottom-right", "full", "large", "left", "medium", "mine",
       "right", "small", "top", "top-left", "top-right"] := by
  decide

/-! ## 32-bit arithmetic -/

theorem wrapInt_of_fits (a : ℤ) (h : fitsInt a) : wrapInt a = a := by
  obtain ⟨h1, h2⟩ := h
  unfold wrapInt
  omega

theorem wrapInt_fits (a : ℤ) : fitsInt (wrapInt a) := by
  unfold wrapInt
  constructor <;> omega

theorem cell32_eq (total gaps count : ℤ) (h : cellFits total gaps count) :
    divInt (subInt total (mulInt gaps (addInt count 1))) count =
      Int.tdiv (total - gaps * (count + 1)) count := by
  obtain ⟨h1, h2, h3, h4⟩ := h
  simp only [addInt, mulInt, subInt, divInt, wrapInt_of_fits _ h1, wrapInt_of_fits _ h2,
    wrapInt_of_fits _ h3, wrapInt_of_fits _ h4]

theorem start32_eq (gaps start cell : ℤ) (h : startFits gaps start cell) :
    addInt gaps (mulInt start (addInt cell gaps)) = gaps + start * (cell + gaps) := by
  obtain ⟨h1, h2, h3⟩ := h
  simp only [addInt, mulInt, wrapInt_of_fits _ h1, wrapInt_of_fits _ h2, wrapInt_of_fits _ h3]

theorem span32_eq (gaps span cell : ℤ) (h : spanFits gaps span cell) :
    addInt (mulInt span cell) (mulInt (subInt span 1) gaps) =
      span * cell + (span - 1) * gaps := by
  obtain ⟨h1, h2, h3, h4⟩ := h
  simp only [addInt, mulInt, subInt, wrapInt_of_fits _ h1, wrapInt_of_fits _ h2,
    wrapInt_of_fits _ h3, wrapInt_of_fits _ h4]

theorem cellWidth32_eq (cfg : Config) (screen : Screen) (h : CellsFit cfg screen) :
    cellWidth32 cfg screen = cellWidth cfg screen :=
  cell32_eq _ _ _ h.1

theorem cellHeight32_eq (cfg : Config) (screen : Screen) (h : CellsFit cfg screen) :
    cellHeight32 cfg screen = cellHeight cfg screen :=
  cell32_eq _ _ _ h.2

/-- The grid branch in 32-bit arithmetic, before any assumption on the sizes of
the values. -/
theorem gridToPixelPosition32_grid (cfg : Config) (position : GridPosition) (screen : Screen)
    (hrows : cfg.rows ≠ 0) (hcols : cfg.columns ≠ 0) (hmode : centeredScaled position = false) :
    gridToPixelPosition32 cfg position screen = some
      { x := addInt cfg.gaps (mulInt position.x (addInt (cellWidth32 cfg screen) cfg.gaps))
        y := addInt cfg.gaps (mulInt position.y (addInt (cellHeight32 cfg screen) cfg.gaps))
        width := addInt (mulInt position.width (cellWidth32 cfg screen))
          (mulInt (subInt position.width 1) cfg.gaps)
        height := addInt (mulInt position.height (cellHeight32 cfg screen))
          (mulInt (subInt position.height 1) cfg.gaps) } := by
  simp [gridToPixelPosition32, hrows, hcols, hmode]

/-- When no intermediate value overflows, the grid branch in 32-bit arithmetic
returns the exact values. -/
theorem gridToPixelPosition32_grid_exact (cfg : Config) (position : GridPosition)
    (screen : Screen) (hrows : cfg.rows ≠ 0) (hcols : cfg.columns ≠ 0)
    (hmode : centeredScaled position = false) (hfit : GridFits cfg position screen) :
    gridToPixelPosition32 cfg position screen = some
      { x := cfg.gaps + position.x * (cellWidth cfg screen + cfg.gaps)
        y := cfg.gaps + position.y * (cellHeight cfg screen + cfg.gaps)
        width := position.width * cellWidth cfg screen + (position.width - 1) * cfg.gaps
        height := position.height * cellHeight cfg screen + (position.height - 1) * cfg.gaps } := by
  obtain ⟨hcells, hstart, hsize⟩ := hfit
  rw [gridToPixelPosition32_grid cfg position screen hrows hcols hmode,
    cellWidth32_eq cfg screen hcells, cellHeight32_eq cfg screen hcells,
    start32_eq _ _ _ hstart.1, start32_eq _ _ _ hstart.2,
    span32_eq _ _ _ hsize.1, span32_eq _ _ _ hsize.2]

/-- When no intermediate value overflows, the grid branch computed in 32-bit
arithmetic and the one computed with exact values agree. -/
theorem gridToPixelPosition32_eq_of_fits (cfg : Config) (position : GridPosition)
    (screen : Screen) (hrows : cfg.rows ≠ 0) (hcols : cfg.columns ≠ 0)
    (hmode : centeredScaled position = false) (hfit : GridFits cfg position screen) :
    gridToPixelPosition32 cfg position screen = gridToPixelPosition cfg position screen := by
  rw [gridToPixelPosition32_grid_exact cfg position screen hrows hcols hmode hfit,
    gridToPixelPosition_grid cfg position screen hrows hcols hmode]

/-- In the centered branch, on a screen whose width and height are `int` values
that are not negative, the 32-bit computation and the exact one agree: no
intermediate value can overflow. -/
theorem gridToPixelPosition32_eq_of_centered (cfg : Config) (position : GridPosition)
    (screen : Screen) (hmode : centeredScaled position = true)
    (hW : 0 ≤ screen.width) (hH : 0 ≤ screen.height)
    (hWint : fitsInt screen.width) (hHint : fitsInt screen.height) :
    gridToPixelPosition32 cfg position screen = gridToPixelPosition cfg position screen := by
  obtain ⟨-, h0, h1⟩ := (centeredScaled_iff position).1 hmode
  have hw := mulIntDouble_le screen.width position.scale hW
    (le_trans hWint.2 (by norm_num)) h0 h1
  have hh := mulIntDouble_le screen.height position.scale hH
    (le_trans hHint.2 (by norm_num)) h0 h1
  have htw := truncToInt_bounds _ _ hw.1 hw.2
  have hth := truncToInt_bounds _ _ hh.1 hh.2
  have hcx := centered_bounds _ _ htw.2
  have hcy := centered_bounds _ _ hth.2
  have hsubw : subInt screen.width (truncToInt (mulIntDouble screen.width position.scale)) =
      screen.width - truncToInt (mulIntDouble screen.width position.scale) :=
    wrapInt_of_fits _ ⟨by have := hWint.1; omega, by have := hWint.2; omega⟩
  have hsubh : subInt screen.height (truncToInt (mulIntDouble screen.height position.scale)) =
      screen.height - truncToInt (mulIntDouble screen.height position.scale) :=
    wrapInt_of_fits _ ⟨by have := hHint.1; omega, by have := hHint.2; omega⟩
  have hdivw : divInt (screen.width - truncToInt (mulIntDouble screen.width position.scale)) 2 =
      Int.tdiv (screen.width - truncToInt (mulIntDouble screen.width position.scale)) 2 :=
    wrapInt_of_fits _ ⟨by have := hcx.1; omega, by have := hcx.2; have := hWint.2; omega⟩
  have hdivh : divInt (screen.height - truncToInt (mulIntDouble screen.height position.scale)) 2 =
      Int.tdiv (screen.height - truncToInt (mulIntDouble screen.height position.scale)) 2 :=
    wrapInt_of_fits _ ⟨by have := hcy.1; omega, by have := hcy.2; have := hHint.2; omega⟩
  unfold gridToPixelPosition32 gridToPixelPosition
  simp only [hmode, if_true, hsubw, hsubh, hdivw, hdivh]

/-! ## Grid mode in 32-bit arithmetic -/

/-- C1, counterexample: a position in grid mode on a grid with rows > 0 and
columns > 0 for which the x returned is not gap + pos.x*(cellWidth+gap).  For
x = 4000000 on the default grid (3x3, gap 5) and a 1920x1080 screen the formula
gives 5 + 4000000 * (633 + 5) = 2552000005, which does not fit in an `int`; the
program returns x = -1742967291. -/
theorem gridToPixelPosition_grid_mode_counterexample :
    0 < loadDefaultConfig.rows ∧ 0 < loadDefaultConfig.columns ∧
    gridToPixelPosition32 loadDefaultConfig { x := 4000000, y := 0, width := 1, height := 1 }
        screen1920x1080 = some { x := -1742967291, y := 5, width := 633, height := 353 } ∧
    loadDefaultConfig.gaps + 4000000 *
        (Int.tdiv (screen1920x1080.width - loadDefaultConfig.gaps *
          (loadDefaultConfig.columns + 1)) loadDefaultConfig.columns + loadDefaultConfig.gaps)
      = 2552000005 ∧
    ¬ fitsInt 2552000005 := by
  decide

/-- C1, as amended: in grid mode, that is for a position that is not (centered
with 0 < scale < 1), and a grid with rows > 0 and columns > 0, on every screen,
provided that no intermediate value of the computation overflows the 32-bit
`int`, `gridToPixelPosition` returns x = gap + pos.x*(cellWidth+gap),
y = gap + pos.y*(cellHeight+gap), width = pos.width*cellWidth + (pos.width-1)*gap
and height = pos.height*cellHeight + (pos.height-1)*gap, where
cellWidth = (screen.width - gap*(columns+1)) / columns and
cellHeight = (screen.height - gap*(rows+1)) / rows by integer division. -/
theorem gridToPixelPosition_grid_mode (cfg : Config) (position : GridPosition)
    (screen : Screen) (hrows : 0 < cfg.rows) (hcols : 0 < cfg.columns)
    (hmode : ¬ (position.centered = true ∧ 0 < position.scale ∧ position.scale < 1))
    (hfit : GridFits cfg position screen) :
    gridToPixelPosition32 cfg position screen = some
      { x := cfg.gaps + position.x *
          (Int.tdiv (screen.width - cfg.gaps * (cfg.columns + 1)) cfg.columns + cfg.gaps)
        y := cfg.gaps + position.y *
          (Int.tdiv (screen.height - cfg.gaps * (cfg.rows + 1)) cfg.rows + cfg.gaps)
        width := position.width *
          Int.tdiv (screen.width - cfg.gaps * (cfg.columns + 1)) cfg.columns +
            (position.width - 1) * cfg.gaps
        height := position.height *
          Int.tdiv (screen.height - cfg.gaps * (cfg.rows + 1)) cfg.rows +
            (position.height - 1) * cfg.gaps } := by
  have hm : centeredScaled position = false := by
    rw [← Bool.not_eq_true, centeredScaled_iff]
    exact hmode
  rw [gridToPixelPosition32_grid_exact cfg position screen hrows.ne.symm hcols.ne.symm hm hfit]
  rfl

/-- Witness of C1 as amended: the bottom-right cell of the default 3x3 grid on a
1920x1080 screen. -/
theorem gridToPixelPosition_grid_mode_witness :
    GridFits loadDefaultConfig { x := 2, y := 2, width := 1, height := 1 } screen1920x1080 ∧
    gridToPixelPosition32 loadDefaultConfig { x := 2, y := 2, width := 1, height := 1 }
        screen1920x1080 = some
      { x := 5 + 2 * (Int.tdiv (1920 - 5 * (3 + 1)) 3 + 5)
        y := 5 + 2 * (Int.tdiv (1080 - 5 * (3 + 1)) 3 + 5)
        width := 1 * Int.tdiv (1920 - 5 * (3 + 1)) 3 + (1 - 1) * 5
        height := 1 * Int.tdiv (1080 - 5 * (3 + 1)) 3 + (1 - 1) * 5 } :=
  ⟨by decide,
    gridToPixelPosition_grid_mode loadDefaultConfig { x := 2, y := 2, width := 1, height := 1 }
      screen1920x1080 (by decide) (by decide) (by simp) (by decide)⟩

/-- C3, counterexample: the hypotheses of the claim hold and a returned size is
not positive.  With 12 rows, 1 column and a gap of 100 on a 1920x1080 screen
(both sides exceed gap*(columns+1) = 200) the height of a cell is -18; with the
default grid on a 21x21 screen (both sides exceed 20) the width of a cell is
0; with the default grid on a 1920x1080 screen a position of width 4000000 has
the exact width 4000000 * 633 + 3999999 * 5 = 2551999995, which does not fit in
an `int`, and the width returned is -1742967301. -/
theorem gridToPixelPosition_size_pos_counterexample :
    (1 ≤ tallGridConfig.columns ∧ 1 ≤ tallGridConfig.rows ∧
      tallGridConfig.gaps * (tallGridConfig.columns + 1) < screen1920x1080.width ∧
      tallGridConfig.gaps * (tallGridConfig.columns + 1) < screen1920x1080.height ∧
      gridToPixelPosition32 tallGridConfig { x := 0, y := 0, width := 1, height := 1 }
        screen1920x1080 = some { x := 100, y := 100, width := 1720, height := -18 }) ∧
    (1 ≤ loadDefaultConfig.columns ∧ 1 ≤ loadDefaultConfig.rows ∧
      loadDefaultConfig.gaps * (loadDefaultConfig.columns + 1) < 21 ∧
      gridToPixelPosition32 loadDefaultConfig { x := 0, y := 0, width := 1, height := 1 }
        { screen1920x1080 with width := 21, height := 21 } =
        some { x := 5, y := 5, width := 0, height := 0 }) ∧
    (loadDefaultConfig.gaps * (loadDefaultConfig.columns + 1) < screen1920x1080.width ∧
      loadDefaultConfig.gaps * (loadDefaultConfig.columns + 1) < screen1920x1080.height ∧
      gridToPixelPosition32 loadDefaultConfig
        { x := 0, y := 0, width := 4000000, height := 1 } screen1920x1080 =
        some { x := 5, y := 5, width := -1742967301, height := 353 }) := by
  decide

/-- C3, as amended: for every grid with columns >= 1, rows >= 1 and gap >= 0,
every non-centered position with width >= 1 and height >= 1, and every screen
with width >= gap*(columns+1) + columns and height >= gap*(rows+1) + rows (so
that a cell has at least one pixel each way), provided that no intermediate
value of the cell sizes and of the width and height overflows the 32-bit `int`,
the width and height returned by `gridToPixelPosition` are strictly positive. -/
theorem gridToPixelPosition_size_pos (cfg : Config) (position : GridPosition)
    (screen : Screen) (hcols : 1 ≤ cfg.columns) (hrows : 1 ≤ cfg.rows) (hgap : 0 ≤ cfg.gaps)
    (hc : position.centered = false) (hw : 1 ≤ position.width) (hh : 1 ≤ position.height)
    (hW : cfg.gaps * (cfg.columns + 1) + cfg.columns ≤ screen.width)
    (hH : cfg.gaps * (cfg.rows + 1) + cfg.rows ≤ screen.height)
    (hcells : CellsFit cfg screen) (hsize : SizeFits cfg position screen) :
    ∃ r, gridToPixelPosition32 cfg position screen = some r ∧ 0 < r.width ∧ 0 < r.height := by
  have hm : centeredScaled position = false := by simp [centeredScaled, hc]
  have hcw : 1 ≤ cellWidth cfg screen := by
    unfold cellWidth
    rw [Int.tdiv_eq_ediv (by omega) (by omega)]
    exact Int.le_ediv_of_mul_le (by omega) (by omega)
  have hch : 1 ≤ cellHeight cfg screen := by
    unfold cellHeight
    rw [Int.tdiv_eq_ediv (by omega) (by omega)]
    exact Int.le_ediv_of_mul_le (by omega) (by omega)
  refine ⟨_, gridToPixelPosition32_grid cfg position screen (by omega) (by omega) hm, ?_, ?_⟩
  · have h1 : 1 ≤ position.width * cellWidth cfg screen := by nlinarith
    have h2 : 0 ≤ (position.width - 1) * cfg.gaps := mul_nonneg (by omega) hgap
    show 0 < addInt (mulInt position.width (cellWidth32 cfg screen))
      (mulInt (subInt position.width 1) cfg.gaps)
    rw [cellWidth32_eq cfg screen hcells, span32_eq _ _ _ hsize.1]
    omega
  · have h1 : 1 ≤ position.height * cellHeight cfg screen := by nlinarith
    have h2 : 0 ≤ (position.height - 1) * cfg.gaps := mul_nonneg (by omega) hgap
    show 0 < addInt (mulInt position.height (cellHeight32 cfg screen))
      (mulInt (subInt position.height 1) cfg.gaps)
    rw [cellHeight32_eq cfg screen hcells, span32_eq _ _ _ hsize.2]
    omega

/-- Witness of C3 as amended: a cell of the default grid on a 1920x1080
screen. -/
theorem gridToPixelPosition_size_pos_witness :
    ∃ r, gridToPixelPosition32 loadDefaultConfig { x := 0, y := 0, width := 1, height := 1 }
        screen1920x1080 = some r ∧ 0 < r.width ∧ 0 < r.height :=
  gridToPixelPosition_size_pos loadDefaultConfig { x := 0, y := 0, width := 1, height := 1 }
    screen1920x1080 (by decide) (by decide) (by decide) rfl (by decide) (by decide)
    (by decide) (by decide) (by decide) (by decide)

/-- C27, counterexample: two adjacent spans in grid mode whose edges do not
meet.  On the default grid and a 1920x1080 screen the span x = 3365961, w = 1
has the left edge 2147483123 and the width 633, so its right edge plus one gap
is 2147483761, which does not fit in an `int`; the left edge returned for the
span that starts at x + w = 3365962 is -2147483535. -/
theorem gridToPixelPosition_tiles_counterexample :
    gridToPixelPosition32 loadDefaultConfig { x := 3365961, y := 0, width := 1, height := 1 }
        screen1920x1080 = some { x := 2147483123, y := 5, width := 633, height := 353 } ∧
    gridToPixelPosition32 loadDefaultConfig { x := 3365962, y := 0, width := 1, height := 1 }
        screen1920x1080 = some { x := -2147483535, y := 5, width := 633, height := 353 } ∧
    (2147483123 : ℤ) + 633 + loadDefaultConfig.gaps ≠ -2147483535 ∧
    ¬ fitsInt (2147483123 + 633 + loadDefaultConfig.gaps) := by
  decide

/-- C27, as amended: grid cells tile without overlap as long as nothing
overflows.  In grid mode, for every grid with rows and columns, every gap and
screen, and positions `p` and `q` such that no intermediate value overflows the
32-bit `int` in the computation of the rectangle of `p` and of the left and top
edges of the rectangle of `q`: if q.x = p.x + p.width then
rect(p).x + rect(p).width + gap = rect(q).x, and if q.y = p.y + p.height then
rect(p).y + rect(p).height + gap = rect(q).y. -/
theorem gridToPixelPosition_tiles (cfg : Config) (screen : Screen) (p q : GridPosition)
    (hrows : cfg.rows ≠ 0) (hcols : cfg.columns ≠ 0)
    (hp : ¬ (p.centered = true ∧ 0 < p.scale ∧ p.scale < 1))
    (hq : ¬ (q.centered = true ∧ 0 < q.scale ∧ q.scale < 1))
    (hpfit : GridFits cfg p screen) (hqfit : StartFits cfg q screen) :
    ∃ r s, gridToPixelPosition32 cfg p screen = some r ∧
      gridToPixelPosition32 cfg q screen = some s ∧
      (q.x = p.x + p.width → r.x + r.width + cfg.gaps = s.x) ∧
      (q.y = p.y + p.height → r.y + r.height + cfg.gaps = s.y) := by
  have hmp : centeredScaled p = false := by
    rw [← Bool.not_eq_true, centeredScaled_iff]; exact hp
  have hmq : centeredScaled q = false := by
    rw [← Bool.not_eq_true, centeredScaled_iff]; exact hq
  refine ⟨_, _, gridToPixelPosition32_grid_exact cfg p screen hrows hcols hmp hpfit,
    gridToPixelPosition32_grid cfg q screen hrows hcols hmq, ?_, ?_⟩
  · intro hx
    simp only [cellWidth32_eq cfg screen hpfit.1, start32_eq _ _ _ hqfit.1]
    rw [hx]
    ring
  · intro hy
    simp only [cellHeight32_eq cfg screen hpfit.1, start32_eq _ _ _ hqfit.2]
    rw [hy]
    ring

/-- Witness of C27 as amended: the cells (0, 0) and (1, 1) of the default grid
on a 1920x1080 screen. -/
theorem gridToPixelPosition_tiles_witness :
    ∃ r s, gridToPixelPosition32 loadDefaultConfig { x := 0, y := 0, width := 1, height := 1 }
        screen1920x1080 = some r ∧
      gridToPixelPosition32 loadDefaultConfig { x := 1, y := 1, width := 2, height := 2 }
        screen1920x1080 = some s ∧
      r.x + r.width + loadDefaultConfig.gaps = s.x ∧
      r.y + r.height + loadDefaultConfig.gaps = s.y := by
  obtain ⟨r, s, hr, hs, hx, hy⟩ := gridToPixelPosition_tiles loadDefaultConfig screen1920x1080
    { x := 0, y := 0, width := 1, height := 1 } { x := 1, y := 1, width := 2, height := 2 }
    (by decide) (by decide) (by simp) (by simp) (by decide) (by decide)
  exact ⟨r, s, hr, hs, hx (by decide), hy (by decide)⟩

end HyprGrid
